import Mathlib

/-! # liblava: frame lifecycle and overlay draw-buffer pool

A shallow embedding of

* `liblava/app/imgui.cpp`: the per-slot vertex/index buffer pool of the overlay
  (`imgui::create`, `imgui::destroy`, `imgui::render`, `imgui::prepare_draw_lists`,
  `imgui::render_draw_lists`);
* `liblava/app/app.cpp`: the window step registered by `app::handle_window` together
  with the helpers it calls (`create_target`, `destroy_target`, `create_imgui`,
  `destroy_imgui`, `create_block`), the render step registered by `app::render`, the block
  command registered by `app::create_block` and the run-end handler of `app::setup_run`.

Calls that leave the embedded files (device, window system, user callbacks) get their
outcome from an explicit record of results; every call that matters for ordering is
logged in a trace.
-/

namespace lava

/-! ## Machine integers -/

/-- Number of values of `size_t` and of `VkDeviceSize` (64-bit unsigned). -/
def size_range : Nat := 2 ^ 64

/-- Number of values of `ui32` / `unsigned` / `index`. -/
def ui32_range : Nat := 2 ^ 32

/-- Number of non-negative values of `int` (the type of the ImGui counts). -/
def int_range : Nat := 2 ^ 31

/-- Unsigned 64-bit multiplication. -/
def mul64 (x y : Nat) : Nat := (x * y) % size_range

/-- Unsigned 64-bit addition. -/
def add64 (x y : Nat) : Nat := (x + y) % size_range

/-- Unsigned 64-bit subtraction (wraps below zero). -/
def sub64 (x y : Nat) : Nat := (x % size_range + size_range - y % size_range) % size_range

/-- Unsigned 32-bit addition. -/
def add32 (x y : Nat) : Nat := (x + y) % ui32_range

/-- The value of `sizeof(ImDrawVert)`: two `ImVec2` and one `ImU32` (imgui.h). -/
def sizeof_ImDrawVert : Nat := 20

/-- The value of `sizeof(ImDrawIdx)`: `unsigned short`, drawn with `VK_INDEX_TYPE_UINT16`. -/
def sizeof_ImDrawIdx : Nat := 2

/-! ## Buffers -/

/-- Modelled from the spec: the `buffer` class (liblava/resource/buffer.hpp) is not part of
the embedded sources. A buffer is either unset or created with a byte capacity. -/
structure buffer where
  /-- The capacity in bytes of the created buffer, `none` while the buffer is unset. -/
  capacity : Option Nat
  deriving DecidableEq

namespace buffer

/-- Modelled from the spec: `buffer::make()`, a fresh buffer object that is not created. -/
def make : buffer := { capacity := none }

/-- Modelled from the spec: `buffer::valid()`, whether the buffer is created. -/
def valid (b : buffer) : Bool := b.capacity.isSome

/-- Modelled from the spec: `buffer::get_size()`, the byte capacity (0 when unset). -/
def get_size (b : buffer) : Nat := b.capacity.getD 0

/-- Modelled from the spec: `buffer::destroy()`, which releases the buffer. -/
def destroy (_b : buffer) : buffer := { capacity := none }

/-- Modelled from the spec: `buffer::create(device, data, size, usage, mapped, memory_usage)`.
`ok` is the outcome of the device allocation; a failed creation leaves the object as it was. -/
def create (b : buffer) (size : Nat) (ok : Bool) : Bool × buffer :=
  if ok then (true, { capacity := some size }) else (false, b)

end buffer

/-! ## Draw data (imgui.h) -/

/-- The fields of `ImDrawCmd` that `render_draw_lists` reads. -/
structure ImDrawCmd where
  /-- Number of indices drawn by the command (`unsigned int`). -/
  ElemCount : Nat
  /-- Whether `UserCallback` is set. -/
  UserCallback : Bool
  deriving DecidableEq

/-- The fields of `ImDrawList` that the overlay reads. -/
structure ImDrawList where
  /-- The value of `VtxBuffer.Size`. -/
  VtxBuffer_Size : Nat
  /-- The value of `IdxBuffer.Size`. -/
  IdxBuffer_Size : Nat
  /-- The draw commands; `CmdBuffer.Size` is the length. -/
  CmdBuffer : List ImDrawCmd
  deriving DecidableEq

/-- The fields of `ImDrawData` that the overlay reads. The counts are non-negative `int`s. -/
structure ImDrawData where
  TotalVtxCount : Nat
  TotalIdxCount : Nat
  /-- The command lists; `CmdListsCount` is the length. -/
  CmdLists : List ImDrawList
  deriving DecidableEq

/-! ## Trace of the overlay -/

/-- An operation on one buffer of the pool. -/
inductive buffer_op where
  /-- The call `buffer::destroy()`. -/
  | destroy
  /-- The call `buffer::create(..)` with the requested size and its outcome. -/
  | create (size : Nat) (ok : Bool)
  deriving DecidableEq

/-- What the overlay does to the device and records into the command buffer. -/
inductive cmd where
  /-- An operation on the vertex buffer of a slot. -/
  | vertex_buffer (slot : Nat) (op : buffer_op)
  /-- An operation on the index buffer of a slot. -/
  | index_buffer (slot : Nat) (op : buffer_op)
  /-- A `memcpy` of `count` vertices to element offset `dst` of the slot's vertex buffer. -/
  | copy_vertices (slot dst count : Nat)
  /-- A `memcpy` of `count` indices to element offset `dst` of the slot's index buffer. -/
  | copy_indices (slot dst count : Nat)
  /-- The call `vkFlushMappedMemoryRanges` on both buffers of the slot. -/
  | flush_mapped_memory_ranges (slot : Nat)
  /-- The call `m_layout->bind`. -/
  | bind_layout
  /-- The call `vkCmdBindVertexBuffers` with the slot's vertex buffer. -/
  | bind_vertex_buffers (slot : Nat)
  /-- The call `vkCmdBindIndexBuffer` with the slot's index buffer. -/
  | bind_index_buffer (slot : Nat)
  /-- The call `vkCmdSetViewport`. -/
  | set_viewport
  /-- The call `vkCmdPushConstants` at a float offset. -/
  | push_constants (offset : Nat)
  /-- A user callback of a draw command. -/
  | user_callback
  /-- The call `vkCmdSetScissor`. -/
  | set_scissor
  /-- The call `vkCmdDrawIndexed(cmd_buf, elem_count, 1, idx_offset, vtx_offset, 0)`. -/
  | draw_indexed (elem_count idx_offset vtx_offset : Nat)
  deriving DecidableEq

/-! ## The overlay (`imgui`) -/

/-- The members of `imgui` that the buffer pool uses. -/
structure imgui where
  /-- Number of slots requested by the last `create` (`index`, 32-bit unsigned). -/
  m_max_frames : Nat
  /-- Current slot (`index`, 32-bit unsigned). -/
  m_frame : Nat
  /-- Alignment of the buffer sizes (declared in imgui.hpp, which is not embedded). -/
  m_buffer_memory_alignment : Nat
  m_vertex_buffers : List buffer
  m_index_buffers : List buffer
  m_initialized : Bool
  deriving DecidableEq

/-- Outcomes of the fallible calls of `imgui::create`. -/
structure create_results where
  add_vertex_shader : Bool
  add_fragment_shader : Bool
  descriptor_create : Bool
  descriptor_pool_create : Bool
  layout_create : Bool
  deriving DecidableEq

/-- Outcomes of the buffer creations that one call of `prepare_draw_lists` may issue. -/
structure device where
  /-- Outcome of `m_vertex_buffers[m_frame]->create(..)`, if it is called. -/
  create_vertex_buffer : Bool
  /-- Outcome of `m_index_buffers[m_frame]->create(..)`, if it is called. -/
  create_index_buffer : Bool
  deriving DecidableEq

/-- The size expression `((size - 1) / m_buffer_memory_alignment + 1) * m_buffer_memory_alignment`
of imgui.cpp:520 and :536, evaluated in `size_t`. -/
def aligned_size (size alignment : Nat) : Nat :=
  mul64 (add64 (sub64 size 1 / alignment) 1) alignment

/-- The block of imgui.cpp:513-526 (vertex) and :529-542 (index): if the buffer is not valid
or smaller than `size`, destroy it when valid and create it with the aligned size.
Returns the buffer afterwards, the operations performed, and `false` when the creation
failed (the `return` of line 525 / 541). -/
def check_buffer (b : buffer) (size alignment : Nat) (ok : Bool) :
    buffer × List buffer_op × Bool :=
  if !b.valid || b.get_size < size then
    let destroyed := if b.valid then (b.destroy, [buffer_op.destroy]) else (b, [])
    let created := destroyed.1.create (aligned_size size alignment) ok
    (created.2, destroyed.2 ++ [buffer_op.create (aligned_size size alignment) ok], created.1)
  else
    (b, [], true)

/-- The copy loop of imgui.cpp:547-557: one `memcpy` of vertices and one of indices per
command list, the destination pointers advancing by the list's sizes. -/
def copy_lists (slot : Nat) : List ImDrawList → Nat → Nat → List cmd
  | [], _, _ => []
  | l :: ls, vtx_dst, idx_dst =>
      cmd.copy_vertices slot vtx_dst l.VtxBuffer_Size ::
      cmd.copy_indices slot idx_dst l.IdxBuffer_Size ::
      copy_lists slot ls (vtx_dst + l.VtxBuffer_Size) (idx_dst + l.IdxBuffer_Size)

namespace imgui

/-- The function `imgui::create(render_pipeline::s_ptr p, index mf)` of imgui.cpp:366. -/
def create (g : imgui) (mf : Nat) (r : create_results) : Bool × imgui :=
  let g1 := { g with
    m_max_frames := mf
    m_vertex_buffers := g.m_vertex_buffers ++ List.replicate mf buffer.make
    m_index_buffers := g.m_index_buffers ++ List.replicate mf buffer.make }
  if !r.add_vertex_shader then (false, g1)
  else if !r.add_fragment_shader then (false, g1)
  else if !r.descriptor_create then (false, g1)
  else if !r.descriptor_pool_create then (false, g1)
  else if !r.layout_create then (false, g1)
  else (true, { g1 with m_initialized := true })

/-- The function `imgui::invalidate_device_objects` of imgui.cpp:485. -/
def invalidate_device_objects (g : imgui) : imgui :=
  { g with m_vertex_buffers := [], m_index_buffers := [] }

/-- The function `imgui::destroy` of imgui.cpp:440. -/
def destroy (g : imgui) : imgui :=
  if !g.m_initialized then g
  else { g.invalidate_device_objects with m_initialized := false }

/-- The function `imgui::prepare_draw_lists` of imgui.cpp:511. `none` stands for an access
outside the bounds of `m_vertex_buffers` or `m_index_buffers`. -/
def prepare_draw_lists (g : imgui) (dev : device) (draw_data : ImDrawData) :
    Option (imgui × List cmd) :=
  let vertex_size := mul64 draw_data.TotalVtxCount sizeof_ImDrawVert
  match g.m_vertex_buffers[g.m_frame]? with
  | none => none
  | some vb =>
    let v := check_buffer vb vertex_size g.m_buffer_memory_alignment dev.create_vertex_buffer
    let g1 := { g with m_vertex_buffers := g.m_vertex_buffers.set g.m_frame v.1 }
    let t1 := v.2.1.map (cmd.vertex_buffer g.m_frame)
    if !v.2.2 then some (g1, t1)
    else
      let index_size := mul64 draw_data.TotalIdxCount sizeof_ImDrawIdx
      match g1.m_index_buffers[g1.m_frame]? with
      | none => none
      | some ib =>
        let i := check_buffer ib index_size g.m_buffer_memory_alignment dev.create_index_buffer
        let g2 := { g1 with m_index_buffers := g1.m_index_buffers.set g1.m_frame i.1 }
        let t2 := t1 ++ i.2.1.map (cmd.index_buffer g.m_frame)
        if !i.2.2 then some (g2, t2)
        else
          some (g2, t2 ++ copy_lists g.m_frame draw_data.CmdLists 0 0
                  ++ [cmd.flush_mapped_memory_ranges g.m_frame])

/-- The inner loop of imgui.cpp:642-673 over the commands of one list: a user callback, or
a scissor and an indexed draw; `idx_offset` (32-bit unsigned) advances by `ElemCount` in
both cases. Returns the recorded commands and the index offset after the list. -/
def draw_cmds (vtx_offset : Nat) : List ImDrawCmd → Nat → List cmd × Nat
  | [], idx_offset => ([], idx_offset)
  | c :: cs, idx_offset =>
      let rest := draw_cmds vtx_offset cs (add32 idx_offset c.ElemCount)
      if c.UserCallback then
        (cmd.user_callback :: rest.1, rest.2)
      else
        (cmd.set_scissor :: cmd.draw_indexed c.ElemCount idx_offset vtx_offset :: rest.1, rest.2)

/-- The outer loop of imgui.cpp:640-676 over the command lists; `vtx_offset` (32-bit
unsigned) advances by the list's vertex count. -/
def draw_lists : List ImDrawList → Nat → Nat → List cmd
  | [], _, _ => []
  | l :: ls, idx_offset, vtx_offset =>
      let r := draw_cmds vtx_offset l.CmdBuffer idx_offset
      r.1 ++ draw_lists ls r.2 (add32 vtx_offset l.VtxBuffer_Size)

/-- The function `imgui::render_draw_lists` of imgui.cpp:580; `draw_data` is the result of
`ImGui::GetDrawData()`. `none` stands for an access outside the bounds of the buffer lists. -/
def render_draw_lists (g : imgui) (dev : device) (draw_data : ImDrawData) :
    Option (imgui × List cmd) :=
  if draw_data.TotalVtxCount = 0 then some (g, [])
  else
    match g.prepare_draw_lists dev draw_data with
    | none => none
    | some (g1, t) =>
      match g1.m_vertex_buffers[g1.m_frame]?, g1.m_index_buffers[g1.m_frame]? with
      | some _, some _ =>
        some (g1, t ++ [cmd.bind_layout, cmd.bind_vertex_buffers g1.m_frame,
                        cmd.bind_index_buffer g1.m_frame, cmd.set_viewport,
                        cmd.push_constants 0, cmd.push_constants 2]
                    ++ draw_lists draw_data.CmdLists 0 0)
      | _, _ => none

/-- The function `imgui::render` of imgui.cpp:502. `none` also stands for the remainder by
`m_max_frames = 0`. -/
def render (g : imgui) (dev : device) (draw_data : ImDrawData) : Option (imgui × List cmd) :=
  match g.render_draw_lists dev draw_data with
  | none => none
  | some (g1, t) =>
    if g1.m_max_frames = 0 then none
    else some ({ g1 with m_frame := add32 g1.m_frame 1 % g1.m_max_frames }, t)

end imgui

/-! ## The application (`app`) -/

/-- Modelled from the spec: the render target (liblava/frame/render_target.hpp is not
embedded). It owns the swapchain image count and the present-mode parameters it was created
with, and reports whether the surface became stale. -/
structure render_target where
  /-- The value of `get_frame_count()`, the number of swapchain images. -/
  frame_count : Nat
  /-- The value of `reload_request()`. -/
  reload_request : Bool
  /-- The `v_sync` argument of `lava::create_target`. -/
  v_sync : Bool
  /-- The `triple_buffer` argument of `lava::create_target`. -/
  triple_buffer : Bool
  /-- Cleared by `render_target::destroy()`. -/
  created : Bool
  deriving DecidableEq

/-- Modelled from the spec: the command block (liblava/block.hpp is not embedded), which
holds one command buffer per frame slot once created. -/
structure block where
  /-- Number of command buffers held. -/
  frame_count : Nat
  /-- Number of registered commands. -/
  cmd_count : Nat
  deriving DecidableEq

/-- The members of `window` read and written by the application steps (window.cpp). -/
structure window where
  /-- The value of `close_request()`. -/
  close_request : Bool
  /-- The member `switch_mode_request`. -/
  switch_mode_request : Bool
  /-- The member `resize_request`. -/
  resize_request : Bool
  /-- The value of `fullscreen()`, that is `!windowed`. -/
  fullscreen : Bool
  /-- The value of `iconified()`. -/
  iconified : Bool
  /-- Whether `_input` is not null. -/
  input_assigned : Bool
  deriving DecidableEq

/-- The members of `app_config` used by the window step. -/
structure app_config where
  v_sync : Bool
  triple_buffer : Bool
  /-- The value of `window_state->fullscreen`. -/
  fullscreen : Bool
  fps_cap : Nat
  deriving DecidableEq

/-- The members of `app` used by the window step. -/
structure app where
  headless : Bool
  window : window
  config : app_config
  imgui : imgui
  block : block
  /-- The pointer `target`; `none` is the null pointer. -/
  target : Option render_target
  m_toggle_v_sync : Bool
  m_frame_counter : Nat
  /-- The member `m_last_render_time` in microseconds, initially 0 (app.hpp:338). -/
  m_last_render_time : Nat := 0
  deriving DecidableEq

/-- Outcomes of the calls that leave the embedded code during one step of the run loop. -/
structure step_results where
  /-- Result of `frame::shut_down()`. -/
  shut_down : Bool
  /-- Whether the `on_destroy` callback is set. -/
  on_destroy_set : Bool
  /-- Whether `glfwCreateWindow` succeeds inside `window::switch_mode`. -/
  switch_mode : Bool
  /-- Result of `lava::create_target`: the image count of the new target, or null. -/
  create_target : Option Nat
  /-- Result of `shading.create(target)`. -/
  shading_create : Bool
  /-- Result of `renderer.create(swapchain)`. -/
  renderer_create : Bool
  /-- The `on_create` callback: unset, or set with its result. -/
  on_create : Option Bool
  /-- Outcomes inside `imgui::create(pipeline, max_frames)`. -/
  imgui_create : create_results
  /-- Result of `pipeline->create(pass)` in the overload of `imgui::create` that takes the
  device and the render pass. -/
  pipeline_create : Bool
  /-- Result of `imgui.upload_fonts`. -/
  upload_fonts : Bool
  /-- Result of `window.handle_resize()`. -/
  handle_resize : Bool
  deriving DecidableEq

/-- The calls logged by the application steps. -/
inductive op where
  /-- The call `shut_down()`. -/
  | shut_down
  /-- The call `device->wait_for_idle()`. -/
  | wait_for_idle
  /-- The user callback `on_destroy()`. -/
  | on_destroy
  /-- The call `renderer.destroy()`. -/
  | renderer_destroy
  /-- The call `shading.destroy()`. -/
  | shading_destroy
  /-- The call `target->destroy()`. -/
  | target_destroy
  /-- The call `imgui.destroy()`. -/
  | imgui_destroy
  /-- The call `m_imgui_fonts->destroy()`. -/
  | imgui_fonts_destroy
  /-- The call `window.switch_mode(config.window_state)` with the requested mode and result. -/
  | window_switch_mode (fullscreen ok : Bool)
  /-- The call `lava::create_target(..)` with the present-mode parameters and its result. -/
  | target_create (v_sync triple_buffer : Bool) (result : Option Nat)
  /-- The call `shading.create(target)`. -/
  | shading_create (ok : Bool)
  /-- The call `renderer.create(..)`. -/
  | renderer_create (ok : Bool)
  /-- The call `window.assign(&input)`. -/
  | window_assign
  /-- The user callback `on_create()`. -/
  | on_create (ok : Bool)
  /-- The call `imgui.setup(..)`. -/
  | imgui_setup
  /-- The call `imgui.create(device, frame_count, pass, cache)`. -/
  | imgui_create (frame_count : Nat) (ok : Bool)
  /-- The call `imgui.upload_fonts(..)`. -/
  | upload_fonts (ok : Bool)
  /-- The call `block.create(device, frame_count, family)`. -/
  | block_create (frame_count : Nat) (ok : Bool)
  /-- The call `block.add_cmd(..)`. -/
  | block_add_cmd
  /-- The call `block.destroy()`. -/
  | block_destroy
  /-- The call `camera.update_projection()`. -/
  | camera_update_projection
  /-- The call `window.handle_resize()`. -/
  | window_handle_resize (ok : Bool)
  /-- The calls `config_file.save()` and `config_file.clear()`. -/
  | config_file_save
  /-- The call `camera.destroy()`. -/
  | camera_destroy
  /-- The call `destroy_pipeline_cache()`. -/
  | destroy_pipeline_cache
  /-- The call `window.destroy()`. -/
  | window_destroy
  /-- The call `fs.terminate()`. -/
  | fs_terminate
  deriving DecidableEq

/-- Outcomes of the calls that leave the embedded code during one render step. -/
structure render_results where
  /-- The value of `us(to_i32(frame_time_ms * 1000))`, the frame time of the cap in
  microseconds, which app.cpp:655-657 computes in `float`. -/
  frame_time_us : Nat
  /-- Result of `get_current_timestamp_us()` at app.cpp:658. -/
  timestamp_check : Nat
  /-- Result of `get_current_timestamp_us()` at app.cpp:662. -/
  timestamp_render : Nat
  /-- Result of `renderer.begin_frame()`: the frame index, or the empty result. -/
  begin_frame : Option Nat
  /-- Result of `block.process(*frame_index)`. -/
  process : Bool
  /-- Result of `renderer.end_frame(..)`. -/
  end_frame : Bool
  deriving DecidableEq

/-- The calls logged by the render step. -/
inductive frame_call where
  /-- The call `sleep(one_ms)`. -/
  | sleep
  /-- The call `renderer.begin_frame()` with its result. -/
  | begin_frame (result : Option Nat)
  /-- The call `block.process(frame)` with its result. -/
  | block_process (frame : Nat) (ok : Bool)
  /-- The call `block.collect_buffers()`. -/
  | collect_buffers
  /-- The call `renderer.end_frame(..)` with its result. -/
  | end_frame (ok : Bool)
  deriving DecidableEq

/-- The debug labels of the block command (app/def.hpp). -/
inductive label where
  | lava_block
  | lava_texture_staging
  deriving DecidableEq

/-- The calls made by the block command on the command buffer. -/
inductive pass_call where
  /-- Construction of a `scoped_label`. -/
  | begin_label (name : label)
  /-- End of the scope of a `scoped_label`. -/
  | end_label (name : label)
  /-- The call `staging.stage(cmd_buf, frame)`. -/
  | staging_stage (frame : Nat)
  /-- The call `on_process(cmd_buf, frame)`. -/
  | on_process (frame : Nat)
  /-- The call `shading.get_pass()->process(cmd_buf, frame)`. -/
  | shading_process (frame : Nat)
  deriving DecidableEq

namespace window

/-- The function `window::switch_mode` of window.cpp:126, `destroy()` followed by `create`,
with the state argument that app.cpp passes: `destroy` clears `_input`, `create` sets
`windowed = !state->fullscreen` and, when the native window was created, clears
`switch_mode_request`. -/
def switch_mode (w : window) (fullscreen ok : Bool) : Bool × window :=
  let destroyed := { w with input_assigned := false }
  let moded := { destroyed with fullscreen := fullscreen }
  if !ok then (false, moded)
  else (true, { moded with switch_mode_request := false })

/-- Modelled from the spec: `window::handle_resize()` (not in the embedded window.cpp), which
consumes the resize request when resizing succeeded. -/
def handle_resize (w : window) (ok : Bool) : Bool × window :=
  if !ok then (false, w) else (true, { w with resize_request := false })

/-- The function `window::destroy` of window.cpp:89, which clears `_input`. -/
def destroy (w : window) : window := { w with input_assigned := false }

end window

/-- Modelled from the spec: `block::destroy()` (liblava/block.hpp is not embedded), which
frees all command buffers. -/
def block.destroy (b : block) : block := { b with frame_count := 0 }

namespace app

/-- Modelled from the spec: `app_config::update_window_state()` (config.cpp is not embedded),
which stores `window.get_state()` (window.cpp:97) in `config.window_state`. -/
def update_window_state (a : app) : app :=
  { a with config := { a.config with fullscreen := a.window.fullscreen } }

/-- The function `app::create_block` of app.cpp:92. `ok` is the result of `block.create`;
`none` stands for the dereference of a null `target`. -/
def create_block (a : app) (ok : Bool) : Option (Bool × app × List op) :=
  match a.target with
  | none => none
  | some tg =>
    if !ok then some (false, a, [op.block_create tg.frame_count false])
    else
      some (true,
        { a with block := { frame_count := tg.frame_count, cmd_count := a.block.cmd_count + 1 } },
        [op.block_create tg.frame_count true, op.block_add_cmd])

/-- The function `app::create_imgui` of app.cpp:381. The overload of `imgui::create` called
at line 394 is declared in imgui.hpp, which is not embedded: it hands `max_frames` to
`imgui::create(pipeline, max_frames)` and then creates the pipeline for the render pass.
`none` stands for the dereference of a null `target`. -/
def create_imgui (a : app) (r : step_results) : Option (Bool × app × List op) :=
  match a.target with
  | none => none
  | some tg =>
    let c := a.imgui.create tg.frame_count r.imgui_create
    let a1 := { a with imgui := c.2 }
    if !(c.1 && r.pipeline_create) then
      some (false, a1, [op.imgui_setup, op.imgui_create tg.frame_count false])
    else if !r.upload_fonts then
      some (false, a1,
        [op.imgui_setup, op.imgui_create tg.frame_count true, op.upload_fonts false])
    else
      some (true, a1,
        [op.imgui_setup, op.imgui_create tg.frame_count true, op.upload_fonts true])

/-- The function `app::destroy_imgui` of app.cpp:419. -/
def destroy_imgui (a : app) : app × List op :=
  ({ a with imgui := a.imgui.destroy }, [op.imgui_destroy, op.imgui_fonts_destroy])

/-- The function `app::create_target` of app.cpp:425. -/
def create_target (a : app) (r : step_results) : Bool × app × List op :=
  let a1 := { a with target := r.create_target.map fun n =>
    { frame_count := n, reload_request := false, v_sync := a.config.v_sync,
      triple_buffer := a.config.triple_buffer, created := true } }
  let t1 := [op.target_create a.config.v_sync a.config.triple_buffer r.create_target]
  match r.create_target with
  | none => (false, a1, t1)
  | some _ =>
    if !r.shading_create then (false, a1, t1 ++ [op.shading_create false])
    else if !r.renderer_create then
      (false, a1, t1 ++ [op.shading_create true, op.renderer_create false])
    else
      let a2 := { a1 with window := { a1.window with input_assigned := true } }
      let t2 := t1 ++ [op.shading_create true, op.renderer_create true, op.window_assign]
      match r.on_create with
      | none => (true, a2, t2)
      | some b => (b, a2, t2 ++ [op.on_create b])

/-- The function `app::destroy_target` of app.cpp:443. `none` stands for the dereference of
a null `target`. -/
def destroy_target (a : app) (r : step_results) : Option (app × List op) :=
  match a.target with
  | none => none
  | some tg =>
    some ({ a with target := some { tg with created := false } },
      (if r.on_destroy_set then [op.on_destroy] else [])
        ++ [op.renderer_destroy, op.shading_destroy, op.target_destroy])

/-- The mode-switch block of the reload pass (app.cpp:575-589). The `bool` is `false` when
`window.switch_mode` failed, where the step returns `false`. -/
def reload_switch_mode (a : app) (r : step_results) : Bool × app × List op :=
  if a.window.switch_mode_request then
    let u := a.update_window_state
    let n := { u with config := { u.config with fullscreen := !u.config.fullscreen } }
    let w := n.window.switch_mode n.config.fullscreen r.switch_mode
    if !w.1 then (false, { n with window := w.2 }, [op.window_switch_mode n.config.fullscreen false])
    else
      (true, ({ n with window := w.2 } : app).update_window_state,
        [op.window_switch_mode n.config.fullscreen true])
  else (true, a, [])

/-- The v-sync block of the reload pass (app.cpp:591-598). -/
def reload_toggle_v_sync (a : app) : app :=
  if a.m_toggle_v_sync then
    { a with config := { a.config with v_sync := !a.config.v_sync }, m_toggle_v_sync := false }
  else a

/-- The reload pass after its teardown (app.cpp:575-603): the mode switch, the v-sync
toggle, `create_target` and `create_imgui`, with the early returns of lines 584 and 601. -/
def reload_recreate (a : app) (r : step_results) : Option (Bool × app × List op) :=
  let s := a.reload_switch_mode r
  if !s.1 then some (false, s.2.1, s.2.2)
  else
    let c := s.2.1.reload_toggle_v_sync.create_target r
    if !c.1 then some (false, c.2.1, s.2.2 ++ c.2.2)
    else
      match c.2.1.create_imgui r with
      | none => none
      | some (b, a5, t5) => some (b, a5, s.2.2 ++ c.2.2 ++ t5)

/-- The step registered by `app::handle_window` (app.cpp:561-614). The result is the
`bool` of the step (`run_continue` is `true`, `run_abort` is `false`), the state and the
calls made; `none` stands for the dereference of a null `target`. -/
def handle_window (a : app) (r : step_results) : Option (Bool × app × List op) :=
  if a.window.close_request then some (r.shut_down, a, [op.shut_down])
  else
    match a.target with
    | none => none
    | some tg =>
      if a.window.switch_mode_request || a.m_toggle_v_sync || tg.reload_request then
        match a.destroy_target r with
        | none => none
        | some (a1, t1) =>
          let d := a1.destroy_imgui
          match d.1.reload_recreate r with
          | none => none
          | some (b, a', t) => some (b, a', op.wait_for_idle :: (t1 ++ d.2 ++ t))
      else if a.window.resize_request then
        let h := a.window.handle_resize r.handle_resize
        some (h.1, { a with window := h.2 },
          [op.camera_update_projection, op.window_handle_resize h.1])
      else some (true, a, [])

/-- The command registered by `app::create_block` (app.cpp:98-117), run by `block.process`.
`on_process` tells whether the callback of that name is set, `current_frame` is the value
of `block.get_current_frame()`. -/
def block_command (on_process : Bool) (current_frame : Nat) : List pass_call :=
  [pass_call.begin_label label.lava_block,
   pass_call.begin_label label.lava_texture_staging,
   pass_call.staging_stage current_frame,
   pass_call.end_label label.lava_texture_staging]
  ++ (if on_process then [pass_call.on_process current_frame] else [])
  ++ [pass_call.shading_process current_frame,
      pass_call.end_label label.lava_block]

/-- The step registered by `app::render` (app.cpp:648-674). The result is the `bool` of the
step (`run_continue` is `true`, `run_abort` is `false`), the state and the calls made. -/
def render (a : app) (r : render_results) : Bool × app × List frame_call :=
  if a.window.iconified then (true, a, [frame_call.sleep])
  else if a.config.fps_cap ≠ 0 ∧ r.timestamp_check < a.m_last_render_time + r.frame_time_us then
    (true, a, [])
  else
    let a1 := { a with m_last_render_time := r.timestamp_render }
    match r.begin_frame with
    | none => (true, a1, [frame_call.begin_frame none])
    | some frame_index =>
      let a2 := { a1 with m_frame_counter := add32 a1.m_frame_counter 1 }
      if !r.process then
        (false, a2, [frame_call.begin_frame (some frame_index),
                     frame_call.block_process frame_index false])
      else
        (r.end_frame, a2,
          [frame_call.begin_frame (some frame_index), frame_call.block_process frame_index true,
           frame_call.collect_buffers, frame_call.end_frame r.end_frame])

/-- Modelled from the spec: the run loop of `frame` (frame.cpp is not embedded), restricted
to the render step: consecutive iterations, one record of outcomes each, stopping after a
step that returned `run_abort`. Returns the results of the steps run, the state and the
calls made. -/
def render_steps (a : app) : List render_results → List Bool × app × List frame_call
  | [] => ([], a, [])
  | r :: rs =>
    let s := a.render r
    if !s.1 then ([false], s.2.1, s.2.2)
    else
      let rest := render_steps s.2.1 rs
      (true :: rest.1, rest.2.1, s.2.2 ++ rest.2.2)

/-- The run-end handler registered by `app::setup_run` (app.cpp:346-371). `none` stands for
the dereference of a null `target`. -/
def run_end (a : app) (r : step_results) : Option (app × List op) :=
  let a1 := if !a.headless then a.update_window_state else a
  if !a1.headless then
    let d := a1.destroy_imgui
    let a2 := { d.1 with block := d.1.block.destroy }
    match a2.destroy_target r with
    | none => none
    | some (a3, t3) =>
      some ({ a3 with window := a3.window.destroy },
        [op.config_file_save, op.camera_destroy] ++ d.2 ++ [op.block_destroy] ++ t3
          ++ [op.destroy_pipeline_cache, op.window_destroy, op.fs_terminate])
  else some (a1, [op.config_file_save, op.destroy_pipeline_cache, op.fs_terminate])

/-- Modelled from the spec: what `frame::run` (frame.cpp is not embedded) does with the
result of the window step: after `run_abort` the loop ends and the run-end handler is
called. Returns the calls of the step followed by those of the handler. -/
def window_step_to_end (a : app) (r : step_results) : Option (Bool × app × List op) :=
  match a.handle_window r with
  | none => none
  | some (true, a1, t1) => some (true, a1, t1)
  | some (false, a1, t1) =>
    match a1.run_end r with
    | none => none
    | some (a2, t2) => some (false, a2, t1 ++ t2)

end app

/-! ## Setup of the application -/

/-- The steps that the application registers with `add_run`. -/
inductive run_step where
  /-- The step of `app::handle_input` (app.cpp:547). -/
  | input
  /-- The step of `app::handle_window` (app.cpp:562). -/
  | window
  /-- The step of `app::update` (app.cpp:619). -/
  | update
  /-- The step of `app::render` (app.cpp:648). -/
  | render
  deriving DecidableEq

/-- The handlers that the application registers with `add_run_end`. -/
inductive end_handler where
  /-- The handler of `app::handle_input` (app.cpp:554), which removes the input callback. -/
  | input_remove
  /-- The handler of `app::setup_run` (app.cpp:346), modelled by `app.run_end`. -/
  | shut_down
  deriving DecidableEq

/-- Outcomes of the calls that leave the embedded code during `app::setup`. -/
structure setup_results where
  /-- Result of `frame::ready()`. -/
  frame_ready : Bool
  /-- Result of `fs.initialize(..)` inside `setup_file_system`. -/
  fs_ready : Bool
  /-- The configuration after `load_config` and `parse_cmd_line`. -/
  config : app_config
  /-- The `on_setup` callback: unset, or set with its result. -/
  on_setup : Option Bool
  /-- Result of `window.create(config.window_state)`. -/
  window_create : Bool
  /-- Whether a device is set or `platform.create_device` returns one. -/
  device_ready : Bool
  /-- Result of `create_pipeline_cache()`. -/
  create_pipeline_cache : Bool
  /-- Result of `camera.create(device)`. -/
  camera_create : Bool
  /-- Result of `block.create(..)`. -/
  block_create : Bool
  /-- Result of `parse_benchmark(..)`. -/
  parse_benchmark : Bool
  /-- Outcomes inside `create_target` and `create_imgui`. -/
  step : step_results
  deriving DecidableEq

/-- The calls logged by `app::setup`. -/
inductive setup_call where
  /-- The call `setup_file_system()` with its result. -/
  | setup_file_system (ok : Bool)
  /-- The call `load_config(..)`. -/
  | load_config
  /-- The call `parse_cmd_line()`. -/
  | parse_cmd_line
  /-- The user callback `on_setup()`. -/
  | on_setup (ok : Bool)
  /-- The call `window.create(config.window_state)`. -/
  | window_create (ok : Bool)
  /-- The call `setup_device()`. -/
  | setup_device (ok : Bool)
  /-- The call `create_pipeline_cache()`. -/
  | create_pipeline_cache (ok : Bool)
  /-- The call `camera.create(device)`. -/
  | camera_create (ok : Bool)
  /-- A call logged by `create_target`, `create_imgui` or `create_block`. -/
  | call (o : op)
  /-- The call `input.add(&imgui.get_input_callback())` and the listener registrations of
  `handle_input`. -/
  | input_add
  /-- The call `add_run(..)`. -/
  | add_run (s : run_step)
  /-- The call `add_run_end(..)`. -/
  | add_run_end (h : end_handler)
  /-- The call `add_run_once(..)`. -/
  | add_run_once
  /-- The call `benchmark(*this, m_frames)`. -/
  | benchmark
  deriving DecidableEq

/-- The function `window::create` of window.cpp:18 with a state argument: `windowed` becomes
`!state->fullscreen`, and when the native window was created `switch_mode_request` is
cleared. -/
def window.create (w : window) (fullscreen ok : Bool) : Bool × window :=
  let moded := { w with fullscreen := fullscreen }
  if !ok then (false, moded)
  else (true, { moded with switch_mode_request := false })

/-- Outcomes of the calls that leave the embedded code during `app::screenshot`. -/
structure screenshot_results where
  /-- Whether `target->get_backbuffer(..)` returns an image. -/
  backbuffer : Bool
  /-- Whether `grab_image(..)` returns an image. -/
  grab_image : Bool
  /-- Result of `fs.create_folder(screenshot_path)`. -/
  create_folder : Bool
  /-- The value of `fs.get_pref_dir() + screenshot_path + get_current_time() + ".png"`. -/
  path : String
  /-- Result of `write_image_png(..)`. -/
  saved : Bool
  deriving DecidableEq

/-- The calls on the file system logged by `screenshot` and `destroy_pipeline_cache`. -/
inductive fs_call where
  /-- The call `fs.create_folder(..)` with its result. -/
  | create_folder (ok : Bool)
  /-- The call `write_image_png(..)` with its result. -/
  | write_image_png (ok : Bool)
  /-- The construction of `file` in write mode, with the value of `file.opened()`. -/
  | file_open (opened : Bool)
  /-- The call `file.write(..)` with its result. -/
  | file_write (ok : Bool)
  /-- The first call `vkGetPipelineCacheData`, which asks for the size. -/
  | get_cache_size (ok : Bool)
  /-- The second call `vkGetPipelineCacheData`, which fetches the data. -/
  | get_cache_data (ok : Bool)
  /-- The call `vkDestroyPipelineCache`. -/
  | destroy_cache
  deriving DecidableEq

/-- Outcomes of the calls that leave the embedded code during `destroy_pipeline_cache`. -/
structure cache_results where
  /-- Result of the size query. -/
  get_size : Bool
  /-- Result of the data query. -/
  get_data : Bool
  /-- Result of `fs.create_folder(_cache_path_)`. -/
  create_folder : Bool
  /-- The value of `file.opened()`. -/
  file_opened : Bool
  /-- Result of `file.write(..)`. -/
  file_write : Bool
  deriving DecidableEq

namespace app

/-- The function `app::setup_window` of app.cpp:271. -/
def setup_window (a : app) (r : setup_results) : Bool × app × List setup_call :=
  let w := a.window.create a.config.fullscreen r.window_create
  if !w.1 then (false, { a with window := w.2 }, [setup_call.window_create false])
  else (true, ({ a with window := w.2 } : app).update_window_state,
    [setup_call.window_create true])

/-- The function `app::setup_render` of app.cpp:315. `none` stands for the dereference of a
null `target`. -/
def setup_render (a : app) (r : setup_results) : Option (Bool × app × List setup_call) :=
  let c := a.create_target r.step
  let t1 := c.2.2.map setup_call.call
  if !c.1 then some (false, c.2.1, t1)
  else if !r.camera_create then some (false, c.2.1, t1 ++ [setup_call.camera_create false])
  else
    let t2 := t1 ++ [setup_call.camera_create true, setup_call.call op.camera_update_projection]
    match c.2.1.create_imgui r.step with
    | none => none
    | some (b, a2, ti) =>
      if !b then some (false, a2, t2 ++ ti.map setup_call.call)
      else
        match a2.create_block r.block_create with
        | none => none
        | some (b3, a3, tb) =>
          some (b3, a3, t2 ++ ti.map setup_call.call ++ tb.map setup_call.call)

/-- The function `app::setup_run` of app.cpp:335. -/
def setup_run (a : app) : app × List setup_call :=
  ({ a with m_frame_counter := 0 },
    (if !a.headless then
      [setup_call.input_add, setup_call.add_run run_step.input,
       setup_call.add_run_end end_handler.input_remove, setup_call.add_run run_step.window]
     else [])
    ++ [setup_call.add_run run_step.update]
    ++ (if !a.headless then [setup_call.add_run run_step.render] else [])
    ++ [setup_call.add_run_end end_handler.shut_down, setup_call.add_run_once])

/-- The function `app::setup` of app.cpp:173. `none` stands for the dereference of a null
`target`. -/
def setup (a : app) (r : setup_results) : Option (Bool × app × List setup_call) :=
  if !r.frame_ready then some (false, a, [])
  else if !r.fs_ready then some (false, a, [setup_call.setup_file_system false])
  else
    let a0 := { a with config := r.config }
    let t0 := [setup_call.setup_file_system true, setup_call.load_config,
               setup_call.parse_cmd_line]
    let s : Bool × List setup_call :=
      match r.on_setup with
      | none => (true, [])
      | some b => (b, [setup_call.on_setup b])
    if !s.1 then some (false, a0, t0 ++ s.2)
    else
      let w := if !a0.headless then a0.setup_window r else (true, a0, [])
      if !w.1 then some (false, w.2.1, t0 ++ s.2 ++ w.2.2)
      else if !r.device_ready then
        some (false, w.2.1, t0 ++ s.2 ++ w.2.2 ++ [setup_call.setup_device false])
      else
        let t1 := t0 ++ s.2 ++ w.2.2 ++ [setup_call.setup_device true,
                    setup_call.create_pipeline_cache r.create_pipeline_cache]
        match (if !w.2.1.headless then w.2.1.setup_render r else some (true, w.2.1, [])) with
        | none => none
        | some (b, a2, t2) =>
          if !b then some (false, a2, t1 ++ t2)
          else
            let u := a2.setup_run
            some (true, u.1,
              t1 ++ t2 ++ u.2 ++ (if r.parse_benchmark then [setup_call.benchmark] else []))

/-- The function `app::screenshot` of app.cpp:678: the returned path (empty on failure) and
the calls on the file system. `none` stands for the dereference of a null `target`. -/
def screenshot (a : app) (r : screenshot_results) : Option (String × List fs_call) :=
  if a.headless then some ("", [])
  else
    match a.target with
    | none => none
    | some _ =>
      if !r.backbuffer then some ("", [])
      else if !r.grab_image then some ("", [])
      else if !r.create_folder then some ("", [fs_call.create_folder false])
      else if !r.saved then
        some ("", [fs_call.create_folder true, fs_call.write_image_png false])
      else some (r.path, [fs_call.create_folder true, fs_call.write_image_png true])

/-- The function `app::destroy_pipeline_cache` of app.cpp:151 on the handle `pipeline_cache`
(`none` is the null handle): the handle afterwards and the calls made. -/
def destroy_pipeline_cache (_pipeline_cache : Option Nat) (r : cache_results) :
    Option Nat × List fs_call :=
  let saved : List fs_call :=
    if r.get_size then
      fs_call.get_cache_size true ::
      (if r.get_data then
        fs_call.get_cache_data true ::
        (if !r.create_folder then
          fs_call.create_folder false ::
          fs_call.file_open r.file_opened ::
          (if r.file_opened then [fs_call.file_write r.file_write] else [])
        else [fs_call.create_folder true])
      else [fs_call.get_cache_data false])
    else [fs_call.get_cache_size false]
  (none, saved ++ [fs_call.destroy_cache])

end app

/-! ## Events -/

/-- The value of `GLFW_PRESS` (glfw3.h). -/
def GLFW_PRESS : Int := 1

/-- The value of `GLFW_RELEASE` (glfw3.h). -/
def GLFW_RELEASE : Int := 0

/-- The value of `GLFW_KEY_UNKNOWN` (glfw3.h), the key code of a key that GLFW does not
know. -/
def GLFW_KEY_UNKNOWN : Int := -1

/-- The value of `GLFW_KEY_LEFT_SHIFT` (glfw3.h). -/
def GLFW_KEY_LEFT_SHIFT : Nat := 340

/-- The value of `GLFW_KEY_LEFT_CONTROL` (glfw3.h). -/
def GLFW_KEY_LEFT_CONTROL : Nat := 341

/-- The value of `GLFW_KEY_LEFT_ALT` (glfw3.h). -/
def GLFW_KEY_LEFT_ALT : Nat := 342

/-- The value of `GLFW_KEY_LEFT_SUPER` (glfw3.h). -/
def GLFW_KEY_LEFT_SUPER : Nat := 343

/-- The value of `GLFW_KEY_RIGHT_SHIFT` (glfw3.h). -/
def GLFW_KEY_RIGHT_SHIFT : Nat := 344

/-- The value of `GLFW_KEY_RIGHT_CONTROL` (glfw3.h). -/
def GLFW_KEY_RIGHT_CONTROL : Nat := 345

/-- The value of `GLFW_KEY_RIGHT_ALT` (glfw3.h). -/
def GLFW_KEY_RIGHT_ALT : Nat := 346

/-- The value of `GLFW_KEY_RIGHT_SUPER` (glfw3.h). -/
def GLFW_KEY_RIGHT_SUPER : Nat := 347

/-- The fields of `ImGuiIO` (imgui.h) that `handle_key_event` reads and writes. -/
structure ImGuiIO where
  /-- The array `bool KeysDown[512]`. -/
  KeysDown : List Bool
  KeyCtrl : Bool
  KeyShift : Bool
  KeyAlt : Bool
  KeySuper : Bool
  deriving DecidableEq

/-- The assignment `array[index] = value` of C++ with an `int` index: `none` when the index
is outside the array. -/
def array_write (array : List Bool) (index : Int) (value : Bool) : Option (List Bool) :=
  if 0 ≤ index ∧ index.toNat < array.length then some (array.set index.toNat value) else none

/-- The function `imgui::handle_mouse_button_event` of imgui.cpp:58 on the array
`m_mouse_just_pressed`. `none` stands for an access outside the array. -/
def imgui.handle_mouse_button_event (m_mouse_just_pressed : List Bool)
    (button action _mods : Int) : Option (List Bool) :=
  if action = GLFW_PRESS ∧ button ≥ 0 ∧ button < m_mouse_just_pressed.length then
    array_write m_mouse_just_pressed button true
  else some m_mouse_just_pressed

/-- The function `imgui::handle_key_event` of imgui.cpp:72 on the state of `ImGui::GetIO()`.
`none` stands for an access outside `KeysDown`. -/
def imgui.handle_key_event (io : ImGuiIO) (key _scancode action _mods : Int) :
    Option ImGuiIO :=
  match (if action = GLFW_PRESS then array_write io.KeysDown key true else some io.KeysDown) with
  | none => none
  | some k1 =>
    match (if action = GLFW_RELEASE then array_write k1 key false else some k1) with
    | none => none
    | some k2 =>
      match k2[GLFW_KEY_LEFT_CONTROL]?, k2[GLFW_KEY_RIGHT_CONTROL]?, k2[GLFW_KEY_LEFT_SHIFT]?,
          k2[GLFW_KEY_RIGHT_SHIFT]?, k2[GLFW_KEY_LEFT_ALT]?, k2[GLFW_KEY_RIGHT_ALT]?,
          k2[GLFW_KEY_LEFT_SUPER]?, k2[GLFW_KEY_RIGHT_SUPER]? with
      | some lc, some rc, some ls, some rs, some la, some ra, some lu, some ru =>
        some { KeysDown := k2, KeyCtrl := lc || rc, KeyShift := ls || rs,
               KeyAlt := la || ra, KeySuper := lu || ru }
      | _, _, _, _, _, _, _, _ => none

/-- The events that the callbacks of `window::handle_message` add to the queues of the
input. -/
inductive input_event where
  /-- An entry of `_input->key`. -/
  | key (key action mods scancode : Int)
  /-- An entry of `_input->scroll`. -/
  | scroll (x_offset y_offset : Int)
  /-- An entry of `_input->mouse_button`. -/
  | mouse_button (button action mods : Int)
  /-- An entry of `_input->mouse_move`. -/
  | mouse_move (x_position y_position : Int)
  /-- An entry of `_input->mouse_active`. -/
  | mouse_active (active : Bool)
  deriving DecidableEq

namespace window

/-- The key callback of window.cpp:148. `w` is the result of `get_window(handle)`; the result
is the events added to the input, `none` stands for the dereference of a null `_input`. -/
def key_callback (w : Option window) (key scancode action mods : Int) :
    Option (List input_event) :=
  match w with
  | none => some []
  | some win =>
    if win.input_assigned then some [input_event.key key action mods scancode] else none

/-- The scroll callback of window.cpp:157; the offsets (`r64`) are carried as numbers. -/
def scroll_callback (w : Option window) (x_offset y_offset : Int) :
    Option (List input_event) :=
  match w with
  | none => some []
  | some win =>
    if win.input_assigned then some [input_event.scroll x_offset y_offset] else some []

/-- The mouse-button callback of window.cpp:167. -/
def mouse_button_callback (w : Option window) (button action mods : Int) :
    Option (List input_event) :=
  match w with
  | none => some []
  | some win =>
    if win.input_assigned then some [input_event.mouse_button button action mods] else some []

/-- The cursor-position callback of window.cpp:177; the position (`r64`) is carried as
numbers. -/
def cursor_pos_callback (w : Option window) (x_position y_position : Int) :
    Option (List input_event) :=
  match w with
  | none => some []
  | some win =>
    if win.input_assigned then some [input_event.mouse_move x_position y_position] else some []

/-- The cursor-enter callback of window.cpp:187. -/
def cursor_enter_callback (w : Option window) (entered : Int) : Option (List input_event) :=
  match w with
  | none => some []
  | some win =>
    if win.input_assigned then some [input_event.mouse_active (decide (entered > 0))]
    else some []

end window

/-! ## Sequences of overlay calls -/

/-- A call made on the overlay by its owner. -/
inductive pool_call where
  /-- The call `imgui::create(pipeline, mf)` with the outcomes of its fallible calls. -/
  | create (mf : Nat) (r : create_results)
  /-- The call `imgui::render(cmd_buf)` with the outcomes of the buffer creations and the
  draw data of the frame. -/
  | render (dev : device) (draw_data : ImDrawData)
  /-- The call `imgui::destroy()`. -/
  | destroy
  deriving DecidableEq

/-- The calls of a sequence applied in order (imgui.cpp:366, :502, :440). `none` stands for
an access outside the bounds of the buffer lists or the remainder by `m_max_frames = 0`. -/
def imgui.run_calls (g : imgui) : List pool_call → Option (imgui × List cmd)
  | [] => some (g, [])
  | pool_call.create mf r :: cs => (g.create mf r).2.run_calls cs
  | pool_call.render dev draw_data :: cs =>
    match g.render dev draw_data with
    | none => none
    | some (g1, t1) =>
      match g1.run_calls cs with
      | none => none
      | some (g2, t2) => some (g2, t1 ++ t2)
  | pool_call.destroy :: cs => g.destroy.run_calls cs

/-! ## Vocabulary of the statements -/

/-- The sum of the vertex counts of command lists. -/
def vtx_count (ls : List ImDrawList) : Nat := (ls.map fun l => l.VtxBuffer_Size).sum

/-- The sum of the index counts of command lists. -/
def idx_count (ls : List ImDrawList) : Nat := (ls.map fun l => l.IdxBuffer_Size).sum

/-- The sum of `ElemCount` over commands, user callbacks included. -/
def elem_count (cs : List ImDrawCmd) : Nat := (cs.map fun c => c.ElemCount).sum

/-- The sum of `ElemCount` over all commands of command lists. -/
def elems (ls : List ImDrawList) : Nat := (ls.map fun l => elem_count l.CmdBuffer).sum

/-- The render calls of a sequence of frames. -/
def render_calls (frames : List (device × ImDrawData)) : List pool_call :=
  frames.map fun f => pool_call.render f.1 f.2


/-- The buffer operation on a vertex buffer that a trace entry stands for, with its slot. -/
def cmd.vertex_op : cmd → Option (Nat × buffer_op)
  | cmd.vertex_buffer s op => some (s, op)
  | _ => none

/-- The buffer operation on an index buffer that a trace entry stands for, with its slot. -/
def cmd.index_op : cmd → Option (Nat × buffer_op)
  | cmd.index_buffer s op => some (s, op)
  | _ => none

/-- The vertex block of `prepare_draw_lists` on the current slot. -/
def imgui.vertex_check (g : imgui) (dev : device) (draw_data : ImDrawData) :
    buffer × List buffer_op × Bool :=
  check_buffer (g.m_vertex_buffers.getD g.m_frame buffer.make)
    (mul64 draw_data.TotalVtxCount sizeof_ImDrawVert) g.m_buffer_memory_alignment
    dev.create_vertex_buffer

/-- The index block of `prepare_draw_lists` on the current slot. -/
def imgui.index_check (g : imgui) (dev : device) (draw_data : ImDrawData) :
    buffer × List buffer_op × Bool :=
  check_buffer (g.m_index_buffers.getD g.m_frame buffer.make)
    (mul64 draw_data.TotalIdxCount sizeof_ImDrawIdx) g.m_buffer_memory_alignment
    dev.create_index_buffer

/-- The capacity of a slot's vertex buffer (0 when unset or when there is no such slot). -/
def imgui.vertex_capacity (g : imgui) (slot : Nat) : Nat :=
  (g.m_vertex_buffers.getD slot buffer.make).get_size

/-- The capacity of a slot's index buffer (0 when unset or when there is no such slot). -/
def imgui.index_capacity (g : imgui) (slot : Nat) : Nat :=
  (g.m_index_buffers.getD slot buffer.make).get_size

/-- The lifecycle operations of the render target and its dependents. -/
inductive lifecycle where
  | destroy_overlay
  | destroy_block
  | destroy_target
  | create_target
  | create_block
  | create_overlay
  deriving DecidableEq

/-- The lifecycle operation that a logged call stands for, if any. -/
def op.lifecycle : op → Option lifecycle
  | op.imgui_destroy => some lifecycle.destroy_overlay
  | op.block_destroy => some lifecycle.destroy_block
  | op.target_destroy => some lifecycle.destroy_target
  | op.target_create _ _ _ => some lifecycle.create_target
  | op.block_create _ _ => some lifecycle.create_block
  | op.imgui_create _ _ => some lifecycle.create_overlay
  | _ => none

/-- The reload condition of app.cpp:565-567. -/
def app.reload_pending (a : app) (tg : render_target) : Bool :=
  a.window.switch_mode_request || a.m_toggle_v_sync || tg.reload_request

/-- Calls that are neither a lifecycle operation nor the device-idle wait. -/
def op.minor (o : op) : Prop := o.lifecycle = none ∧ o ≠ op.wait_for_idle

/-- The calls of the teardown of a reload pass, after the device-idle wait. -/
def teardown_ops (r : step_results) : List op :=
  (if r.on_destroy_set then [op.on_destroy] else [])
    ++ [op.renderer_destroy, op.shading_destroy, op.target_destroy]
    ++ [op.imgui_destroy, op.imgui_fonts_destroy]

instance op.minor_decidable (o : op) : Decidable o.minor :=
  inferInstanceAs (Decidable (o.lifecycle = none ∧ o ≠ op.wait_for_idle))

/-- Whether every fallible call inside `imgui::create(pipeline, max_frames)` succeeds. -/
def create_results.ok (r : create_results) : Bool :=
  r.add_vertex_shader && r.add_fragment_shader && r.descriptor_create
    && r.descriptor_pool_create && r.layout_create

/-- Whether every step of `app::create_target` succeeds: the target is created, shading and
renderer are created, and the `on_create` callback, when set, returns `true`. -/
def step_results.create_target_ok (r : step_results) : Bool :=
  r.create_target.isSome && r.shading_create && r.renderer_create && (r.on_create != some false)

/-- Whether every step of `app::create_imgui` succeeds. -/
def step_results.create_imgui_ok (r : step_results) : Bool :=
  r.imgui_create.ok && r.pipeline_create && r.upload_fonts

/-- Whether the mode switch of a reload pass does not fail: none is requested, or
`window.switch_mode` succeeds. -/
def app.switch_mode_ok (a : app) (r : step_results) : Bool :=
  !a.window.switch_mode_request || r.switch_mode

/-- The sub-passes among the calls of the block command. -/
def pass_call.sub_pass : pass_call → Bool
  | pass_call.staging_stage _ => true
  | pass_call.on_process _ => true
  | pass_call.shading_process _ => true
  | _ => false

/-- The calls to `target->destroy()` and to `lava::create_target` in a trace, the latter
with whether `app::create_target` went on to succeed left aside: `true` is a destroy,
`false` a creation that returned a target. -/
def op.target_event : op → Option Bool
  | op.target_destroy => some true
  | op.target_create _ _ (some _) => some false
  | _ => none

/-- The call of the mode-switch block of a reload pass: `window.switch_mode` with the negation
of the window's current mode when a mode switch is requested, nothing otherwise. -/
def app.switch_ops (a : app) (r : step_results) : List op :=
  if a.window.switch_mode_request then [op.window_switch_mode (!a.window.fullscreen) r.switch_mode]
  else []

/-- The calls made inside `create_target` and `create_imgui` after `lava::create_target`. -/
def op.of_create : op → Bool
  | op.shading_create _ => true
  | op.renderer_create _ => true
  | op.window_assign => true
  | op.on_create _ => true
  | op.imgui_setup => true
  | op.imgui_create _ _ => true
  | op.upload_fonts _ => true
  | _ => false

/-- The bytes that a trace entry copies into the vertex buffer of a slot. -/
def cmd.vertex_bytes (slot : Nat) : cmd → Nat
  | cmd.copy_vertices s _ count => if s = slot then count * sizeof_ImDrawVert else 0
  | _ => 0

/-- The bytes that a trace entry copies into the index buffer of a slot. -/
def cmd.index_bytes (slot : Nat) : cmd → Nat
  | cmd.copy_indices s _ count => if s = slot then count * sizeof_ImDrawIdx else 0
  | _ => 0

/-- The total number of bytes that a trace copies into the vertex buffer of a slot. -/
def copied_vertex_bytes (slot : Nat) (t : List cmd) : Nat := (t.map (cmd.vertex_bytes slot)).sum

/-- The total number of bytes that a trace copies into the index buffer of a slot. -/
def copied_index_bytes (slot : Nat) (t : List cmd) : Nat := (t.map (cmd.index_bytes slot)).sum

/-- Whether a logged call of the render step is a `begin_frame` that returned a frame. -/
def frame_call.begun : frame_call → Bool
  | frame_call.begin_frame (some _) => true
  | _ => false

/-- Whether a logged call of the render step is `renderer.end_frame`. -/
def frame_call.ended : frame_call → Bool
  | frame_call.end_frame _ => true
  | _ => false

/-- The number of frames begun in a trace of the render step. -/
def frames_begun (t : List frame_call) : Nat := t.countP frame_call.begun

/-- Whether a call of `setup` creates the window, the render target, the camera, the overlay
or the command block, or registers the input, window or render step (or the input's run-end
handler). -/
def setup_call.windowed : setup_call → Bool
  | setup_call.window_create _ => true
  | setup_call.camera_create _ => true
  | setup_call.call _ => true
  | setup_call.input_add => true
  | setup_call.add_run run_step.input => true
  | setup_call.add_run run_step.window => true
  | setup_call.add_run run_step.render => true
  | setup_call.add_run_end end_handler.input_remove => true
  | _ => false

/-- Whether a logged call destroys the overlay, the command block, the render target, the
camera or the window. -/
def op.destroys : op → Bool
  | op.imgui_destroy => true
  | op.block_destroy => true
  | op.target_destroy => true
  | op.window_destroy => true
  | op.camera_destroy => true
  | _ => false

/-- Whether a logged call is one of the four destructions of the shutdown order. -/
def op.shutdown_destroy : op → Bool
  | op.imgui_destroy => true
  | op.block_destroy => true
  | op.target_destroy => true
  | op.window_destroy => true
  | _ => false

/-- Whether a call on the file system writes a file. -/
def fs_call.writes : fs_call → Bool
  | fs_call.file_write _ => true
  | fs_call.write_image_png _ => true
  | _ => false

/-! ## Sample values -/

/-- A pool with one slot right after a successful `create`: both buffers unset. -/
def fresh_pool : imgui :=
  { m_max_frames := 1, m_frame := 0, m_buffer_memory_alignment := 256,
    m_vertex_buffers := [buffer.make], m_index_buffers := [buffer.make], m_initialized := true }

/-- A device on which every buffer creation succeeds. -/
def device_ok : device := { create_vertex_buffer := true, create_index_buffer := true }

/-- A one-slot pool whose buffers both hold 256 bytes. -/
def pool_grown : imgui :=
  { m_max_frames := 1, m_frame := 0, m_buffer_memory_alignment := 256,
    m_vertex_buffers := [{ capacity := some 256 }],
    m_index_buffers := [{ capacity := some 256 }], m_initialized := true }

/-- A device on which the creation of a vertex buffer fails. -/
def device_vertex_fails : device := { create_vertex_buffer := false, create_index_buffer := true }

/-- Draw data with one list of 3 vertices and 3 indices drawn by one command. -/
def triangle : ImDrawData :=
  { TotalVtxCount := 3, TotalIdxCount := 3,
    CmdLists := [{ VtxBuffer_Size := 3, IdxBuffer_Size := 3,
                   CmdBuffer := [{ ElemCount := 3, UserCallback := false }] }] }

/-- Draw data with one list of 20 vertices and 30 indices drawn by one command. -/
def mesh : ImDrawData :=
  { TotalVtxCount := 20, TotalIdxCount := 30,
    CmdLists := [{ VtxBuffer_Size := 20, IdxBuffer_Size := 30,
                   CmdBuffer := [{ ElemCount := 30, UserCallback := false }] }] }

/-- Draw data with 3 vertices and no index. -/
def points : ImDrawData :=
  { TotalVtxCount := 3, TotalIdxCount := 0,
    CmdLists := [{ VtxBuffer_Size := 3, IdxBuffer_Size := 0, CmdBuffer := [] }] }

/-- A created pool with two slots, both buffers of each slot unset. -/
def pool2 : imgui :=
  { m_max_frames := 2, m_frame := 0, m_buffer_memory_alignment := 256,
    m_vertex_buffers := [buffer.make, buffer.make],
    m_index_buffers := [buffer.make, buffer.make], m_initialized := true }

/-- A running windowed application with a two-image target and a pending v-sync toggle. -/
def app_toggle : app :=
  { headless := false,
    window := { close_request := false, switch_mode_request := false, resize_request := false,
                fullscreen := false, iconified := false, input_assigned := true },
    config := { v_sync := false, triple_buffer := false, fullscreen := false, fps_cap := 0 },
    imgui := pool2,
    block := { frame_count := 2, cmd_count := 1 },
    target := some { frame_count := 2, reload_request := false, v_sync := false,
                     triple_buffer := false, created := true },
    m_toggle_v_sync := true,
    m_frame_counter := 0 }

/-- Every call succeeds and the new target has `n` images. -/
def all_ok (n : Nat) : step_results :=
  { shut_down := false, on_destroy_set := false, switch_mode := true, create_target := some n,
    shading_create := true, renderer_create := true, on_create := none,
    imgui_create := { add_vertex_shader := true, add_fragment_shader := true,
                      descriptor_create := true, descriptor_pool_create := true,
                      layout_create := true },
    pipeline_create := true, upload_fonts := true, handle_resize := true }

/-- The application of `app_toggle` with a pending mode switch instead of the v-sync toggle. -/
def app_switch : app :=
  { app_toggle with
    window := { app_toggle.window with switch_mode_request := true },
    m_toggle_v_sync := false }

/-- Every call succeeds except the creation of the native window in `window.switch_mode`. -/
def switch_fails : step_results := { all_ok 2 with switch_mode := false }

/-- A render step after the cap time with frame 1 acquired, in which `block.process` fails. -/
def process_fails : render_results :=
  { frame_time_us := 0, timestamp_check := 10, timestamp_render := 11,
    begin_frame := some 1, process := false, end_frame := true }

/-- A render step in which `renderer.begin_frame()` returns the empty result. -/
def no_frame : render_results :=
  { frame_time_us := 0, timestamp_check := 10, timestamp_render := 11,
    begin_frame := none, process := true, end_frame := true }

/-- The application of `app_toggle` with the window iconified. -/
def app_iconified : app :=
  { app_toggle with window := { app_toggle.window with iconified := true } }

/-- Every call succeeds except `lava::create_target`, which returns null. -/
def target_null : step_results := { all_ok 2 with create_target := none }

/-- A freshly constructed overlay: no buffers, slot 0, not initialized. -/
def imgui_new : imgui :=
  { m_max_frames := 0, m_frame := 0, m_buffer_memory_alignment := 256,
    m_vertex_buffers := [], m_index_buffers := [], m_initialized := false }

/-- An overlay created for three frames, rendered twice, then destroyed and created again
for two frames, as by a reload whose new target has fewer images, and rendered once more. -/
def shrinking_reload : List pool_call :=
  [pool_call.create 3 (all_ok 3).imgui_create,
   pool_call.render device_ok triangle,
   pool_call.render device_ok triangle,
   pool_call.destroy,
   pool_call.create 2 (all_ok 2).imgui_create,
   pool_call.render device_ok triangle]

/-- Two command lists; the second starts with a user callback. -/
def two_lists : List ImDrawList :=
  [{ VtxBuffer_Size := 4, IdxBuffer_Size := 6,
     CmdBuffer := [{ ElemCount := 6, UserCallback := false }] },
   { VtxBuffer_Size := 8, IdxBuffer_Size := 12,
     CmdBuffer := [{ ElemCount := 0, UserCallback := true },
                   { ElemCount := 6, UserCallback := false },
                   { ElemCount := 6, UserCallback := false }] }]

/-- A constructed application in headless mode, before `setup`. -/
def app_headless : app :=
  { headless := true,
    window := { close_request := false, switch_mode_request := false, resize_request := false,
                fullscreen := false, iconified := false, input_assigned := false },
    config := { v_sync := false, triple_buffer := false, fullscreen := false, fps_cap := 0 },
    imgui := imgui_new,
    block := { frame_count := 0, cmd_count := 0 },
    target := none,
    m_toggle_v_sync := false,
    m_frame_counter := 0 }

/-- A setup in which every call succeeds and the target has two images. -/
def setup_ok : setup_results :=
  { frame_ready := true, fs_ready := true,
    config := { v_sync := false, triple_buffer := false, fullscreen := false, fps_cap := 0 },
    on_setup := none, window_create := true, device_ready := true,
    create_pipeline_cache := true, camera_create := true, block_create := true,
    parse_benchmark := false, step := all_ok 2 }

/-- A screenshot in which every call succeeds. -/
def screenshot_ok : screenshot_results :=
  { backbuffer := true, grab_image := true, create_folder := true,
    path := "screenshot/now.png", saved := true }

/-- A screenshot whose folder cannot be created. -/
def screenshot_no_folder : screenshot_results := { screenshot_ok with create_folder := false }

/-- Both cache queries succeed, the cache folder is created, the file opens and is written. -/
def cache_folder_ok : cache_results :=
  { get_size := true, get_data := true, create_folder := true, file_opened := true,
    file_write := true }

/-- Both cache queries succeed, the cache folder cannot be created. -/
def cache_no_folder : cache_results := { cache_folder_ok with create_folder := false }

/-- The state of `ImGui::GetIO()` with no key down. -/
def io_new : ImGuiIO :=
  { KeysDown := List.replicate 512 false, KeyCtrl := false, KeyShift := false,
    KeyAlt := false, KeySuper := false }

/-- A window after `window::create`, with no input assigned. -/
def window_created : window :=
  { close_request := false, switch_mode_request := false, resize_request := false,
    fullscreen := false, iconified := false, input_assigned := false }

/-- The first list of `two_lists`, as the lists before the second. -/
def two_lists_head : List ImDrawList :=
  [{ VtxBuffer_Size := 4, IdxBuffer_Size := 6,
     CmdBuffer := [{ ElemCount := 6, UserCallback := false }] }]

/-- The second list of `two_lists`. -/
def two_lists_last : ImDrawList :=
  { VtxBuffer_Size := 8, IdxBuffer_Size := 12,
    CmdBuffer := [{ ElemCount := 0, UserCallback := true },
                  { ElemCount := 6, UserCallback := false },
                  { ElemCount := 6, UserCallback := false }] }

/-- Draw data made of `two_lists`. -/
def two_lists_data : ImDrawData :=
  { TotalVtxCount := 12, TotalIdxCount := 18, CmdLists := two_lists }

/-! ## Theorems -/

theorem sub64_one_of_pos {r : Nat} (h0 : 0 < r) (h1 : r < size_range) : sub64 r 1 = r - 1 := by
  unfold sub64 size_range at *
  omega

/-- Without wrap-around the aligned size is `((r - 1) / a + 1) * a`. -/
theorem aligned_size_eq {r a : Nat} (hr : 0 < r) (hr2 : r ≤ 2 ^ 63)
    (ha2 : a < size_range) : aligned_size r a = ((r - 1) / a + 1) * a := by
  have hs : sub64 r 1 = r - 1 := sub64_one_of_pos hr (by unfold size_range; omega)
  have hq : (r - 1) / a ≤ r - 1 := Nat.div_le_self _ _
  have hm : (r - 1) / a * a ≤ r - 1 := Nat.div_mul_le_self _ _
  have hb : ((r - 1) / a + 1) * a < size_range := by
    rcases Nat.lt_or_ge (r - 1) a with h | h
    · rw [Nat.div_eq_of_lt h]; simpa using ha2
    · have : ((r - 1) / a + 1) * a = (r - 1) / a * a + a := by ring
      rw [this]; unfold size_range; omega
  unfold aligned_size mul64 add64
  have hq2 : ((r - 1) / a + 1) % size_range = (r - 1) / a + 1 :=
    Nat.mod_eq_of_lt (by unfold size_range; omega)
  rw [hs, hq2, Nat.mod_eq_of_lt hb]

theorem ceil_div_eq {r a : Nat} (hr : 0 < r) (ha : 0 < a) :
    ⌈(r : ℚ) / (a : ℚ)⌉₊ = (r - 1) / a + 1 := by
  have ha' : (0 : ℚ) < a := by exact_mod_cast ha
  rw [Nat.ceil_eq_iff (Nat.succ_ne_zero _)]
  have hm : (r - 1) / a * a ≤ r - 1 := Nat.div_mul_le_self _ _
  have hlt : r - 1 < ((r - 1) / a + 1) * a := by
    have := @Nat.lt_div_mul_add (r - 1) a ha
    linarith [this, Nat.mul_comm ((r - 1) / a) a, Nat.add_mul ((r-1)/a) 1 a]
  constructor
  · rw [lt_div_iff₀ ha']
    have : (r - 1) / a * a < r := by omega
    exact_mod_cast this
  · rw [div_le_iff₀ ha']
    have : r ≤ ((r - 1) / a + 1) * a := by omega
    exact_mod_cast this

theorem least_multiple {r a : Nat} (hr : 0 < r) (ha : 0 < a) :
    IsLeast {m : Nat | a ∣ m ∧ r ≤ m} (((r - 1) / a + 1) * a) := by
  have hlt : r - 1 < ((r - 1) / a + 1) * a := by
    have := @Nat.lt_div_mul_add (r - 1) a ha
    linarith [this, Nat.mul_comm ((r - 1) / a) a, Nat.add_mul ((r-1)/a) 1 a]
  refine ⟨⟨Dvd.intro_left _ rfl, by omega⟩, ?_⟩
  rintro m ⟨⟨k, rfl⟩, hk⟩
  have h1 : (r - 1) / a < k := by
    rw [Nat.div_lt_iff_lt_mul ha]
    rw [Nat.mul_comm]; omega
  calc ((r - 1) / a + 1) * a ≤ k * a := Nat.mul_le_mul_right a h1
    _ = a * k := Nat.mul_comm _ _

theorem copy_lists_vertex_op (slot : Nat) (ls : List ImDrawList) (v i : Nat) :
    (copy_lists slot ls v i).filterMap cmd.vertex_op = [] := by
  induction ls generalizing v i with
  | nil => rfl
  | cons l ls ih => simp [copy_lists, cmd.vertex_op, ih]

theorem copy_lists_index_op (slot : Nat) (ls : List ImDrawList) (v i : Nat) :
    (copy_lists slot ls v i).filterMap cmd.index_op = [] := by
  induction ls generalizing v i with
  | nil => rfl
  | cons l ls ih => simp [copy_lists, cmd.index_op, ih]

theorem map_vertex_buffer_vertex_op (s : Nat) (ops : List buffer_op) :
    (ops.map (cmd.vertex_buffer s)).filterMap cmd.vertex_op = ops.map (fun op => (s, op)) := by
  induction ops with
  | nil => rfl
  | cons o os ih => simp only [List.map_cons, List.filterMap_cons, cmd.vertex_op, ih]

theorem map_vertex_buffer_index_op (s : Nat) (ops : List buffer_op) :
    (ops.map (cmd.vertex_buffer s)).filterMap cmd.index_op = [] := by
  induction ops with
  | nil => rfl
  | cons o os ih => simp [cmd.index_op]

theorem map_index_buffer_index_op (s : Nat) (ops : List buffer_op) :
    (ops.map (cmd.index_buffer s)).filterMap cmd.index_op = ops.map (fun op => (s, op)) := by
  induction ops with
  | nil => rfl
  | cons o os ih => simp only [List.map_cons, List.filterMap_cons, cmd.index_op, ih]

theorem map_index_buffer_vertex_op (s : Nat) (ops : List buffer_op) :
    (ops.map (cmd.index_buffer s)).filterMap cmd.vertex_op = [] := by
  induction ops with
  | nil => rfl
  | cons o os ih => simp [cmd.vertex_op]

/-- With the current slot inside both buffer lists, `prepare_draw_lists` returns, and its
result is one of three shapes: vertex creation failed, index creation failed, data copied. -/
theorem prepare_draw_lists_eq (g : imgui) (dev : device) (dd : ImDrawData)
    (hv : g.m_frame < g.m_vertex_buffers.length) (hi : g.m_frame < g.m_index_buffers.length) :
    g.prepare_draw_lists dev dd =
      some (
        if (g.vertex_check dev dd).2.2 = false then
          ({ g with m_vertex_buffers := g.m_vertex_buffers.set g.m_frame (g.vertex_check dev dd).1 },
            (g.vertex_check dev dd).2.1.map (cmd.vertex_buffer g.m_frame))
        else if (g.index_check dev dd).2.2 = false then
          ({ g with
              m_vertex_buffers := g.m_vertex_buffers.set g.m_frame (g.vertex_check dev dd).1
              m_index_buffers := g.m_index_buffers.set g.m_frame (g.index_check dev dd).1 },
            (g.vertex_check dev dd).2.1.map (cmd.vertex_buffer g.m_frame)
              ++ (g.index_check dev dd).2.1.map (cmd.index_buffer g.m_frame))
        else
          ({ g with
              m_vertex_buffers := g.m_vertex_buffers.set g.m_frame (g.vertex_check dev dd).1
              m_index_buffers := g.m_index_buffers.set g.m_frame (g.index_check dev dd).1 },
            (g.vertex_check dev dd).2.1.map (cmd.vertex_buffer g.m_frame)
              ++ (g.index_check dev dd).2.1.map (cmd.index_buffer g.m_frame)
              ++ copy_lists g.m_frame dd.CmdLists 0 0
              ++ [cmd.flush_mapped_memory_ranges g.m_frame])) := by
  unfold imgui.prepare_draw_lists imgui.vertex_check imgui.index_check
  simp only [List.getElem?_eq_getElem hv, List.getElem?_eq_getElem hi, List.getD_eq_getElem _ _ hv,
    List.getD_eq_getElem _ _ hi]
  split_ifs <;> simp_all

theorem check_buffer_create_size {b : buffer} {r a : Nat} {ok : Bool} {size : Nat} {ok' : Bool}
    (h : buffer_op.create size ok' ∈ (check_buffer b r a ok).2.1) :
    size = aligned_size r a ∧ ok' = ok := by
  unfold check_buffer at h
  split_ifs at h <;> simp at h <;> exact h

theorem mem_vertex_ops {t : List cmd} {slot : Nat} {op : buffer_op}
    (h : cmd.vertex_buffer slot op ∈ t) : (slot, op) ∈ t.filterMap cmd.vertex_op :=
  List.mem_filterMap.2 ⟨_, h, rfl⟩

theorem mem_index_ops {t : List cmd} {slot : Nat} {op : buffer_op}
    (h : cmd.index_buffer slot op ∈ t) : (slot, op) ∈ t.filterMap cmd.index_op :=
  List.mem_filterMap.2 ⟨_, h, rfl⟩

/-- The operations on vertex buffers in the trace of `prepare_draw_lists` are those of the
vertex block, on the current slot. -/
theorem prepare_draw_lists_vertex_ops {g : imgui} {dev : device} {dd : ImDrawData}
    {g' : imgui} {t : List cmd}
    (hv : g.m_frame < g.m_vertex_buffers.length) (hi : g.m_frame < g.m_index_buffers.length)
    (h : g.prepare_draw_lists dev dd = some (g', t)) :
    t.filterMap cmd.vertex_op = (g.vertex_check dev dd).2.1.map (fun op => (g.m_frame, op)) := by
  rw [prepare_draw_lists_eq g dev dd hv hi] at h
  simp only [Option.some.injEq] at h
  split_ifs at h <;> cases h <;>
    simp only [List.filterMap_append, map_vertex_buffer_vertex_op, map_index_buffer_vertex_op,
      copy_lists_vertex_op, cmd.vertex_op, List.filterMap_cons, List.filterMap_nil,
      List.append_nil]

/-- The operations on index buffers in the trace of `prepare_draw_lists` are those of the
index block, on the current slot, and there are none when the vertex creation failed. -/
theorem prepare_draw_lists_index_ops {g : imgui} {dev : device} {dd : ImDrawData}
    {g' : imgui} {t : List cmd}
    (hv : g.m_frame < g.m_vertex_buffers.length) (hi : g.m_frame < g.m_index_buffers.length)
    (h : g.prepare_draw_lists dev dd = some (g', t)) :
    t.filterMap cmd.index_op =
      if (g.vertex_check dev dd).2.2 = false then []
      else (g.index_check dev dd).2.1.map (fun op => (g.m_frame, op)) := by
  rw [prepare_draw_lists_eq g dev dd hv hi] at h
  simp only [Option.some.injEq] at h
  split_ifs at h <;> cases h <;>
    simp only [List.filterMap_append, map_vertex_buffer_index_op, map_index_buffer_index_op,
      copy_lists_index_op, cmd.index_op, List.filterMap_cons, List.filterMap_nil,
      List.append_nil, List.nil_append, *] <;> simp

theorem mul64_count_le (n k : Nat) (hn : n < int_range) (hk : k ≤ 2 ^ 32) :
    mul64 n k = n * k ∧ n * k ≤ 2 ^ 63 := by
  have h1 : n * k ≤ 2 ^ 31 * 2 ^ 32 := Nat.mul_le_mul (by unfold int_range at hn; omega) hk
  have h2 : (2 : Nat) ^ 31 * 2 ^ 32 = 2 ^ 63 := by norm_num
  refine ⟨?_, by omega⟩
  unfold mul64 size_range
  exact Nat.mod_eq_of_lt (by omega)

theorem aligned_size_spec {r a : Nat} (hr : 0 < r) (hr2 : r ≤ 2 ^ 63) (ha : 0 < a)
    (ha2 : a < size_range) :
    aligned_size r a = ⌈(r : ℚ) / (a : ℚ)⌉₊ * a ∧
      IsLeast {m : Nat | a ∣ m ∧ r ≤ m} (aligned_size r a) := by
  rw [aligned_size_eq hr hr2 ha2, ceil_div_eq hr ha]
  exact ⟨rfl, least_multiple hr ha⟩

/-- C4: in `prepare_draw_lists`, every creation of the current slot's vertex (index) buffer
for a required byte size `r > 0` and an alignment `a > 0` requests `ceil(r / a) * a` bytes,
which is the least multiple of `a` that is at least `r`. -/
theorem prepare_draw_lists_create_size (g : imgui) (dev : device) (dd : ImDrawData)
    (g' : imgui) (t : List cmd)
    (ha : 0 < g.m_buffer_memory_alignment) (ha2 : g.m_buffer_memory_alignment < size_range)
    (hvc : dd.TotalVtxCount < int_range) (hic : dd.TotalIdxCount < int_range)
    (hv : g.m_frame < g.m_vertex_buffers.length) (hi : g.m_frame < g.m_index_buffers.length)
    (h : g.prepare_draw_lists dev dd = some (g', t)) :
    (∀ slot size ok, cmd.vertex_buffer slot (buffer_op.create size ok) ∈ t →
      0 < mul64 dd.TotalVtxCount sizeof_ImDrawVert →
        size = ⌈(mul64 dd.TotalVtxCount sizeof_ImDrawVert : ℚ)
                  / (g.m_buffer_memory_alignment : ℚ)⌉₊ * g.m_buffer_memory_alignment ∧
        IsLeast {m : Nat | g.m_buffer_memory_alignment ∣ m ∧
                  mul64 dd.TotalVtxCount sizeof_ImDrawVert ≤ m} size) ∧
    (∀ slot size ok, cmd.index_buffer slot (buffer_op.create size ok) ∈ t →
      0 < mul64 dd.TotalIdxCount sizeof_ImDrawIdx →
        size = ⌈(mul64 dd.TotalIdxCount sizeof_ImDrawIdx : ℚ)
                  / (g.m_buffer_memory_alignment : ℚ)⌉₊ * g.m_buffer_memory_alignment ∧
        IsLeast {m : Nat | g.m_buffer_memory_alignment ∣ m ∧
                  mul64 dd.TotalIdxCount sizeof_ImDrawIdx ≤ m} size) := by
  have hV := mul64_count_le _ sizeof_ImDrawVert hvc (by decide)
  have hI := mul64_count_le _ sizeof_ImDrawIdx hic (by decide)
  constructor
  · intro slot size ok hm hr
    have hm' := mem_vertex_ops hm
    rw [prepare_draw_lists_vertex_ops hv hi h] at hm'
    obtain ⟨op, hop, heq⟩ := List.mem_map.1 hm'
    cases heq
    have hs := (check_buffer_create_size hop).1
    rw [hs]
    exact aligned_size_spec hr (hV.1 ▸ hV.2) ha ha2
  · intro slot size ok hm hr
    have hm' := mem_index_ops hm
    rw [prepare_draw_lists_index_ops hv hi h] at hm'
    split_ifs at hm' with hc
    · simp at hm'
    · obtain ⟨op, hop, heq⟩ := List.mem_map.1 hm'
      cases heq
      have hs := (check_buffer_create_size hop).1
      rw [hs]
      exact aligned_size_spec hr (hI.1 ▸ hI.2) ha ha2

theorem prepare_draw_lists_create_size_witness :
    IsLeast {m : Nat | 256 ∣ m ∧ 60 ≤ m} 256 ∧ IsLeast {m : Nat | 256 ∣ m ∧ 12 ≤ m} 256 :=
  have h := prepare_draw_lists_create_size fresh_pool device_ok
    { TotalVtxCount := 3, TotalIdxCount := 6, CmdLists := [] } _ _
    (by decide) (by decide) (by decide) (by decide) (by decide) (by decide) rfl
  ⟨(h.1 0 256 true (by decide) (by decide)).2, (h.2 0 256 true (by decide) (by decide)).2⟩

theorem getD_set (l : List buffer) (i j : Nat) (x d : buffer) :
    (l.set i x).getD j d = if i = j ∧ i < l.length then x else l.getD j d := by
  simp only [List.getD_eq_getElem?_getD, List.getElem?_set]
  by_cases h : i = j
  · subst h
    by_cases h2 : i < l.length
    · simp [h2]
    · simp [h2, List.getElem?_eq_none (Nat.le_of_not_lt h2)]
  · simp [h]

theorem set_getD_self (l : List buffer) (i : Nat) (d : buffer) : l.set i (l.getD i d) = l := by
  induction l generalizing i with
  | nil => rfl
  | cons x xs ih =>
    cases i with
    | zero => rfl
    | succ n => simp only [List.set_cons_succ, List.getD_cons_succ, ih]

/-- The state after `prepare_draw_lists`: the slot's vertex buffer is the one left by the
vertex block; the index buffer is the one left by the index block unless the function
returned after a failed vertex creation; nothing else changes. -/
theorem prepare_draw_lists_state {g : imgui} {dev : device} {dd : ImDrawData}
    {g' : imgui} {t : List cmd}
    (hv : g.m_frame < g.m_vertex_buffers.length) (hi : g.m_frame < g.m_index_buffers.length)
    (h : g.prepare_draw_lists dev dd = some (g', t)) :
    g' = { g with
      m_vertex_buffers := g.m_vertex_buffers.set g.m_frame (g.vertex_check dev dd).1
      m_index_buffers :=
        if (g.vertex_check dev dd).2.2 = false then g.m_index_buffers
        else g.m_index_buffers.set g.m_frame (g.index_check dev dd).1 } := by
  rw [prepare_draw_lists_eq g dev dd hv hi] at h
  simp only [Option.some.injEq] at h
  split_ifs at h with h1 h2 <;> cases h <;> simp [h1]

theorem check_buffer_keep {b : buffer} {r a : Nat} {ok : Bool} {c : Nat}
    (hb : b.capacity = some c) (hr : r ≤ c) : check_buffer b r a ok = (b, [], true) := by
  unfold check_buffer buffer.valid buffer.get_size
  simp [hb, Nat.not_lt.2 hr]

theorem check_buffer_failed {b : buffer} {r a : Nat} {ok : Bool} {size : Nat}
    (h : buffer_op.create size false ∈ (check_buffer b r a ok).2.1) :
    (check_buffer b r a ok).2.2 = false ∧ (check_buffer b r a ok).1.valid = false := by
  have hok : ok = false := ((check_buffer_create_size h).2).symm
  subst hok
  unfold check_buffer at h ⊢
  split_ifs at h ⊢ with h1 h2
  · simp [buffer.create, buffer.destroy, buffer.valid]
  · simp only [Bool.not_eq_true] at h2
    simp [buffer.create, h2]
  · simp at h

theorem check_buffer_flag_false {b : buffer} {r a : Nat} {ok : Bool}
    (h : (check_buffer b r a ok).2.2 = false) :
    (check_buffer b r a ok).1.valid = false ∧
      buffer_op.create (aligned_size r a) false ∈ (check_buffer b r a ok).2.1 := by
  unfold check_buffer at h ⊢
  split_ifs at h ⊢ with h1 h2
  · cases ok <;> simp [buffer.create, buffer.destroy, buffer.valid] at h ⊢
  · simp only [Bool.not_eq_true] at h2
    cases ok <;> simp [buffer.create, h2] at h ⊢

theorem aligned_size_ge {r a : Nat} (hr : 0 < r) (hr2 : r ≤ 2 ^ 63) (ha : 0 < a)
    (ha2 : a < size_range) : r ≤ aligned_size r a :=
  (aligned_size_spec hr hr2 ha ha2).2.1.2

theorem check_buffer_mono {b : buffer} {r a : Nat} (hr2 : r ≤ 2 ^ 63) (ha : 0 < a)
    (ha2 : a < size_range) : b.get_size ≤ (check_buffer b r a true).1.get_size := by
  unfold check_buffer
  split_ifs with h1 h2
  · simp only [Bool.or_eq_true, Bool.not_eq_true', decide_eq_true_eq, h2, Bool.true_eq_false,
      false_or] at h1
    have hr : 0 < r := by omega
    have := aligned_size_ge hr hr2 ha ha2
    simp only [buffer.create, if_true, buffer.get_size, Option.getD_some] at *
    omega
  · simp only [Bool.not_eq_true] at h2
    have : b.get_size = 0 := by
      unfold buffer.valid at h2
      unfold buffer.get_size
      cases hc : b.capacity <;> simp [hc] at h2 ⊢
    omega
  · exact Nat.le_refl _

/-- C5 (as stated, refuted): a 256-byte vertex buffer, a request for 400 bytes whose creation
fails: the buffer is destroyed before the attempt and the capacity drops to 0. -/
theorem capacity_drops_on_failed_creation :
    pool_grown.vertex_capacity 0 = 256 ∧
    (pool_grown.prepare_draw_lists device_vertex_fails mesh).map
        (fun x => (x.1.vertex_capacity 0, x.2)) =
      some (0, [cmd.vertex_buffer 0 buffer_op.destroy,
                cmd.vertex_buffer 0 (buffer_op.create 512 false)]) := by
  decide

/-- C5 (amended): in a request of `prepare_draw_lists` whose buffer creations do not fail,
the capacity of every slot's vertex buffer and index buffer is at least what it was before. -/
theorem capacity_monotone (g : imgui) (dev : device) (dd : ImDrawData)
    (ha : 0 < g.m_buffer_memory_alignment) (ha2 : g.m_buffer_memory_alignment < size_range)
    (hvc : dd.TotalVtxCount < int_range) (hic : dd.TotalIdxCount < int_range)
    (hv : g.m_frame < g.m_vertex_buffers.length) (hi : g.m_frame < g.m_index_buffers.length) :
    ∃ g' t, g.prepare_draw_lists dev dd = some (g', t) ∧
      ∀ slot,
        (dev.create_vertex_buffer = true → g.vertex_capacity slot ≤ g'.vertex_capacity slot) ∧
        (dev.create_index_buffer = true → g.index_capacity slot ≤ g'.index_capacity slot) := by
  have hV := mul64_count_le _ sizeof_ImDrawVert hvc (by decide)
  have hI := mul64_count_le _ sizeof_ImDrawIdx hic (by decide)
  obtain ⟨⟨g', t⟩, h⟩ : ∃ x, g.prepare_draw_lists dev dd = some x :=
    ⟨_, prepare_draw_lists_eq g dev dd hv hi⟩
  refine ⟨g', t, h, fun slot => ?_⟩
  have hs := prepare_draw_lists_state hv hi h
  subst hs
  unfold imgui.vertex_capacity imgui.index_capacity
  constructor
  · intro hok
    simp only [getD_set]
    split_ifs with hc
    · obtain ⟨rfl, -⟩ := hc
      unfold imgui.vertex_check
      rw [hok]
      exact check_buffer_mono (hV.1 ▸ hV.2) ha ha2
    · exact Nat.le_refl _
  · intro hok
    split_ifs with hf
    · exact Nat.le_refl _
    · simp only [getD_set]
      split_ifs with hc
      · obtain ⟨rfl, -⟩ := hc
        unfold imgui.index_check
        rw [hok]
        exact check_buffer_mono (hI.1 ▸ hI.2) ha ha2
      · exact Nat.le_refl _

theorem capacity_monotone_witness :
    ∃ g' t, fresh_pool.prepare_draw_lists device_ok triangle = some (g', t) ∧
      ∀ slot,
        (device_ok.create_vertex_buffer = true →
          fresh_pool.vertex_capacity slot ≤ g'.vertex_capacity slot) ∧
        (device_ok.create_index_buffer = true →
          fresh_pool.index_capacity slot ≤ g'.index_capacity slot) :=
  capacity_monotone fresh_pool device_ok triangle (by decide) (by decide) (by decide)
    (by decide) (by decide) (by decide)

/-- C6: a request of `prepare_draw_lists` for a size that the valid vertex (index) buffer of
the current slot already holds performs no operation on any vertex (index) buffer and leaves
the buffers, hence the capacity `c`, as they were; the buffers of the other slots are not
touched by any request. -/
theorem no_reallocation_when_size_fits (g : imgui) (dev : device) (dd : ImDrawData)
    (hv : g.m_frame < g.m_vertex_buffers.length) (hi : g.m_frame < g.m_index_buffers.length) :
    ∃ g' t, g.prepare_draw_lists dev dd = some (g', t) ∧
      (∀ c, (g.m_vertex_buffers.getD g.m_frame buffer.make).capacity = some c →
        mul64 dd.TotalVtxCount sizeof_ImDrawVert ≤ c →
          t.filterMap cmd.vertex_op = [] ∧ g'.m_vertex_buffers = g.m_vertex_buffers ∧
            (g'.m_vertex_buffers.getD g.m_frame buffer.make).capacity = some c) ∧
      (∀ c, (g.m_index_buffers.getD g.m_frame buffer.make).capacity = some c →
        mul64 dd.TotalIdxCount sizeof_ImDrawIdx ≤ c →
          t.filterMap cmd.index_op = [] ∧ g'.m_index_buffers = g.m_index_buffers ∧
            (g'.m_index_buffers.getD g.m_frame buffer.make).capacity = some c) ∧
      (∀ slot, slot ≠ g.m_frame →
        g'.m_vertex_buffers.getD slot buffer.make = g.m_vertex_buffers.getD slot buffer.make ∧
        g'.m_index_buffers.getD slot buffer.make = g.m_index_buffers.getD slot buffer.make) := by
  obtain ⟨⟨g', t⟩, h⟩ : ∃ x, g.prepare_draw_lists dev dd = some x :=
    ⟨_, prepare_draw_lists_eq g dev dd hv hi⟩
  refine ⟨g', t, h, ?_, ?_, ?_⟩
  rotate_left 2
  · intro slot hne
    have hs := prepare_draw_lists_state hv hi h
    have hne' : ¬(g.m_frame = slot ∧ g.m_frame < g.m_vertex_buffers.length) :=
      fun hx => hne hx.1.symm
    have hne2 : ¬(g.m_frame = slot ∧ g.m_frame < g.m_index_buffers.length) :=
      fun hx => hne hx.1.symm
    rw [hs]
    dsimp only
    constructor
    · rw [getD_set, if_neg hne']
    · split_ifs
      · rfl
      · rw [getD_set, if_neg hne2]
  · intro c hc hr
    have hk : g.vertex_check dev dd = (_, [], true) := check_buffer_keep hc hr
    have hs := prepare_draw_lists_state hv hi h
    have hg : g'.m_vertex_buffers = g.m_vertex_buffers := by
      rw [hs]; simp only [hk]; exact set_getD_self _ _ _
    refine ⟨?_, hg, by rw [hg]; exact hc⟩
    rw [prepare_draw_lists_vertex_ops hv hi h, hk]; rfl
  · intro c hc hr
    have hk : g.index_check dev dd = (_, [], true) := check_buffer_keep hc hr
    have hs := prepare_draw_lists_state hv hi h
    have hg : g'.m_index_buffers = g.m_index_buffers := by
      rw [hs]; simp only [hk]
      split_ifs
      · rfl
      · exact set_getD_self _ _ _
    refine ⟨?_, hg, by rw [hg]; exact hc⟩
    rw [prepare_draw_lists_index_ops hv hi h, hk]
    split_ifs <;> rfl

theorem no_reallocation_when_size_fits_witness :
    ∃ g' t, pool_grown.prepare_draw_lists device_vertex_fails triangle = some (g', t) ∧
      (∀ c, (pool_grown.m_vertex_buffers.getD pool_grown.m_frame buffer.make).capacity = some c →
        mul64 triangle.TotalVtxCount sizeof_ImDrawVert ≤ c →
          t.filterMap cmd.vertex_op = [] ∧ g'.m_vertex_buffers = pool_grown.m_vertex_buffers ∧
            (g'.m_vertex_buffers.getD pool_grown.m_frame buffer.make).capacity = some c) ∧
      (∀ c, (pool_grown.m_index_buffers.getD pool_grown.m_frame buffer.make).capacity = some c →
        mul64 triangle.TotalIdxCount sizeof_ImDrawIdx ≤ c →
          t.filterMap cmd.index_op = [] ∧ g'.m_index_buffers = pool_grown.m_index_buffers ∧
            (g'.m_index_buffers.getD pool_grown.m_frame buffer.make).capacity = some c) ∧
      (∀ slot, slot ≠ pool_grown.m_frame →
        g'.m_vertex_buffers.getD slot buffer.make =
          pool_grown.m_vertex_buffers.getD slot buffer.make ∧
        g'.m_index_buffers.getD slot buffer.make =
          pool_grown.m_index_buffers.getD slot buffer.make) :=
  no_reallocation_when_size_fits pool_grown device_vertex_fails triangle (by decide) (by decide)

/-- C7 (the code at the failing input): draw data with 3 vertices and no index on a slot
whose index buffer is unset. The index size 0 passes no guard, `index_size - 1` wraps, and
`render_draw_lists` creates an index buffer, of 0 bytes. -/
theorem zero_index_size_creates_buffer :
    fresh_pool.render_draw_lists device_ok points =
      some ({ fresh_pool with
                m_vertex_buffers := [{ capacity := some 256 }],
                m_index_buffers := [{ capacity := some 0 }] },
        [cmd.vertex_buffer 0 (buffer_op.create 256 true),
         cmd.index_buffer 0 (buffer_op.create 0 true),
         cmd.copy_vertices 0 0 3, cmd.copy_indices 0 0 0, cmd.flush_mapped_memory_ranges 0,
         cmd.bind_layout, cmd.bind_vertex_buffers 0, cmd.bind_index_buffer 0, cmd.set_viewport,
         cmd.push_constants 0, cmd.push_constants 2]) := by
  decide

/-- C8: with a total vertex count of 0, `render_draw_lists` returns at once: nothing is
recorded, no buffer is created, destroyed or written, and the overlay is unchanged. -/
theorem render_draw_lists_empty (g : imgui) (dev : device) (dd : ImDrawData)
    (h : dd.TotalVtxCount = 0) : g.render_draw_lists dev dd = some (g, []) := by
  unfold imgui.render_draw_lists
  simp [h]

theorem render_draw_lists_empty_witness :
    pool_grown.render_draw_lists device_vertex_fails
      { TotalVtxCount := 0, TotalIdxCount := 0, CmdLists := [] } = some (pool_grown, []) :=
  render_draw_lists_empty pool_grown device_vertex_fails _ rfl

/-- C9 (the code at the failing input): the creation of the slot's vertex buffer fails,
`prepare_draw_lists` returns early, and `render_draw_lists` still records the binds of both
buffers and the indexed draw. -/
theorem draw_recorded_after_failed_creation :
    (fresh_pool.render_draw_lists device_vertex_fails triangle).map (fun x => x.2) =
      some [cmd.vertex_buffer 0 (buffer_op.create 256 false),
            cmd.bind_layout, cmd.bind_vertex_buffers 0, cmd.bind_index_buffer 0,
            cmd.set_viewport, cmd.push_constants 0, cmd.push_constants 2,
            cmd.set_scissor, cmd.draw_indexed 3 0 0] := by
  decide

/-- Whenever the creation of the current slot's vertex or index buffer fails inside
`prepare_draw_lists`, that function only performs buffer operations (it copies nothing and
flushes nothing), and `render_draw_lists` goes on to record the binds and all draws. -/
theorem render_draw_lists_ignores_failed_creation (g : imgui) (dev : device) (dd : ImDrawData)
    (g' : imgui) (tp : List cmd)
    (hv : g.m_frame < g.m_vertex_buffers.length) (hi : g.m_frame < g.m_index_buffers.length)
    (hn : dd.TotalVtxCount ≠ 0)
    (h : g.prepare_draw_lists dev dd = some (g', tp))
    (hf : ∃ size, cmd.vertex_buffer g.m_frame (buffer_op.create size false) ∈ tp ∨
                  cmd.index_buffer g.m_frame (buffer_op.create size false) ∈ tp) :
    (∀ c ∈ tp, ∃ o, c = cmd.vertex_buffer g.m_frame o ∨ c = cmd.index_buffer g.m_frame o) ∧
    g.render_draw_lists dev dd =
      some (g', tp ++ [cmd.bind_layout, cmd.bind_vertex_buffers g.m_frame,
                       cmd.bind_index_buffer g.m_frame, cmd.set_viewport,
                       cmd.push_constants 0, cmd.push_constants 2]
                ++ imgui.draw_lists dd.CmdLists 0 0) := by
  have hs := prepare_draw_lists_state hv hi h
  have hfr : g'.m_frame = g.m_frame := by rw [hs]
  have hlv : g.m_frame < g'.m_vertex_buffers.length := by rw [hs]; simpa using hv
  have hli : g.m_frame < g'.m_index_buffers.length := by
    rw [hs]; dsimp only; split_ifs <;> simpa using hi
  constructor
  · obtain ⟨size, hsz⟩ := hf
    have hflag : (g.vertex_check dev dd).2.2 = false ∨ (g.index_check dev dd).2.2 = false := by
      rcases hsz with hm | hm
      · have hm' := mem_vertex_ops hm
        rw [prepare_draw_lists_vertex_ops hv hi h] at hm'
        obtain ⟨o, ho, heq⟩ := List.mem_map.1 hm'
        cases heq
        exact Or.inl (check_buffer_failed ho).1
      · have hm' := mem_index_ops hm
        rw [prepare_draw_lists_index_ops hv hi h] at hm'
        split_ifs at hm' with hc
        · exact Or.inl hc
        · obtain ⟨o, ho, heq⟩ := List.mem_map.1 hm'
          cases heq
          exact Or.inr (check_buffer_failed ho).1
    rw [prepare_draw_lists_eq g dev dd hv hi] at h
    simp only [Option.some.injEq] at h
    split_ifs at h with h1 h2
    · cases h
      intro c hc
      obtain ⟨o, -, rfl⟩ := List.mem_map.1 hc
      exact ⟨o, Or.inl rfl⟩
    · cases h
      intro c hc
      rcases List.mem_append.1 hc with hc | hc
      · obtain ⟨o, -, rfl⟩ := List.mem_map.1 hc
        exact ⟨o, Or.inl rfl⟩
      · obtain ⟨o, -, rfl⟩ := List.mem_map.1 hc
        exact ⟨o, Or.inr rfl⟩
    · rcases hflag with hx | hx
      · exact absurd hx h1
      · exact absurd hx h2
  · unfold imgui.render_draw_lists
    simp only [hn, if_false, h, hfr, List.getElem?_eq_getElem hlv, List.getElem?_eq_getElem hli]

/-- C10 (as stated, refuted): the slot holds a 256-byte vertex buffer, the creation of the
400-byte replacement fails, and the slot is left with an unset vertex buffer: the old one
was destroyed before the attempt. -/
theorem old_buffer_lost_on_failed_creation :
    (pool_grown.m_vertex_buffers.getD 0 buffer.make).valid = true ∧
    (pool_grown.prepare_draw_lists device_vertex_fails mesh).map
        (fun x => (x.1.m_vertex_buffers, x.1.m_index_buffers)) =
      some ([{ capacity := none }], [{ capacity := some 256 }]) := by
  decide

/-- C10 (amended): when the creation of the current slot's vertex (index) buffer fails in
`prepare_draw_lists`, that buffer is left unset whether or not one existed before the
request; after a failed vertex creation the index buffers are as they were. -/
theorem buffer_unset_after_failed_creation (g : imgui) (dev : device) (dd : ImDrawData)
    (g' : imgui) (tp : List cmd)
    (hv : g.m_frame < g.m_vertex_buffers.length) (hi : g.m_frame < g.m_index_buffers.length)
    (h : g.prepare_draw_lists dev dd = some (g', tp)) :
    (∀ size, cmd.vertex_buffer g.m_frame (buffer_op.create size false) ∈ tp →
      (g'.m_vertex_buffers.getD g.m_frame buffer.make).valid = false ∧
      g'.m_index_buffers = g.m_index_buffers) ∧
    (∀ size, cmd.index_buffer g.m_frame (buffer_op.create size false) ∈ tp →
      (g'.m_index_buffers.getD g.m_frame buffer.make).valid = false) := by
  have hs := prepare_draw_lists_state hv hi h
  constructor
  · intro size hm
    have hm' := mem_vertex_ops hm
    rw [prepare_draw_lists_vertex_ops hv hi h] at hm'
    obtain ⟨o, ho, heq⟩ := List.mem_map.1 hm'
    cases heq
    obtain ⟨hflag, hval⟩ := check_buffer_failed ho
    have hflag' : (g.vertex_check dev dd).2.2 = false := hflag
    rw [hs]
    refine ⟨?_, by dsimp only; rw [if_pos hflag']⟩
    simp only [getD_set, hv, and_self, if_true]
    exact hval
  · intro size hm
    have hm' := mem_index_ops hm
    rw [prepare_draw_lists_index_ops hv hi h] at hm'
    split_ifs at hm' with hc
    · simp at hm'
    · obtain ⟨o, ho, heq⟩ := List.mem_map.1 hm'
      cases heq
      obtain ⟨-, hval⟩ := check_buffer_failed ho
      rw [hs]
      dsimp only
      rw [if_neg hc]
      simp only [getD_set, hi, and_self, if_true]
      exact hval

theorem buffer_unset_after_failed_creation_witness :
    (∀ size, cmd.vertex_buffer pool_grown.m_frame (buffer_op.create size false) ∈
        [cmd.vertex_buffer 0 buffer_op.destroy, cmd.vertex_buffer 0 (buffer_op.create 512 false)] →
      (([{ capacity := none }] : List buffer).getD pool_grown.m_frame buffer.make).valid = false ∧
      ([{ capacity := some 256 }] : List buffer) = pool_grown.m_index_buffers) ∧
    (∀ size, cmd.index_buffer pool_grown.m_frame (buffer_op.create size false) ∈
        [cmd.vertex_buffer 0 buffer_op.destroy, cmd.vertex_buffer 0 (buffer_op.create 512 false)] →
      (([{ capacity := some 256 }] : List buffer).getD pool_grown.m_frame buffer.make).valid
        = false) :=
  buffer_unset_after_failed_creation pool_grown device_vertex_fails mesh
    { pool_grown with m_vertex_buffers := [{ capacity := none }] }
    [cmd.vertex_buffer 0 buffer_op.destroy, cmd.vertex_buffer 0 (buffer_op.create 512 false)]
    (by decide) (by decide) (by decide)

theorem destroy_target_eq (a : app) (r : step_results) (tg : render_target)
    (ht : a.target = some tg) :
    a.destroy_target r = some ({ a with target := some { tg with created := false } },
      (if r.on_destroy_set then [op.on_destroy] else [])
        ++ [op.renderer_destroy, op.shading_destroy, op.target_destroy]) := by
  unfold app.destroy_target; simp only [ht]

theorem reload_switch_mode_spec (a : app) (r : step_results) :
    (a.reload_switch_mode r).2.1.block = a.block ∧
    (a.reload_switch_mode r).2.1.target = a.target ∧
    (a.reload_switch_mode r).2.1.imgui = a.imgui ∧
    ∀ o ∈ (a.reload_switch_mode r).2.2, o.minor := by
  unfold app.reload_switch_mode app.update_window_state window.switch_mode
  split_ifs <;> simp [op.minor, op.lifecycle]

theorem reload_toggle_v_sync_spec (a : app) :
    a.reload_toggle_v_sync.block = a.block ∧ a.reload_toggle_v_sync.target = a.target ∧
    a.reload_toggle_v_sync.imgui = a.imgui := by
  unfold app.reload_toggle_v_sync
  split_ifs <;> simp

theorem create_target_spec (a : app) (r : step_results) :
    (a.create_target r).2.1.block = a.block ∧
    (a.create_target r).2.1.imgui = a.imgui ∧
    (∃ t, (a.create_target r).2.2 =
        op.target_create a.config.v_sync a.config.triple_buffer r.create_target :: t ∧
        ∀ o ∈ t, o.minor) ∧
    ((a.create_target r).1 = true → ∃ n, r.create_target = some n ∧
      (a.create_target r).2.1.target =
        some { frame_count := n, reload_request := false, v_sync := a.config.v_sync,
               triple_buffer := a.config.triple_buffer, created := true }) := by
  unfold app.create_target
  rcases r.create_target with _ | n
  · simp
  · rcases r.on_create with _ | b <;>
    by_cases h1 : r.shading_create <;> by_cases h2 : r.renderer_create <;>
      simp [h1, h2, op.minor, op.lifecycle]

theorem create_imgui_eq (a : app) (r : step_results) (tg : render_target)
    (ht : a.target = some tg) :
    a.create_imgui r = some
      (((a.imgui.create tg.frame_count r.imgui_create).1 && r.pipeline_create) && r.upload_fonts,
       { a with imgui := (a.imgui.create tg.frame_count r.imgui_create).2 },
       op.imgui_setup :: op.imgui_create tg.frame_count
          ((a.imgui.create tg.frame_count r.imgui_create).1 && r.pipeline_create) ::
        (if ((a.imgui.create tg.frame_count r.imgui_create).1 && r.pipeline_create) = true
          then [op.upload_fonts r.upload_fonts] else [])) := by
  unfold app.create_imgui
  simp only [ht]
  cases hb : ((a.imgui.create tg.frame_count r.imgui_create).1 && r.pipeline_create) <;>
  cases hu : r.upload_fonts <;> simp

theorem filterMap_lifecycle_minor {t : List op} (h : ∀ o ∈ t, o.minor) :
    t.filterMap op.lifecycle = [] := by
  induction t with
  | nil => rfl
  | cons o os ih =>
    have h1 : o.lifecycle = none := (h o (List.mem_cons_self _ _)).1
    rw [List.filterMap_cons_none h1]
    exact ih fun x hx => h x (List.mem_cons_of_mem _ hx)

theorem wait_not_mem_minor {t : List op} (h : ∀ o ∈ t, o.minor) : op.wait_for_idle ∉ t :=
  fun hm => (h _ hm).2 rfl

/-- Shape of the recreation part of a reload pass: it returns; it holds no wait and no
lifecycle call but the creation of the target followed, when that succeeded, by the creation
of the overlay with the new target's image count; the command block is untouched. -/
theorem reload_recreate_spec (a : app) (r : step_results) :
    ∃ b a' t, a.reload_recreate r = some (b, a', t) ∧
      a'.block = a.block ∧
      t.filterMap op.lifecycle <+: [lifecycle.create_target, lifecycle.create_overlay] ∧
      op.wait_for_idle ∉ t ∧
      (b = true →
        t.filterMap op.lifecycle = [lifecycle.create_target, lifecycle.create_overlay] ∧
        ∃ n, r.create_target = some n ∧
          a'.target.map (fun x => x.frame_count) = some n ∧
          a'.imgui = (a.imgui.create n r.imgui_create).2) := by
  unfold app.reload_recreate
  obtain ⟨hsb, hst, hsi, hsm⟩ := reload_switch_mode_spec a r
  obtain ⟨htb, htt, hti⟩ := reload_toggle_v_sync_spec (a.reload_switch_mode r).2.1
  obtain ⟨hcb, hci, ⟨tc, hct, hcm⟩, hcs⟩ :=
    create_target_spec (a.reload_switch_mode r).2.1.reload_toggle_v_sync r
  simp only []
  cases hs1 : (a.reload_switch_mode r).1
  · simp only [Bool.not_false, if_true]
    refine ⟨_, _, _, rfl, hsb, ?_, wait_not_mem_minor hsm, fun h => by cases h⟩
    rw [filterMap_lifecycle_minor hsm]; exact List.nil_prefix
  · simp only [Bool.not_true, Bool.false_eq_true, if_false]
    cases hc1 : ((a.reload_switch_mode r).2.1.reload_toggle_v_sync.create_target r).1
    · simp only [Bool.not_false, if_true]
      refine ⟨_, _, _, rfl, by rw [hcb, htb, hsb], ?_, ?_, fun h => by cases h⟩
      · rw [List.filterMap_append, filterMap_lifecycle_minor hsm, hct, List.nil_append,
          List.filterMap_cons_some (by rfl), filterMap_lifecycle_minor hcm]
        exact ⟨[lifecycle.create_overlay], rfl⟩
      · rw [List.mem_append, hct]
        simp only [List.mem_cons, not_or]
        exact ⟨wait_not_mem_minor hsm, by simp, wait_not_mem_minor hcm⟩
    · obtain ⟨n, hn, htg⟩ := hcs hc1
      rw [create_imgui_eq _ r _ htg]
      simp only [Bool.not_true, Bool.false_eq_true, if_false]
      have hlife : List.filterMap op.lifecycle
          ((a.reload_switch_mode r).2.2 ++
            ((a.reload_switch_mode r).2.1.reload_toggle_v_sync.create_target r).2.2 ++
            op.imgui_setup :: op.imgui_create n
              ((((a.reload_switch_mode r).2.1.reload_toggle_v_sync.create_target r).2.1.imgui.create
                n r.imgui_create).1 && r.pipeline_create) ::
              (if ((((a.reload_switch_mode r).2.1.reload_toggle_v_sync.create_target
                  r).2.1.imgui.create n r.imgui_create).1 && r.pipeline_create) = true
                then [op.upload_fonts r.upload_fonts] else []))
          = [lifecycle.create_target, lifecycle.create_overlay] := by
        rw [List.filterMap_append, List.filterMap_append, filterMap_lifecycle_minor hsm, hct,
          List.nil_append, List.filterMap_cons_some (by rfl), filterMap_lifecycle_minor hcm,
          List.filterMap_cons_none (by rfl), List.filterMap_cons_some (by rfl)]
        split_ifs <;> rfl
      refine ⟨_, _, _, rfl, by simp [hcb, htb, hsb], ?_, ?_, ?_⟩
      · rw [hlife]
      · rw [List.mem_append, List.mem_append, hct]
        simp only [List.mem_cons, not_or]
        refine ⟨⟨wait_not_mem_minor hsm, by simp, wait_not_mem_minor hcm⟩, by simp, by simp, ?_⟩
        split_ifs <;> simp
      · intro _
        refine ⟨hlife, n, hn, by simp [htg], ?_⟩
        simp [hci, hti, hsi]

/-- Shape of a reload pass: the wait, the teardown, then the mode switch and the recreation,
which contain no further wait; the command block is untouched; on success the recreation is
the target followed by the overlay, the overlay sized by the new target's image count. -/
theorem handle_window_reload (a : app) (r : step_results) (tg : render_target)
    (ht : a.target = some tg) (hc : a.window.close_request = false)
    (hp : a.reload_pending tg = true) :
    ∃ b a' rest, a.handle_window r = some (b, a', op.wait_for_idle :: (teardown_ops r ++ rest)) ∧
      a'.block = a.block ∧
      rest.filterMap op.lifecycle <+: [lifecycle.create_target, lifecycle.create_overlay] ∧
      op.wait_for_idle ∉ rest ∧
      (b = true → rest.filterMap op.lifecycle
            = [lifecycle.create_target, lifecycle.create_overlay] ∧
          ∃ n, r.create_target = some n ∧
            a'.target.map (fun x => x.frame_count) = some n ∧
            a'.imgui = (a.imgui.destroy.create n r.imgui_create).2) := by
  unfold app.reload_pending at hp
  unfold app.handle_window
  simp only [ht, hc, hp, destroy_target_eq a r tg ht, app.destroy_imgui]
  obtain ⟨b, a', t, he, hb, hl, hw, hs⟩ := reload_recreate_spec
    { a with imgui := a.imgui.destroy, target := some { tg with created := false } } r
  refine ⟨b, a', t, ?_, hb, hl, hw, hs⟩
  simp only [Bool.false_eq_true, if_false, if_true, he, teardown_ops]

theorem teardown_ops_lifecycle (r : step_results) :
    (teardown_ops r).filterMap op.lifecycle =
      [lifecycle.destroy_target, lifecycle.destroy_overlay] := by
  unfold teardown_ops
  cases r.on_destroy_set <;> rfl

theorem teardown_ops_mem (r : step_results) :
    op.wait_for_idle ∉ teardown_ops r ∧ op.target_destroy ∈ teardown_ops r ∧
      op.imgui_destroy ∈ teardown_ops r := by
  unfold teardown_ops
  cases r.on_destroy_set <;> simp

/-- C1 (as stated, refuted): a reload pass in which every call succeeds destroys the target
before the overlay, creates the target and then the overlay, and leaves the command block
alone; this is not the order destroy(overlay), destroy(block), destroy(target),
create(target), create(block), create(overlay). -/
theorem reload_order_differs :
    (app_toggle.handle_window (all_ok 2)).map (fun x => x.2.2.filterMap op.lifecycle) =
      some [lifecycle.destroy_target, lifecycle.destroy_overlay,
            lifecycle.create_target, lifecycle.create_overlay] ∧
    (app_toggle.handle_window (all_ok 2)).map (fun x => x.2.2.filterMap op.lifecycle) ≠
      some [lifecycle.destroy_overlay, lifecycle.destroy_block, lifecycle.destroy_target,
            lifecycle.create_target, lifecycle.create_block, lifecycle.create_overlay] := by
  decide

/-- C1 (amended): in every reload pass the lifecycle operations are destroy(render target),
destroy(overlay), then create(render target) and create(overlay) in this order; a pass that
fails stops within the creations, a pass that returns `run_continue` performs all four; the
command block is neither destroyed nor created. -/
theorem reload_order (a : app) (r : step_results) (tg : render_target)
    (ht : a.target = some tg) (hc : a.window.close_request = false)
    (hp : a.reload_pending tg = true) :
    ∃ b a' t created, a.handle_window r = some (b, a', t) ∧
      t.filterMap op.lifecycle =
        [lifecycle.destroy_target, lifecycle.destroy_overlay] ++ created ∧
      created <+: [lifecycle.create_target, lifecycle.create_overlay] ∧
      (b = true → created = [lifecycle.create_target, lifecycle.create_overlay]) := by
  obtain ⟨b, a', rest, he, -, hl, -, hs⟩ := handle_window_reload a r tg ht hc hp
  refine ⟨b, a', _, rest.filterMap op.lifecycle, he, ?_, hl, fun hb => (hs hb).1⟩
  rw [List.filterMap_cons_none (by rfl), List.filterMap_append, teardown_ops_lifecycle]

theorem reload_order_witness :
    ∃ b a' t created, app_toggle.handle_window (all_ok 2) = some (b, a', t) ∧
      t.filterMap op.lifecycle =
        [lifecycle.destroy_target, lifecycle.destroy_overlay] ++ created ∧
      created <+: [lifecycle.create_target, lifecycle.create_overlay] ∧
      (b = true → created = [lifecycle.create_target, lifecycle.create_overlay]) :=
  reload_order app_toggle (all_ok 2) _ rfl (by decide) (by decide)

/-- C2 (as stated, refuted): the block was created for a two-image target; a successful
reload pass creates a three-image target and the block still holds two command buffers. -/
theorem block_frame_count_stale_after_reload :
    (app_toggle.handle_window (all_ok 3)).map
        (fun x => (x.1, x.2.1.block.frame_count, x.2.1.target.map (fun y => y.frame_count))) =
      some (true, 2, some 3) := by
  decide

/-- C2 (amended): a reload pass leaves the command block as it was; after a successful pass
the block's frame count equals the image count of the new render target exactly when that
image count equals the frame count the block had before the pass. -/
theorem reload_keeps_block (a : app) (r : step_results) (tg : render_target)
    (ht : a.target = some tg) (hc : a.window.close_request = false)
    (hp : a.reload_pending tg = true) :
    ∃ b a' t, a.handle_window r = some (b, a', t) ∧ a'.block = a.block ∧
      (b = true → ∃ n, a'.target.map (fun x => x.frame_count) = some n ∧
        (a'.block.frame_count = n ↔ a.block.frame_count = n)) := by
  obtain ⟨b, a', rest, he, hb, -, -, hs⟩ := handle_window_reload a r tg ht hc hp
  refine ⟨b, a', _, he, hb, fun h => ?_⟩
  obtain ⟨-, n, -, hn, -⟩ := hs h
  exact ⟨n, hn, by rw [hb]⟩

theorem reload_keeps_block_witness :
    ∃ b a' t, app_toggle.handle_window (all_ok 3) = some (b, a', t) ∧
      a'.block = app_toggle.block ∧
      (b = true → ∃ n, a'.target.map (fun x => x.frame_count) = some n ∧
        (a'.block.frame_count = n ↔ app_toggle.block.frame_count = n)) :=
  reload_keeps_block app_toggle (all_ok 3) _ rfl (by decide) (by decide)

/-- C3: the window step returns; in a reload pass the device-idle wait is the first call,
ahead of `target->destroy()` and `imgui.destroy()`, and it is issued once; in an iteration
without a pending reload trigger, or with a close request, no device-idle wait is issued. -/
theorem wait_for_idle_before_teardown (a : app) (r : step_results) (tg : render_target)
    (ht : a.target = some tg) :
    ∃ b a' t, a.handle_window r = some (b, a', t) ∧
      (a.window.close_request = false → a.reload_pending tg = true →
        ∃ rest, t = op.wait_for_idle :: rest ∧ op.wait_for_idle ∉ rest ∧
          op.target_destroy ∈ rest ∧ op.imgui_destroy ∈ rest) ∧
      (a.window.close_request = true ∨ a.reload_pending tg = false →
        op.wait_for_idle ∉ t) := by
  by_cases hc : a.window.close_request = true
  · refine ⟨r.shut_down, a, [op.shut_down], ?_, fun h => ?_, fun _ => by simp⟩
    · unfold app.handle_window; simp [hc]
    · rw [hc] at h; cases h
  · simp only [Bool.not_eq_true] at hc
    cases hp : a.reload_pending tg
    · have hp' := hp
      unfold app.reload_pending at hp'
      by_cases hr : a.window.resize_request = true
      · refine ⟨(a.window.handle_resize r.handle_resize).1,
          { a with window := (a.window.handle_resize r.handle_resize).2 },
          [op.camera_update_projection,
            op.window_handle_resize (a.window.handle_resize r.handle_resize).1], ?_,
          (fun _ h => by cases h), fun _ => ?_⟩
        · unfold app.handle_window; simp only [hc, ht, hp', hr]; rfl
        · simp
      · refine ⟨true, a, [], ?_, (fun _ h => by cases h), fun _ => by simp⟩
        unfold app.handle_window; simp only [hc, ht, hp', hr]; rfl
    · obtain ⟨b, a', rest, he, -, -, hw, -⟩ := handle_window_reload a r tg ht hc hp
      obtain ⟨h1, h2, h3⟩ := teardown_ops_mem r
      refine ⟨b, a', _, he, fun _ _ => ⟨_, rfl, ?_, ?_, ?_⟩, fun h => ?_⟩
      · simp only [List.mem_append, not_or]; exact ⟨h1, hw⟩
      · exact List.mem_append_left _ h2
      · exact List.mem_append_left _ h3
      · rcases h with h | h
        · rw [hc] at h; cases h
        · cases h

theorem wait_for_idle_before_teardown_witness :
    ∃ b a' t, app_toggle.handle_window (all_ok 2) = some (b, a', t) ∧
      (app_toggle.window.close_request = false →
        app_toggle.reload_pending
            { frame_count := 2, reload_request := false, v_sync := false,
              triple_buffer := false, created := true } = true →
        ∃ rest, t = op.wait_for_idle :: rest ∧ op.wait_for_idle ∉ rest ∧
          op.target_destroy ∈ rest ∧ op.imgui_destroy ∈ rest) ∧
      (app_toggle.window.close_request = true ∨
        app_toggle.reload_pending
            { frame_count := 2, reload_request := false, v_sync := false,
              triple_buffer := false, created := true } = false →
        op.wait_for_idle ∉ t) :=
  wait_for_idle_before_teardown app_toggle (all_ok 2) _ rfl

/-- C11: the block command registered by `app::create_block` records its sub-passes in the
order `staging.stage`, the `on_process` callback when one is set, the shading pass, all with
the same current frame index; without the callback the staging comes before the shading
pass all the same. -/
theorem block_command_sub_passes (current_frame : Nat) :
    (app.block_command true current_frame).filter pass_call.sub_pass =
      [pass_call.staging_stage current_frame, pass_call.on_process current_frame,
       pass_call.shading_process current_frame] ∧
    (app.block_command false current_frame).filter pass_call.sub_pass =
      [pass_call.staging_stage current_frame, pass_call.shading_process current_frame] := by
  constructor <;> rfl

/-- C12 (as stated, refuted): `block.process` fails for the acquired frame, `end_frame` is not
called, and the step returns `run_abort`, not `run_continue`. -/
theorem process_failure_aborts :
    (app_toggle.render process_fails).1 = false ∧
    (app_toggle.render process_fails).2.2 =
      [frame_call.begin_frame (some 1), frame_call.block_process 1 false] := by
  decide

/-- C12 (amended): when the render step reaches `block.process` and it fails, `end_frame` is
not called in that iteration and the step returns `run_abort`, which ends the loop over the
render step. -/
theorem process_failure_skips_end_frame (a : app) (r : render_results) (frame : Nat)
    (h : frame_call.block_process frame false ∈ (a.render r).2.2) :
    (a.render r).1 = false ∧ (∀ ok, frame_call.end_frame ok ∉ (a.render r).2.2) ∧
      ∀ rs, (a.render_steps (r :: rs)).1 = [false] ∧
        (a.render_steps (r :: rs)).2.2 = (a.render r).2.2 := by
  have h1 : (a.render r).1 = false ∧ ∀ ok, frame_call.end_frame ok ∉ (a.render r).2.2 := by
    by_cases h1 : a.window.iconified = true
    · simp [app.render, h1] at h
    · by_cases h2 : a.config.fps_cap ≠ 0 ∧
          r.timestamp_check < a.m_last_render_time + r.frame_time_us
      · simp [app.render, h1, h2] at h
      · rcases hb : r.begin_frame with _ | i
        · simp [app.render, h1, h2, hb] at h
        · cases hp : r.process
          · simp [app.render, h1, h2, hb, hp]
          · simp [app.render, h1, h2, hb, hp] at h
  refine ⟨h1.1, h1.2, fun rs => ?_⟩
  simp [app.render_steps, h1.1]

theorem process_failure_skips_end_frame_witness :
    (app_toggle.render process_fails).1 = false ∧
      (∀ ok, frame_call.end_frame ok ∉ (app_toggle.render process_fails).2.2) ∧
      ∀ rs, (app_toggle.render_steps (process_fails :: rs)).1 = [false] ∧
        (app_toggle.render_steps (process_fails :: rs)).2.2 =
          (app_toggle.render process_fails).2.2 :=
  process_failure_skips_end_frame app_toggle process_fails 1 (by decide)

/-- C13: when `renderer.begin_frame()` returns the empty result, the render step returns
`run_continue`, calls neither `block.process` nor `renderer.end_frame`, and leaves the frame
counter as it was. -/
theorem begin_frame_empty_skips (a : app) (r : render_results)
    (h : frame_call.begin_frame none ∈ (a.render r).2.2) :
    (a.render r).1 = true ∧
      (∀ frame ok, frame_call.block_process frame ok ∉ (a.render r).2.2) ∧
      (∀ ok, frame_call.end_frame ok ∉ (a.render r).2.2) ∧
      (a.render r).2.1.m_frame_counter = a.m_frame_counter := by
  by_cases h1 : a.window.iconified = true
  · simp [app.render, h1] at h
  · by_cases h2 : a.config.fps_cap ≠ 0 ∧
        r.timestamp_check < a.m_last_render_time + r.frame_time_us
    · simp [app.render, h1, h2] at h
    · rcases hb : r.begin_frame with _ | i
      · simp [app.render, h1, h2, hb]
      · cases hp : r.process <;> simp [app.render, h1, h2, hb, hp] at h

theorem begin_frame_empty_skips_witness :
    (app_toggle.render no_frame).1 = true ∧
      (∀ frame ok, frame_call.block_process frame ok ∉ (app_toggle.render no_frame).2.2) ∧
      (∀ ok, frame_call.end_frame ok ∉ (app_toggle.render no_frame).2.2) ∧
      (app_toggle.render no_frame).2.1.m_frame_counter = app_toggle.m_frame_counter :=
  begin_frame_empty_skips app_toggle no_frame (by decide)

/-- C14: for every number of consecutive render iterations with the window iconified, each
iteration returns `run_continue`, the only call made is the sleep (no `begin_frame`, no
`process`, no `end_frame`), and the application state, with the frame counter and the last
render time, is unchanged. -/
theorem iconified_render_steps (a : app) (rs : List render_results)
    (h : a.window.iconified = true) :
    (a.render_steps rs).1 = List.replicate rs.length true ∧
      (a.render_steps rs).2.1 = a ∧
      (a.render_steps rs).2.2 = List.replicate rs.length frame_call.sleep ∧
      (a.render_steps rs).2.1.m_frame_counter = a.m_frame_counter ∧
      (a.render_steps rs).2.1.m_last_render_time = a.m_last_render_time := by
  have hstep : ∀ r, a.render r = (true, a, [frame_call.sleep]) := by
    intro r; unfold app.render; simp [h]
  induction rs with
  | nil => simp [app.render_steps]
  | cons r rs ih =>
    obtain ⟨h1, h2, h3, -, -⟩ := ih
    simp only [app.render_steps, hstep, Bool.not_true, Bool.false_eq_true, if_false, h1, h2, h3,
      List.length_cons, List.replicate_succ, List.singleton_append, and_self]

theorem iconified_render_steps_witness :
    (app_iconified.render_steps [no_frame, process_fails, no_frame]).1 =
        List.replicate [no_frame, process_fails, no_frame].length true ∧
      (app_iconified.render_steps [no_frame, process_fails, no_frame]).2.1 = app_iconified ∧
      (app_iconified.render_steps [no_frame, process_fails, no_frame]).2.2 =
        List.replicate [no_frame, process_fails, no_frame].length frame_call.sleep ∧
      (app_iconified.render_steps [no_frame, process_fails, no_frame]).2.1.m_frame_counter =
        app_iconified.m_frame_counter ∧
      (app_iconified.render_steps [no_frame, process_fails, no_frame]).2.1.m_last_render_time =
        app_iconified.m_last_render_time :=
  iconified_render_steps app_iconified [no_frame, process_fails, no_frame] (by decide)

theorem imgui_create_result (g : imgui) (n : Nat) (rc : create_results) :
    (g.create n rc).1 = rc.ok ∧
    (g.create n rc).2.m_max_frames = n ∧
    (g.create n rc).2.m_frame = g.m_frame ∧
    (g.create n rc).2.m_vertex_buffers = g.m_vertex_buffers ++ List.replicate n buffer.make ∧
    (g.create n rc).2.m_index_buffers = g.m_index_buffers ++ List.replicate n buffer.make := by
  unfold imgui.create create_results.ok
  cases rc.add_vertex_shader <;> cases rc.add_fragment_shader <;> cases rc.descriptor_create <;>
    cases rc.descriptor_pool_create <;> cases rc.layout_create <;> simp

theorem reload_switch_mode_eq (a : app) (r : step_results) :
    a.reload_switch_mode r =
      if a.window.switch_mode_request then
        (r.switch_mode,
         { a with
            config := { a.config with fullscreen := !a.window.fullscreen },
            window := { a.window with
              input_assigned := false, fullscreen := !a.window.fullscreen,
              switch_mode_request := !r.switch_mode } },
         [op.window_switch_mode (!a.window.fullscreen) r.switch_mode])
      else (true, a, []) := by
  unfold app.reload_switch_mode app.update_window_state window.switch_mode
  cases h1 : a.window.switch_mode_request <;> cases h2 : r.switch_mode <;> simp [h1]

theorem create_target_fields (a : app) (r : step_results) :
    (a.create_target r).1 = r.create_target_ok ∧
    (a.create_target r).2.1.config = a.config ∧
    (a.create_target r).2.1.m_toggle_v_sync = a.m_toggle_v_sync ∧
    (a.create_target r).2.1.window.switch_mode_request = a.window.switch_mode_request ∧
    (a.create_target r).2.1.window.resize_request = a.window.resize_request ∧
    (a.create_target r).2.1.window.fullscreen = a.window.fullscreen ∧
    ∃ tail, (a.create_target r).2.2 =
        op.target_create a.config.v_sync a.config.triple_buffer r.create_target :: tail ∧
      ∀ o ∈ tail, o.of_create = true := by
  unfold app.create_target step_results.create_target_ok
  rcases r.create_target with _ | n
  · simp
  · rcases r.on_create with _ | b
    · cases r.shading_create <;> cases r.renderer_create <;> simp [op.of_create]
    · cases b <;> cases r.shading_create <;> cases r.renderer_create <;>
        simp [op.of_create]

theorem reload_toggle_v_sync_fields (a : app) :
    a.reload_toggle_v_sync.m_toggle_v_sync = false ∧
    a.reload_toggle_v_sync.config.v_sync =
      (if a.m_toggle_v_sync then !a.config.v_sync else a.config.v_sync) ∧
    a.reload_toggle_v_sync.config.fullscreen = a.config.fullscreen ∧
    a.reload_toggle_v_sync.config.triple_buffer = a.config.triple_buffer ∧
    a.reload_toggle_v_sync.window = a.window := by
  unfold app.reload_toggle_v_sync
  cases h : a.m_toggle_v_sync <;> simp [h]

/-- The reload pass from the v-sync block on (app.cpp:591-603), entered in state `s` after
the calls `pre`. -/
theorem recreate_after_switch (s : app) (r : step_results) (pre : List op) :
    ∃ b a' tail,
      (if (!(s.reload_toggle_v_sync.create_target r).1) = true then
          some (false, (s.reload_toggle_v_sync.create_target r).2.1,
            pre ++ (s.reload_toggle_v_sync.create_target r).2.2)
        else
          match (s.reload_toggle_v_sync.create_target r).2.1.create_imgui r with
          | none => none
          | some (b, a5, t5) =>
            some (b, a5, pre ++ (s.reload_toggle_v_sync.create_target r).2.2 ++ t5)) =
        some (b, a', pre ++
          op.target_create a'.config.v_sync s.config.triple_buffer r.create_target :: tail) ∧
      b = (r.create_target_ok && r.create_imgui_ok) ∧
      a'.config.fullscreen = s.config.fullscreen ∧
      a'.config.triple_buffer = s.config.triple_buffer ∧
      a'.window.resize_request = s.window.resize_request ∧
      a'.window.switch_mode_request = s.window.switch_mode_request ∧
      a'.m_toggle_v_sync = false ∧
      a'.config.v_sync = (if s.m_toggle_v_sync then !s.config.v_sync else s.config.v_sync) ∧
      (∀ o ∈ tail, o.of_create = true) ∧
      (b = true → ∃ tg, a'.target = some tg ∧ tg.reload_request = false ∧
        tg.v_sync = a'.config.v_sync ∧ tg.created = true) := by
  obtain ⟨v1, v2, v3, v4, v5⟩ := reload_toggle_v_sync_fields s
  obtain ⟨c1, c2, c3, c4, c5, c6, tail, c7, c8⟩ :=
    create_target_fields s.reload_toggle_v_sync r
  obtain ⟨-, -, -, cs⟩ := create_target_spec s.reload_toggle_v_sync r
  cases hc : (s.reload_toggle_v_sync.create_target r).1
  · simp only [Bool.not_false, if_true]
    refine ⟨false, (s.reload_toggle_v_sync.create_target r).2.1, tail,
      ?_, ?_, ?_, ?_, ?_, ?_, ?_, ?_, c8, fun h => by cases h⟩
    · rw [c7, c2, v4]
    · rw [← c1, hc]; rfl
    · rw [c2, v3]
    · rw [c2, v4]
    · rw [c5, v5]
    · rw [c4, v5]
    · rw [c3, v1]
    · rw [c2, v2]
  · obtain ⟨n, hn, htg⟩ := cs hc
    rw [create_imgui_eq _ r _ htg]
    simp only [Bool.not_true, Bool.false_eq_true, if_false]
    obtain ⟨i1, -, -, -, -⟩ := imgui_create_result
      (s.reload_toggle_v_sync.create_target r).2.1.imgui n r.imgui_create
    refine ⟨((s.reload_toggle_v_sync.create_target r).2.1.imgui.create n r.imgui_create).1
          && r.pipeline_create && r.upload_fonts,
      { (s.reload_toggle_v_sync.create_target r).2.1 with
        imgui := ((s.reload_toggle_v_sync.create_target r).2.1.imgui.create
          n r.imgui_create).2 },
      tail ++ op.imgui_setup :: op.imgui_create n
          (((s.reload_toggle_v_sync.create_target r).2.1.imgui.create n r.imgui_create).1
            && r.pipeline_create) ::
        (if (((s.reload_toggle_v_sync.create_target r).2.1.imgui.create n r.imgui_create).1
            && r.pipeline_create) = true then [op.upload_fonts r.upload_fonts] else []),
      ?_, ?_, ?_, ?_, ?_, ?_, ?_, ?_, ?_, fun _ => ⟨_, htg, rfl, ?_, rfl⟩⟩
    · rw [c7]
      simp only [c2, v4, List.append_assoc, List.cons_append]
    · rw [← c1, hc, i1]; rfl
    · simp only [c2, v3]
    · simp only [c2, v4]
    · simp only [c5, v5]
    · simp only [c4, v5]
    · simp only [c3, v1]
    · simp only [c2, v2]
    · intro o ho
      rcases List.mem_append.1 ho with h | h
      · exact c8 o h
      · simp only [List.mem_cons] at h
        rcases h with rfl | rfl | h
        · rfl
        · rfl
        · split_ifs at h
          · simp only [List.mem_singleton] at h; subst h; rfl
          · simp at h
    · simp only [c2]

/-- The recreation part of a reload pass in detail: its result, the parameters it leaves in
the configuration, the flags it leaves, and its calls. -/
theorem reload_recreate_detail (a : app) (r : step_results) :
    ∃ b a' rest, a.reload_recreate r = some (b, a', a.switch_ops r ++ rest) ∧
      b = (a.switch_mode_ok r && r.create_target_ok && r.create_imgui_ok) ∧
      a'.config.fullscreen =
        (if a.window.switch_mode_request then !a.window.fullscreen else a.config.fullscreen) ∧
      a'.config.triple_buffer = a.config.triple_buffer ∧
      a'.window.resize_request = a.window.resize_request ∧
      a'.window.switch_mode_request = (a.window.switch_mode_request && !r.switch_mode) ∧
      (a.switch_mode_ok r = false →
        rest = [] ∧ a'.config.v_sync = a.config.v_sync ∧
          a'.m_toggle_v_sync = a.m_toggle_v_sync) ∧
      (a.switch_mode_ok r = true →
        a'.m_toggle_v_sync = false ∧
        a'.config.v_sync = (if a.m_toggle_v_sync then !a.config.v_sync else a.config.v_sync) ∧
        ∃ tail, rest =
            op.target_create a'.config.v_sync a.config.triple_buffer r.create_target :: tail ∧
          ∀ o ∈ tail, o.of_create = true) ∧
      (b = true → ∃ tg, a'.target = some tg ∧ tg.reload_request = false ∧
        tg.v_sync = a'.config.v_sync ∧ tg.created = true) := by
  unfold app.reload_recreate app.switch_ops app.switch_mode_ok
  simp only [reload_switch_mode_eq]
  cases hreq : a.window.switch_mode_request
  · simp only [Bool.false_eq_true, if_false, Bool.not_true, Bool.not_false, Bool.true_or,
      List.nil_append, Bool.false_and, Bool.true_and]
    obtain ⟨b, a', tail, he, hb, h1, h2, h3, h4, h5, h6, h7, h8⟩ := recreate_after_switch a r []
    simp only [List.nil_append] at he
    exact ⟨b, a', _, he, hb, h1, h2, h3, by rw [h4, hreq], (fun h => by cases h),
      (fun _ => ⟨h5, h6, tail, rfl, h7⟩), h8⟩
  · cases hsw : r.switch_mode
    · simp only [if_true, Bool.not_false, Bool.not_true, Bool.false_or, Bool.false_and,
        Bool.true_and]
      exact ⟨false,
        { a with
            config := { a.config with fullscreen := !a.window.fullscreen },
            window := { a.window with
              input_assigned := false, fullscreen := !a.window.fullscreen,
              switch_mode_request := true } }, [], by simp, rfl, rfl, rfl, rfl, rfl,
        (fun _ => ⟨rfl, rfl, rfl⟩), (fun h => by cases h), (fun h => by cases h)⟩
    · simp only [if_true, Bool.not_true, Bool.false_eq_true, if_false, Bool.or_true,
        Bool.true_and, Bool.and_false]
      obtain ⟨b, a', tail, he, hb, h1, h2, h3, h4, h5, h6, h7, h8⟩ :=
        recreate_after_switch
          { a with
            config := { a.config with fullscreen := !a.window.fullscreen },
            window := { a.window with
              input_assigned := false, fullscreen := !a.window.fullscreen,
              switch_mode_request := false } } r
          [op.window_switch_mode (!a.window.fullscreen) true]
      exact ⟨b, a', _, he, hb, h1, h2, h3, h4, (fun h => by cases h),
        (fun _ => ⟨h5, h6, tail, rfl, h7⟩), h8⟩

/-- A reload pass in detail: the calls in their order, the result, the parameters left in
the configuration and the trigger flags left. -/
theorem handle_window_reload_detail (a : app) (r : step_results) (tg : render_target)
    (ht : a.target = some tg) (hc : a.window.close_request = false)
    (hp : a.reload_pending tg = true) :
    ∃ b a' rest, a.handle_window r =
        some (b, a', op.wait_for_idle :: (teardown_ops r ++ (a.switch_ops r ++ rest))) ∧
      b = (a.switch_mode_ok r && r.create_target_ok && r.create_imgui_ok) ∧
      a'.config.fullscreen =
        (if a.window.switch_mode_request then !a.window.fullscreen else a.config.fullscreen) ∧
      a'.config.triple_buffer = a.config.triple_buffer ∧
      a'.window.resize_request = a.window.resize_request ∧
      a'.window.switch_mode_request = (a.window.switch_mode_request && !r.switch_mode) ∧
      (a.switch_mode_ok r = false →
        rest = [] ∧ a'.config.v_sync = a.config.v_sync ∧
          a'.m_toggle_v_sync = a.m_toggle_v_sync) ∧
      (a.switch_mode_ok r = true →
        a'.m_toggle_v_sync = false ∧
        a'.config.v_sync = (if a.m_toggle_v_sync then !a.config.v_sync else a.config.v_sync) ∧
        ∃ tail, rest =
            op.target_create a'.config.v_sync a.config.triple_buffer r.create_target :: tail ∧
          ∀ o ∈ tail, o.of_create = true) ∧
      (b = true → ∃ tg', a'.target = some tg' ∧ tg'.reload_request = false ∧
        tg'.v_sync = a'.config.v_sync ∧ tg'.created = true) := by
  unfold app.reload_pending at hp
  obtain ⟨b, a', rest, he, h⟩ := reload_recreate_detail
    { a with imgui := a.imgui.destroy, target := some { tg with created := false } } r
  refine ⟨b, a', rest, ?_, h⟩
  unfold app.handle_window
  simp only [ht, hc, hp, destroy_target_eq a r tg ht, app.destroy_imgui, he, teardown_ops,
    Bool.false_eq_true, if_false, if_true]
  rfl

/-- C15: a reload pass returns `false` (`run_abort`) if the requested mode switch fails, if
`create_target` fails or if `create_imgui` fails, and it returns `true` (`run_continue`) only
if all of them succeeded; whether `create_target` and `create_imgui` succeed is what
`create_target_ok` and `create_imgui_ok` say. -/
theorem reload_failure_is_fatal (a : app) (r : step_results) (tg : render_target)
    (ht : a.target = some tg) (hc : a.window.close_request = false)
    (hp : a.reload_pending tg = true) :
    ∃ b a' t, a.handle_window r = some (b, a', t) ∧
      (a.window.switch_mode_request = true → r.switch_mode = false → b = false) ∧
      (r.create_target_ok = false → b = false) ∧
      (r.create_imgui_ok = false → b = false) ∧
      (b = true → (a.window.switch_mode_request = true → r.switch_mode = true) ∧
        r.create_target_ok = true ∧ r.create_imgui_ok = true) ∧
      (∀ s : app, (s.create_target r).1 = r.create_target_ok) ∧
      (∀ s : app, ∀ x, s.create_imgui r = some x → x.1 = r.create_imgui_ok) := by
  obtain ⟨b, a', rest, he, hb, -⟩ := handle_window_reload_detail a r tg ht hc hp
  refine ⟨b, a', _, he, ?_, ?_, ?_, ?_, fun s => (create_target_fields s r).1, ?_⟩
  · intro h1 h2
    rw [hb, app.switch_mode_ok, h1, h2]; rfl
  · intro h
    rw [hb, h]; simp
  · intro h
    rw [hb, h]; simp
  · intro h
    rw [hb] at h
    simp only [Bool.and_eq_true] at h
    refine ⟨fun h1 => ?_, h.1.2, h.2⟩
    have := h.1.1
    rw [app.switch_mode_ok, h1] at this
    simpa using this
  · intro s x hx
    rcases hs : s.target with _ | tg2
    · simp [app.create_imgui, hs] at hx
    · rw [create_imgui_eq s r tg2 hs] at hx
      cases hx
      simp only [step_results.create_imgui_ok, (imgui_create_result _ _ _).1]

theorem reload_failure_is_fatal_witness :
    ∃ b a' t, app_switch.handle_window switch_fails = some (b, a', t) ∧
      (app_switch.window.switch_mode_request = true → switch_fails.switch_mode = false →
        b = false) ∧
      (switch_fails.create_target_ok = false → b = false) ∧
      (switch_fails.create_imgui_ok = false → b = false) ∧
      (b = true → (app_switch.window.switch_mode_request = true →
          switch_fails.switch_mode = true) ∧
        switch_fails.create_target_ok = true ∧ switch_fails.create_imgui_ok = true) ∧
      (∀ s : app, (s.create_target switch_fails).1 = switch_fails.create_target_ok) ∧
      (∀ s : app, ∀ x, s.create_imgui switch_fails = some x →
        x.1 = switch_fails.create_imgui_ok) :=
  reload_failure_is_fatal app_switch switch_fails _ rfl (by decide) (by decide)

/-- C19 (the code at the failing input): a mode switch is requested and `window.switch_mode`
fails; the window step returns `run_abort` after its teardown and the run-end handler calls
`destroy_target` again: `target->destroy()` is called twice with no creation of a target in
between. When `lava::create_target` returns null instead, the second `destroy_target`
dereferences the null `target`. -/
theorem target_destroyed_twice_on_abort :
    (app_switch.window_step_to_end switch_fails).map
        (fun x => (x.1, x.2.2.filterMap op.target_event)) = some (false, [true, true]) ∧
    ((app_toggle.handle_window target_null).map (fun x => (x.1, x.2.1.target)) =
        some (false, none) ∧
      app_toggle.window_step_to_end target_null = none) := by
  decide

/-- C20: a successful `imgui::create` with frame count `n` on an overlay that holds no
buffers leaves exactly `n` vertex-buffer slots and `n` index-buffer slots, none of them
created; a destroyed overlay holds no buffers; and `app::create_imgui` passes the frame
count of the target, the same that `app::create_block` passes to the command block. -/
theorem pool_slot_count (g : imgui) (n : Nat) (rc : create_results) (a : app)
    (r : step_results) (ok : Bool) (tg : render_target)
    (hv : g.m_vertex_buffers = []) (hi : g.m_index_buffers = [])
    (hok : (g.create n rc).1 = true) (ht : a.target = some tg) :
    ((g.create n rc).2.m_initialized = true ∧ (g.create n rc).2.m_max_frames = n ∧
      (g.create n rc).2.m_vertex_buffers.length = n ∧
      (g.create n rc).2.m_index_buffers.length = n ∧
      (∀ b ∈ (g.create n rc).2.m_vertex_buffers, b.valid = false) ∧
      (∀ b ∈ (g.create n rc).2.m_index_buffers, b.valid = false)) ∧
    (∀ g0 : imgui, g0.m_initialized = true →
      g0.destroy.m_vertex_buffers = [] ∧ g0.destroy.m_index_buffers = []) ∧
    ∃ b1 a1 t1 b2 a2 t2, a.create_imgui r = some (b1, a1, t1) ∧
      a1.create_block ok = some (b2, a2, t2) ∧
      (∃ k, op.imgui_create tg.frame_count k ∈ t1) ∧
      op.block_create tg.frame_count ok ∈ t2 ∧
      a1.imgui.m_max_frames = tg.frame_count ∧
      (b2 = true → a2.block.frame_count = tg.frame_count) := by
  obtain ⟨c1, c2, -, c4, c5⟩ := imgui_create_result g n rc
  refine ⟨⟨?_, c2, by rw [c4, hv]; simp, by rw [c5, hi]; simp, ?_, ?_⟩, ?_, ?_⟩
  · rw [c1] at hok
    unfold create_results.ok at hok
    simp only [Bool.and_eq_true] at hok
    unfold imgui.create
    simp [hok.1.1.1.1, hok.1.1.1.2, hok.1.1.2, hok.1.2, hok.2]
  · intro b hb
    rw [c4, hv] at hb
    simp only [List.nil_append, List.mem_replicate] at hb
    rw [hb.2]; rfl
  · intro b hb
    rw [c5, hi] at hb
    simp only [List.nil_append, List.mem_replicate] at hb
    rw [hb.2]; rfl
  · intro g0 h0
    unfold imgui.destroy imgui.invalidate_device_objects
    simp [h0]
  · rw [create_imgui_eq a r tg ht]
    cases ok
    · refine ⟨_, { a with imgui := (a.imgui.create tg.frame_count r.imgui_create).2 }, _, false,
        { a with imgui := (a.imgui.create tg.frame_count r.imgui_create).2 },
        [op.block_create tg.frame_count false], rfl, ?_,
        ⟨_, List.mem_cons_of_mem _ (List.mem_cons_self _ _)⟩, List.mem_cons_self _ _,
        (imgui_create_result _ _ _).2.1, (fun h => by cases h)⟩
      simp [app.create_block, ht]
    · refine ⟨_, { a with imgui := (a.imgui.create tg.frame_count r.imgui_create).2 }, _, true,
        { a with
          imgui := (a.imgui.create tg.frame_count r.imgui_create).2,
          block := { frame_count := tg.frame_count, cmd_count := a.block.cmd_count + 1 } },
        [op.block_create tg.frame_count true, op.block_add_cmd], rfl, ?_,
        ⟨_, List.mem_cons_of_mem _ (List.mem_cons_self _ _)⟩, List.mem_cons_self _ _,
        (imgui_create_result _ _ _).2.1, (fun _ => rfl)⟩
      simp [app.create_block, ht]

theorem pool_slot_count_witness :
    ((fresh_pool.destroy.create 3 (all_ok 2).imgui_create).2.m_initialized = true ∧
      (fresh_pool.destroy.create 3 (all_ok 2).imgui_create).2.m_max_frames = 3 ∧
      (fresh_pool.destroy.create 3 (all_ok 2).imgui_create).2.m_vertex_buffers.length = 3 ∧
      (fresh_pool.destroy.create 3 (all_ok 2).imgui_create).2.m_index_buffers.length = 3 ∧
      (∀ b ∈ (fresh_pool.destroy.create 3 (all_ok 2).imgui_create).2.m_vertex_buffers,
        b.valid = false) ∧
      (∀ b ∈ (fresh_pool.destroy.create 3 (all_ok 2).imgui_create).2.m_index_buffers,
        b.valid = false)) ∧
    (∀ g0 : imgui, g0.m_initialized = true →
      g0.destroy.m_vertex_buffers = [] ∧ g0.destroy.m_index_buffers = []) ∧
    ∃ b1 a1 t1 b2 a2 t2, app_toggle.create_imgui (all_ok 2) = some (b1, a1, t1) ∧
      a1.create_block true = some (b2, a2, t2) ∧
      (∃ k, op.imgui_create 2 k ∈ t1) ∧
      op.block_create 2 true ∈ t2 ∧
      a1.imgui.m_max_frames = 2 ∧
      (b2 = true → a2.block.frame_count = 2) :=
  pool_slot_count fresh_pool.destroy 3 (all_ok 2).imgui_create app_toggle (all_ok 2) true
    { frame_count := 2, reload_request := false, v_sync := false, triple_buffer := false,
      created := true } (by decide) (by decide) (by decide) rfl

/-- With the current slot inside both buffer lists `render_draw_lists` returns, and leaves
the slot, the frame count and the number of slots as they were. -/
theorem render_draw_lists_some (g : imgui) (dev : device) (dd : ImDrawData)
    (hv : g.m_frame < g.m_vertex_buffers.length) (hi : g.m_frame < g.m_index_buffers.length) :
    ∃ g' t, g.render_draw_lists dev dd = some (g', t) ∧ g'.m_frame = g.m_frame ∧
      g'.m_max_frames = g.m_max_frames ∧
      g'.m_vertex_buffers.length = g.m_vertex_buffers.length ∧
      g'.m_index_buffers.length = g.m_index_buffers.length := by
  by_cases h0 : dd.TotalVtxCount = 0
  · exact ⟨g, [], by simp [imgui.render_draw_lists, h0], rfl, rfl, rfl, rfl⟩
  · obtain ⟨⟨g1, t1⟩, h⟩ : ∃ x, g.prepare_draw_lists dev dd = some x :=
      ⟨_, prepare_draw_lists_eq g dev dd hv hi⟩
    have hs := prepare_draw_lists_state hv hi h
    have hfr : g1.m_frame = g.m_frame := by rw [hs]
    have hlv : g1.m_vertex_buffers.length = g.m_vertex_buffers.length := by rw [hs]; simp
    have hli : g1.m_index_buffers.length = g.m_index_buffers.length := by
      rw [hs]; dsimp only; split_ifs <;> simp
    have h1 : g1.m_frame < g1.m_vertex_buffers.length := by rw [hlv, hfr]; exact hv
    have h2 : g1.m_frame < g1.m_index_buffers.length := by rw [hli, hfr]; exact hi
    refine ⟨g1, t1 ++ [cmd.bind_layout, cmd.bind_vertex_buffers g1.m_frame,
        cmd.bind_index_buffer g1.m_frame, cmd.set_viewport,
        cmd.push_constants 0, cmd.push_constants 2] ++ imgui.draw_lists dd.CmdLists 0 0,
      ?_, hfr, by rw [hs], hlv, hli⟩
    unfold imgui.render_draw_lists
    simp only [h0, if_false, h, List.getElem?_eq_getElem h1, List.getElem?_eq_getElem h2]

/-- One call of `imgui::render` on a pool whose current slot is below the frame count:
it returns and the slot advances by one modulo the frame count. -/
theorem render_advances (g : imgui) (dev : device) (dd : ImDrawData)
    (hf : g.m_frame < g.m_max_frames) (hN : g.m_max_frames < ui32_range)
    (hv : g.m_max_frames ≤ g.m_vertex_buffers.length)
    (hi : g.m_max_frames ≤ g.m_index_buffers.length) :
    ∃ g' t, g.render dev dd = some (g', t) ∧
      g'.m_frame = (g.m_frame + 1) % g.m_max_frames ∧
      g'.m_max_frames = g.m_max_frames ∧
      g'.m_vertex_buffers.length = g.m_vertex_buffers.length ∧
      g'.m_index_buffers.length = g.m_index_buffers.length := by
  obtain ⟨g1, t, h, h1, h2, h3, h4⟩ := render_draw_lists_some g dev dd
    (Nat.lt_of_lt_of_le hf hv) (Nat.lt_of_lt_of_le hf hi)
  have hne : g1.m_max_frames ≠ 0 := by rw [h2]; omega
  refine ⟨{ g1 with m_frame := add32 g1.m_frame 1 % g1.m_max_frames }, t, ?_, ?_, h2, h3, h4⟩
  · unfold imgui.render
    simp only [h, hne, if_false]
  · show add32 g1.m_frame 1 % g1.m_max_frames = _
    rw [h1, h2]
    unfold add32
    rw [Nat.mod_eq_of_lt (show g.m_frame + 1 < ui32_range by omega)]

/-- Rendered frames advance the slot by their number modulo the frame count, from any slot
below the frame count. -/
theorem render_calls_rotate (frames : List (device × ImDrawData)) (g : imgui)
    (hf : g.m_frame < g.m_max_frames) (hN : g.m_max_frames < ui32_range)
    (hv : g.m_max_frames ≤ g.m_vertex_buffers.length)
    (hi : g.m_max_frames ≤ g.m_index_buffers.length) :
    ∃ g' t, g.run_calls (render_calls frames) = some (g', t) ∧
      g'.m_frame = (g.m_frame + frames.length) % g.m_max_frames ∧
      g'.m_max_frames = g.m_max_frames := by
  induction frames generalizing g with
  | nil =>
    exact ⟨g, [], rfl, by simp [Nat.mod_eq_of_lt hf], rfl⟩
  | cons f fs ih =>
    obtain ⟨g1, t1, h, h1, h2, h3, h4⟩ := render_advances g f.1 f.2 hf hN hv hi
    have hpos : 0 < g.m_max_frames := by omega
    obtain ⟨g2, t2, h5, h6, h7⟩ := ih g1 (by rw [h1, h2]; exact Nat.mod_lt _ hpos)
      (by rw [h2]; exact hN) (by rw [h2, h3]; exact hv) (by rw [h2, h4]; exact hi)
    refine ⟨g2, t1 ++ t2, ?_, ?_, by rw [h7, h2]⟩
    · simp only [render_calls, List.map_cons, imgui.run_calls, h]
      simp only [render_calls] at h5
      rw [h5]
    · rw [h6, h1, h2, List.length_cons, Nat.mod_add_mod]
      congr 1
      omega

/-- C21: after a successful `imgui::create` with frame count `N > 0` (an `index` value) on an
overlay standing at slot 0, any number `k` of calls of `imgui::render`, whatever the draw
data (empty draw data included), returns and leaves the current slot at `k mod N`, which
lies in `[0, N)`. -/
theorem slot_index_rotates (g0 : imgui) (N : Nat) (rc : create_results)
    (frames : List (device × ImDrawData))
    (hpos : 0 < N) (hN : N < ui32_range) (h0 : g0.m_frame = 0)
    (_hok : (g0.create N rc).1 = true) :
    ∃ g' t, (g0.create N rc).2.run_calls (render_calls frames) = some (g', t) ∧
      g'.m_frame = frames.length % N ∧ g'.m_frame < N ∧ g'.m_max_frames = N := by
  obtain ⟨-, h1, h2, h3, h4⟩ := imgui_create_result g0 N rc
  obtain ⟨g', t, h, h5, h6⟩ := render_calls_rotate frames (g0.create N rc).2
    (by rw [h1, h2, h0]; exact hpos) (by rw [h1]; exact hN)
    (by rw [h1, h3]; simp) (by rw [h1, h4]; simp)
  rw [h2, h0, Nat.zero_add, h1] at h5
  exact ⟨g', t, h, h5, by rw [h5]; exact Nat.mod_lt _ hpos, by rw [h6, h1]⟩

theorem slot_index_rotates_witness :
    ∃ g' t, (imgui_new.create 2 (all_ok 2).imgui_create).2.run_calls (render_calls
        [(device_ok, triangle),
         (device_ok, { TotalVtxCount := 0, TotalIdxCount := 0, CmdLists := [] }),
         (device_ok, mesh)]) = some (g', t) ∧
      g'.m_frame = [(device_ok, triangle),
          (device_ok, { TotalVtxCount := 0, TotalIdxCount := 0, CmdLists := [] }),
          (device_ok, mesh)].length % 2 ∧
      g'.m_frame < 2 ∧ g'.m_max_frames = 2 :=
  slot_index_rotates imgui_new 2 (all_ok 2).imgui_create _ (by decide) (by decide) rfl
    (by decide)

/-- C25 (the code at the failing input): three slots, two rendered frames, then `destroy` and
`create` with frame count 2. Neither call resets `m_frame`, which stays at 2 while two slots
are held, and the next `render` indexes the buffer lists outside their bounds. -/
theorem slot_index_out_of_range_after_shrink :
    (imgui_new.run_calls (shrinking_reload.take 5)).map
        (fun x => (x.1.m_frame, x.1.m_vertex_buffers.length, x.1.m_index_buffers.length)) =
      some (2, 2, 2) ∧
    imgui_new.run_calls shrinking_reload = none := by
  decide

theorem copied_vertex_bytes_append (slot : Nat) (t1 t2 : List cmd) :
    copied_vertex_bytes slot (t1 ++ t2) =
      copied_vertex_bytes slot t1 + copied_vertex_bytes slot t2 := by
  simp [copied_vertex_bytes]

theorem copied_index_bytes_append (slot : Nat) (t1 t2 : List cmd) :
    copied_index_bytes slot (t1 ++ t2) =
      copied_index_bytes slot t1 + copied_index_bytes slot t2 := by
  simp [copied_index_bytes]

/-- Buffer operations copy nothing. -/
theorem copied_bytes_buffer_ops (slot s : Nat) (ops : List buffer_op) :
    copied_vertex_bytes slot (ops.map (cmd.vertex_buffer s)) = 0 ∧
    copied_vertex_bytes slot (ops.map (cmd.index_buffer s)) = 0 ∧
    copied_index_bytes slot (ops.map (cmd.vertex_buffer s)) = 0 ∧
    copied_index_bytes slot (ops.map (cmd.index_buffer s)) = 0 := by
  induction ops with
  | nil => simp [copied_vertex_bytes, copied_index_bytes]
  | cons o os ih =>
    simp only [copied_vertex_bytes, copied_index_bytes, List.map_cons, List.sum_cons,
      cmd.vertex_bytes, cmd.index_bytes, Nat.zero_add] at ih ⊢
    exact ih

/-- The copy loop copies as many vertices and indices as the lists hold. -/
theorem copied_bytes_copy_lists (slot : Nat) (ls : List ImDrawList) (v i : Nat) :
    copied_vertex_bytes slot (copy_lists slot ls v i) = vtx_count ls * sizeof_ImDrawVert ∧
    copied_index_bytes slot (copy_lists slot ls v i) = idx_count ls * sizeof_ImDrawIdx := by
  induction ls generalizing v i with
  | nil => simp [copy_lists, copied_vertex_bytes, copied_index_bytes, vtx_count, idx_count]
  | cons l ls ih =>
    have h := ih (v + l.VtxBuffer_Size) (i + l.IdxBuffer_Size)
    simp only [copied_vertex_bytes, copied_index_bytes, copy_lists, List.map_cons,
      List.sum_cons, cmd.vertex_bytes, cmd.index_bytes, if_true, Nat.zero_add, vtx_count,
      idx_count, Nat.add_zero] at h ⊢
    rw [h.1, h.2]
    constructor <;> ring

/-- Every copy of the copy loop goes to the given slot and lies between the start offsets
and the start offsets plus the counts of all lists. -/
theorem copy_lists_extent (slot : Nat) (ls : List ImDrawList) (v i : Nat) :
    (∀ s dst count, cmd.copy_vertices s dst count ∈ copy_lists slot ls v i →
      s = slot ∧ v ≤ dst ∧ dst + count ≤ v + vtx_count ls) ∧
    (∀ s dst count, cmd.copy_indices s dst count ∈ copy_lists slot ls v i →
      s = slot ∧ i ≤ dst ∧ dst + count ≤ i + idx_count ls) := by
  induction ls generalizing v i with
  | nil => simp [copy_lists]
  | cons l ls ih =>
    have h := ih (v + l.VtxBuffer_Size) (i + l.IdxBuffer_Size)
    have e1 : vtx_count (l :: ls) = l.VtxBuffer_Size + vtx_count ls := by simp [vtx_count]
    have e2 : idx_count (l :: ls) = l.IdxBuffer_Size + idx_count ls := by simp [idx_count]
    constructor
    · intro s dst count hm
      simp only [copy_lists, List.mem_cons, cmd.copy_vertices.injEq, reduceCtorEq,
        false_or] at hm
      rcases hm with ⟨rfl, rfl, rfl⟩ | hm
      · exact ⟨rfl, le_refl _, by omega⟩
      · have := h.1 s dst count hm
        exact ⟨this.1, by omega, by omega⟩
    · intro s dst count hm
      simp only [copy_lists, List.mem_cons, cmd.copy_indices.injEq, reduceCtorEq,
        false_or] at hm
      rcases hm with ⟨rfl, rfl, rfl⟩ | hm
      · exact ⟨rfl, le_refl _, by omega⟩
      · have := h.2 s dst count hm
        exact ⟨this.1, by omega, by omega⟩

/-- A buffer block that does not return early leaves a buffer of at least the required size. -/
theorem check_buffer_fits {b : buffer} {r a : Nat} {ok : Bool} (hr2 : r ≤ 2 ^ 63) (ha : 0 < a)
    (ha2 : a < size_range) (h : (check_buffer b r a ok).2.2 = true) :
    r ≤ (check_buffer b r a ok).1.get_size := by
  have hge : ok = true → r ≤ aligned_size r a := fun _ => by
    rcases Nat.eq_zero_or_pos r with h0 | hr
    · omega
    · exact aligned_size_ge hr hr2 ha ha2
  unfold check_buffer at h ⊢
  split_ifs at h ⊢ with h1 h2
  · cases ok
    · simp [buffer.create] at h
    · simpa [buffer.create, buffer.get_size] using hge rfl
  · cases ok
    · simp [buffer.create] at h
    · simpa [buffer.create, buffer.get_size] using hge rfl
  · have h2 : ¬ b.get_size < r := fun hlt => h1 (by simp [hlt])
    exact Nat.le_of_not_lt h2

/-- C26: for draw data whose totals (non-negative `int`s) are the sums of the per-list
counts, on a slot inside both buffer lists with an alignment `0 < a < 2^64`, when neither
buffer block of `prepare_draw_lists` returns early (each check passes or its creation
succeeds) the function returns, copies `TotalVtxCount * sizeof(ImDrawVert)` bytes into the
slot's vertex buffer and `TotalIdxCount * sizeof(ImDrawIdx)` bytes into its index buffer,
neither more than the buffer's capacity, and every single copy ends inside its buffer. -/
theorem copied_data_fits (g : imgui) (dev : device) (dd : ImDrawData)
    (ha : 0 < g.m_buffer_memory_alignment) (ha2 : g.m_buffer_memory_alignment < size_range)
    (hvc : dd.TotalVtxCount < int_range) (hic : dd.TotalIdxCount < int_range)
    (hv : g.m_frame < g.m_vertex_buffers.length) (hi : g.m_frame < g.m_index_buffers.length)
    (hsv : dd.TotalVtxCount = vtx_count dd.CmdLists)
    (hsi : dd.TotalIdxCount = idx_count dd.CmdLists)
    (hcv : (g.vertex_check dev dd).2.2 = true) (hci : (g.index_check dev dd).2.2 = true) :
    ∃ g' t, g.prepare_draw_lists dev dd = some (g', t) ∧
      copied_vertex_bytes g.m_frame t = dd.TotalVtxCount * sizeof_ImDrawVert ∧
      copied_index_bytes g.m_frame t = dd.TotalIdxCount * sizeof_ImDrawIdx ∧
      copied_vertex_bytes g.m_frame t ≤ g'.vertex_capacity g.m_frame ∧
      copied_index_bytes g.m_frame t ≤ g'.index_capacity g.m_frame ∧
      (∀ s dst count, cmd.copy_vertices s dst count ∈ t →
        s = g.m_frame ∧ (dst + count) * sizeof_ImDrawVert ≤ g'.vertex_capacity g.m_frame) ∧
      (∀ s dst count, cmd.copy_indices s dst count ∈ t →
        s = g.m_frame ∧ (dst + count) * sizeof_ImDrawIdx ≤ g'.index_capacity g.m_frame) := by
  have hV := mul64_count_le _ sizeof_ImDrawVert hvc (by decide)
  have hI := mul64_count_le _ sizeof_ImDrawIdx hic (by decide)
  have hfv : dd.TotalVtxCount * sizeof_ImDrawVert ≤ (g.vertex_check dev dd).1.get_size := by
    have h1 : mul64 dd.TotalVtxCount sizeof_ImDrawVert ≤ (g.vertex_check dev dd).1.get_size :=
      check_buffer_fits (by rw [hV.1]; exact hV.2) ha ha2 hcv
    exact le_trans (le_of_eq hV.1.symm) h1
  have hfi : dd.TotalIdxCount * sizeof_ImDrawIdx ≤ (g.index_check dev dd).1.get_size := by
    have h1 : mul64 dd.TotalIdxCount sizeof_ImDrawIdx ≤ (g.index_check dev dd).1.get_size :=
      check_buffer_fits (by rw [hI.1]; exact hI.2) ha ha2 hci
    exact le_trans (le_of_eq hI.1.symm) h1
  have heq : g.prepare_draw_lists dev dd = some
      ({ g with
          m_vertex_buffers := g.m_vertex_buffers.set g.m_frame (g.vertex_check dev dd).1
          m_index_buffers := g.m_index_buffers.set g.m_frame (g.index_check dev dd).1 },
        (g.vertex_check dev dd).2.1.map (cmd.vertex_buffer g.m_frame)
          ++ (g.index_check dev dd).2.1.map (cmd.index_buffer g.m_frame)
          ++ copy_lists g.m_frame dd.CmdLists 0 0
          ++ [cmd.flush_mapped_memory_ranges g.m_frame]) := by
    rw [prepare_draw_lists_eq g dev dd hv hi]
    simp [hcv, hci]
  have hcapv : ∀ x, ({ g with
      m_vertex_buffers := g.m_vertex_buffers.set g.m_frame (g.vertex_check dev dd).1
      m_index_buffers := x } : imgui).vertex_capacity g.m_frame
        = (g.vertex_check dev dd).1.get_size := fun x => by
    simp [imgui.vertex_capacity, getD_set, hv]
  have hcapi : ∀ x, ({ g with
      m_vertex_buffers := x
      m_index_buffers := g.m_index_buffers.set g.m_frame (g.index_check dev dd).1 }
        : imgui).index_capacity g.m_frame
        = (g.index_check dev dd).1.get_size := fun x => by
    simp [imgui.index_capacity, getD_set, hi]
  have hb1 := copied_bytes_buffer_ops g.m_frame g.m_frame (g.vertex_check dev dd).2.1
  have hb2 := copied_bytes_buffer_ops g.m_frame g.m_frame (g.index_check dev dd).2.1
  have hc := copied_bytes_copy_lists g.m_frame dd.CmdLists 0 0
  have hx := copy_lists_extent g.m_frame dd.CmdLists 0 0
  have hsumv : copied_vertex_bytes g.m_frame
      ((g.vertex_check dev dd).2.1.map (cmd.vertex_buffer g.m_frame)
          ++ (g.index_check dev dd).2.1.map (cmd.index_buffer g.m_frame)
          ++ copy_lists g.m_frame dd.CmdLists 0 0
          ++ [cmd.flush_mapped_memory_ranges g.m_frame])
        = dd.TotalVtxCount * sizeof_ImDrawVert := by
    rw [copied_vertex_bytes_append, copied_vertex_bytes_append, copied_vertex_bytes_append,
      hb1.1, hb2.2.1, hc.1, hsv]
    simp [copied_vertex_bytes, cmd.vertex_bytes]
  have hsumi : copied_index_bytes g.m_frame
      ((g.vertex_check dev dd).2.1.map (cmd.vertex_buffer g.m_frame)
          ++ (g.index_check dev dd).2.1.map (cmd.index_buffer g.m_frame)
          ++ copy_lists g.m_frame dd.CmdLists 0 0
          ++ [cmd.flush_mapped_memory_ranges g.m_frame])
        = dd.TotalIdxCount * sizeof_ImDrawIdx := by
    rw [copied_index_bytes_append, copied_index_bytes_append, copied_index_bytes_append,
      hb1.2.2.1, hb2.2.2.2, hc.2, hsi]
    simp [copied_index_bytes, cmd.index_bytes]
  refine ⟨_, _, heq, hsumv, hsumi, ?_, ?_, ?_, ?_⟩
  · rw [hsumv, hcapv]; exact hfv
  · rw [hsumi, hcapi]; exact hfi
  · intro s dst count hm
    have hm2 : cmd.copy_vertices s dst count ∈ copy_lists g.m_frame dd.CmdLists 0 0 := by
      simpa using hm
    obtain ⟨h1, -, h3⟩ := hx.1 s dst count hm2
    refine ⟨h1, ?_⟩
    rw [hcapv]
    rw [Nat.zero_add, ← hsv] at h3
    exact le_trans (Nat.mul_le_mul_right _ h3) hfv
  · intro s dst count hm
    have hm2 : cmd.copy_indices s dst count ∈ copy_lists g.m_frame dd.CmdLists 0 0 := by
      simpa using hm
    obtain ⟨h1, -, h3⟩ := hx.2 s dst count hm2
    refine ⟨h1, ?_⟩
    rw [hcapi]
    rw [Nat.zero_add, ← hsi] at h3
    exact le_trans (Nat.mul_le_mul_right _ h3) hfi

theorem copied_data_fits_witness :
    ∃ g' t, fresh_pool.prepare_draw_lists device_ok mesh = some (g', t) ∧
      copied_vertex_bytes 0 t = 20 * sizeof_ImDrawVert ∧
      copied_index_bytes 0 t = 30 * sizeof_ImDrawIdx ∧
      copied_vertex_bytes 0 t ≤ g'.vertex_capacity 0 ∧
      copied_index_bytes 0 t ≤ g'.index_capacity 0 ∧
      (∀ s dst count, cmd.copy_vertices s dst count ∈ t →
        s = 0 ∧ (dst + count) * sizeof_ImDrawVert ≤ g'.vertex_capacity 0) ∧
      (∀ s dst count, cmd.copy_indices s dst count ∈ t →
        s = 0 ∧ (dst + count) * sizeof_ImDrawIdx ≤ g'.index_capacity 0) :=
  copied_data_fits fresh_pool device_ok mesh (by decide) (by decide) (by decide) (by decide)
    (by decide) (by decide) (by decide) (by decide) (by decide) (by decide)

theorem vtx_count_append (l1 l2 : List ImDrawList) :
    vtx_count (l1 ++ l2) = vtx_count l1 + vtx_count l2 := by simp [vtx_count]

theorem idx_count_append (l1 l2 : List ImDrawList) :
    idx_count (l1 ++ l2) = idx_count l1 + idx_count l2 := by simp [idx_count]

theorem elems_append (l1 l2 : List ImDrawList) :
    elems (l1 ++ l2) = elems l1 + elems l2 := by simp [elems]

theorem elem_count_append (c1 c2 : List ImDrawCmd) :
    elem_count (c1 ++ c2) = elem_count c1 + elem_count c2 := by simp [elem_count]

theorem copy_lists_cons (slot : Nat) (l : ImDrawList) (ls : List ImDrawList) (v i : Nat) :
    copy_lists slot (l :: ls) v i =
      cmd.copy_vertices slot v l.VtxBuffer_Size :: cmd.copy_indices slot i l.IdxBuffer_Size ::
        copy_lists slot ls (v + l.VtxBuffer_Size) (i + l.IdxBuffer_Size) := rfl

theorem draw_cmds_cons (v : Nat) (c : ImDrawCmd) (cs : List ImDrawCmd) (i : Nat) :
    imgui.draw_cmds v (c :: cs) i =
      if c.UserCallback then
        (cmd.user_callback :: (imgui.draw_cmds v cs (add32 i c.ElemCount)).1,
          (imgui.draw_cmds v cs (add32 i c.ElemCount)).2)
      else
        (cmd.set_scissor :: cmd.draw_indexed c.ElemCount i v ::
            (imgui.draw_cmds v cs (add32 i c.ElemCount)).1,
          (imgui.draw_cmds v cs (add32 i c.ElemCount)).2) := rfl

theorem draw_lists_cons (l : ImDrawList) (ls : List ImDrawList) (i v : Nat) :
    imgui.draw_lists (l :: ls) i v =
      (imgui.draw_cmds v l.CmdBuffer i).1 ++
        imgui.draw_lists ls (imgui.draw_cmds v l.CmdBuffer i).2 (add32 v l.VtxBuffer_Size) := rfl

/-- The copy loop on appended lists: the later lists are copied behind the earlier ones. -/
theorem copy_lists_append (slot : Nat) (l1 l2 : List ImDrawList) (v i : Nat) :
    copy_lists slot (l1 ++ l2) v i =
      copy_lists slot l1 v i ++ copy_lists slot l2 (v + vtx_count l1) (i + idx_count l1) := by
  induction l1 generalizing v i with
  | nil => simp [copy_lists, vtx_count, idx_count]
  | cons l ls ih =>
    have e1 : vtx_count (l :: ls) = l.VtxBuffer_Size + vtx_count ls := by simp [vtx_count]
    have e2 : idx_count (l :: ls) = l.IdxBuffer_Size + idx_count ls := by simp [idx_count]
    rw [List.cons_append, copy_lists_cons, copy_lists_cons, ih, e1, e2]
    simp only [List.cons_append, Nat.add_assoc]

/-- The index offset after the commands of one list, while it stays a 32-bit value. -/
theorem draw_cmds_offset (v : Nat) (cs : List ImDrawCmd) (i : Nat)
    (h : i + elem_count cs < ui32_range) : (imgui.draw_cmds v cs i).2 = i + elem_count cs := by
  induction cs generalizing i with
  | nil => simp [imgui.draw_cmds, elem_count]
  | cons c cs ih =>
    have e : elem_count (c :: cs) = c.ElemCount + elem_count cs := by simp [elem_count]
    rw [e] at h ⊢
    have ha : add32 i c.ElemCount = i + c.ElemCount := Nat.mod_eq_of_lt (by omega)
    have := ih (i + c.ElemCount) (by omega)
    rw [draw_cmds_cons]
    split_ifs <;> simp only [ha, this] <;> omega

/-- The commands recorded for appended draw commands of one list. -/
theorem draw_cmds_append (v : Nat) (c1 c2 : List ImDrawCmd) (i : Nat)
    (h : i + elem_count c1 < ui32_range) :
    imgui.draw_cmds v (c1 ++ c2) i =
      ((imgui.draw_cmds v c1 i).1 ++ (imgui.draw_cmds v c2 (i + elem_count c1)).1,
        (imgui.draw_cmds v c2 (i + elem_count c1)).2) := by
  induction c1 generalizing i with
  | nil => simp [imgui.draw_cmds, elem_count]
  | cons c cs ih =>
    have e : elem_count (c :: cs) = c.ElemCount + elem_count cs := by simp [elem_count]
    rw [e] at h ⊢
    have ha : add32 i c.ElemCount = i + c.ElemCount := Nat.mod_eq_of_lt (by omega)
    have := ih (i + c.ElemCount) (by omega)
    rw [List.cons_append, draw_cmds_cons, draw_cmds_cons, ha, this]
    simp only [Nat.add_assoc]
    split_ifs <;> simp

/-- The commands recorded for appended command lists, while the offsets stay 32-bit values. -/
theorem draw_lists_append (l1 l2 : List ImDrawList) (i v : Nat)
    (hi : i + elems l1 < ui32_range) (hv : v + vtx_count l1 < ui32_range) :
    imgui.draw_lists (l1 ++ l2) i v =
      imgui.draw_lists l1 i v ++ imgui.draw_lists l2 (i + elems l1) (v + vtx_count l1) := by
  induction l1 generalizing i v with
  | nil => simp [imgui.draw_lists, elems, vtx_count]
  | cons l ls ih =>
    have e1 : elems (l :: ls) = elem_count l.CmdBuffer + elems ls := by simp [elems]
    have e2 : vtx_count (l :: ls) = l.VtxBuffer_Size + vtx_count ls := by simp [vtx_count]
    rw [e1] at hi ⊢
    rw [e2] at hv ⊢
    have ha : add32 v l.VtxBuffer_Size = v + l.VtxBuffer_Size := Nat.mod_eq_of_lt (by omega)
    have ho := draw_cmds_offset v l.CmdBuffer i (by omega)
    rw [List.cons_append, draw_lists_cons, draw_lists_cons, ha, ho,
      ih _ _ (by omega) (by omega)]
    simp only [List.append_assoc, Nat.add_assoc]

/-- When every list holds as many indices as its commands draw, the index count of the lists
is the number of elements of their commands. -/
theorem idx_count_eq_elems (ls : List ImDrawList)
    (h : ∀ l ∈ ls, l.IdxBuffer_Size = elem_count l.CmdBuffer) : idx_count ls = elems ls := by
  induction ls with
  | nil => rfl
  | cons l ls ih =>
    have h1 := h l (List.mem_cons_self _ _)
    have h2 := ih fun x hx => h x (List.mem_cons_of_mem _ hx)
    simp only [idx_count, elems, List.map_cons, List.sum_cons] at h2 ⊢
    rw [h1, h2]

/-- The draw loop and the copy loop started at offsets 0 on lists split at a draw command `c`
(not a user callback) of a list `l`, for vertex counts and element counts that sum to 32-bit
values: the draw loop records the indexed draw of `c` with the vertex offset `vtx_count pre`
and the first index `elems pre + elem_count cpre`; the copy loop copies the vertices of `l`
to element offset `vtx_count pre` and its indices to `idx_count pre`. -/
theorem loops_at_command (slot : Nat) (pre post : List ImDrawList) (l : ImDrawList)
    (cpre cpost : List ImDrawCmd) (c : ImDrawCmd)
    (hl : l.CmdBuffer = cpre ++ c :: cpost) (hc : c.UserCallback = false)
    (hv : vtx_count (pre ++ l :: post) < ui32_range)
    (he : elems (pre ++ l :: post) < ui32_range) :
    (∃ rest, imgui.draw_lists (pre ++ l :: post) 0 0 =
      imgui.draw_lists pre 0 0 ++ (imgui.draw_cmds (vtx_count pre) cpre (elems pre)).1 ++
        cmd.set_scissor ::
        cmd.draw_indexed c.ElemCount (elems pre + elem_count cpre) (vtx_count pre) :: rest) ∧
    copy_lists slot (pre ++ l :: post) 0 0 =
      copy_lists slot pre 0 0 ++
        cmd.copy_vertices slot (vtx_count pre) l.VtxBuffer_Size ::
        cmd.copy_indices slot (idx_count pre) l.IdxBuffer_Size ::
        copy_lists slot post (vtx_count pre + l.VtxBuffer_Size)
          (idx_count pre + l.IdxBuffer_Size) ∧
    ((∀ x ∈ pre, x.IdxBuffer_Size = elem_count x.CmdBuffer) → idx_count pre = elems pre) := by
  have e1 : vtx_count (pre ++ l :: post) = vtx_count pre + (l.VtxBuffer_Size + vtx_count post) := by
    simp [vtx_count]
  have e2 : elems (pre ++ l :: post) =
      elems pre + (elem_count cpre + (c.ElemCount + elem_count cpost) + elems post) := by
    simp [elems, elem_count, hl]
  rw [e1] at hv
  rw [e2] at he
  refine ⟨?_, ?_, idx_count_eq_elems pre⟩
  · rw [draw_lists_append pre (l :: post) 0 0 (by omega) (by omega)]
    rw [Nat.zero_add, Nat.zero_add, draw_lists_cons, hl,
      draw_cmds_append (vtx_count pre) cpre (c :: cpost) (elems pre) (by omega),
      draw_cmds_cons]
    simp only [hc, Bool.false_eq_true, if_false, List.append_assoc, List.cons_append]
    exact ⟨_, rfl⟩
  · rw [copy_lists_append, copy_lists_cons, Nat.zero_add, Nat.zero_add]

/-- The frame counter after one render step: unchanged when the step is skipped, one more
(in `ui32`) when `begin_frame` returned a frame. -/
theorem render_frame_counter (a : app) (r : render_results) :
    (a.render r).2.1.m_frame_counter =
      if a.window.iconified = true ∨
          (a.config.fps_cap ≠ 0 ∧ r.timestamp_check < a.m_last_render_time + r.frame_time_us) ∨
          r.begin_frame = none
      then a.m_frame_counter else add32 a.m_frame_counter 1 := by
  by_cases h1 : a.window.iconified = true
  · simp [app.render, h1]
  · by_cases h2 : a.config.fps_cap ≠ 0 ∧
        r.timestamp_check < a.m_last_render_time + r.frame_time_us
    · simp [app.render, h1, h2]
    · rcases hb : r.begin_frame with _ | i
      · simp [app.render, h1, h2, hb]
      · cases hp : r.process <;> simp [app.render, h1, h2, hb, hp]

/-- The number of frames begun in one render step: none when the step is skipped, one when
`begin_frame` returned a frame. -/
theorem render_frames_begun (a : app) (r : render_results) :
    frames_begun (a.render r).2.2 =
      if a.window.iconified = true ∨
          (a.config.fps_cap ≠ 0 ∧ r.timestamp_check < a.m_last_render_time + r.frame_time_us) ∨
          r.begin_frame = none
      then 0 else 1 := by
  by_cases h1 : a.window.iconified = true
  · simp [app.render, h1, frames_begun, frame_call.begun]
  · by_cases h2 : a.config.fps_cap ≠ 0 ∧
        r.timestamp_check < a.m_last_render_time + r.frame_time_us
    · simp [app.render, h1, h2, frames_begun]
    · rcases hb : r.begin_frame with _ | i
      · simp [app.render, h1, h2, hb, frames_begun, frame_call.begun]
      · cases hp : r.process <;>
          simp [app.render, h1, h2, hb, hp, frames_begun, frame_call.begun, List.countP_cons]

/-- Over consecutive render steps the frame counter advances by the number of frames begun,
in `ui32`. -/
theorem render_steps_frame_counter (rs : List render_results) (a : app)
    (h : a.m_frame_counter < ui32_range) :
    (a.render_steps rs).2.1.m_frame_counter =
      (a.m_frame_counter + frames_begun (a.render_steps rs).2.2) % ui32_range := by
  induction rs generalizing a with
  | nil => simp [app.render_steps, frames_begun, Nat.mod_eq_of_lt h]
  | cons r rs ih =>
    have hc := render_frame_counter a r
    have hn := render_frames_begun a r
    have hstep : (a.render r).2.1.m_frame_counter =
        (a.m_frame_counter + frames_begun (a.render r).2.2) % ui32_range := by
      rw [hc, hn]
      split_ifs
      · simp [Nat.mod_eq_of_lt h]
      · rfl
    have hlt : (a.render r).2.1.m_frame_counter < ui32_range := by
      rw [hstep]; exact Nat.mod_lt _ (by decide)
    cases hb : (a.render r).1
    · simp only [app.render_steps, hb, Bool.not_false, if_true]
      exact hstep
    · have := ih (a.render r).2.1 hlt
      simp only [app.render_steps, hb, Bool.not_true, Bool.false_eq_true, if_false]
      rw [this, hstep]
      simp only [frames_begun, List.countP_append]
      rw [Nat.mod_add_mod, Nat.add_assoc]

/-- C22 (the code at the failing input): a render step in which `begin_frame` returns a frame
and `block.process` fails. The step counts the frame (`m_frame_counter` goes from 0 to 1)
although it returns `run_abort` before `collect_buffers` and `end_frame`, so that no frame was
rendered: the counter is one more than the number of rendered frames. -/
theorem frame_counted_without_render :
    app_toggle.m_frame_counter = 0 ∧
    (app_toggle.render process_fails).1 = false ∧
    (app_toggle.render process_fails).2.1.m_frame_counter = 1 ∧
    (app_toggle.render process_fails).2.2.any frame_call.ended = false := by
  decide

/-- What the code counts: `setup_run` sets the frame counter to 0; after any render steps that
follow it the counter is the number of frames begun (`begin_frame` returned a frame) modulo
`2^32`; one step leaves it unchanged when it is skipped (iconified, fps cap not reached,
`begin_frame` empty) and adds one (in `ui32`) otherwise, also when `block.process` then
fails. -/
theorem frame_counter_counts_begun_frames (a : app) (rs : List render_results)
    (r : render_results) :
    a.setup_run.1.m_frame_counter = 0 ∧
    (a.setup_run.1.render_steps rs).2.1.m_frame_counter =
      frames_begun (a.setup_run.1.render_steps rs).2.2 % ui32_range ∧
    (a.render r).2.1.m_frame_counter =
      (if a.window.iconified = true ∨
          (a.config.fps_cap ≠ 0 ∧ r.timestamp_check < a.m_last_render_time + r.frame_time_us) ∨
          r.begin_frame = none
      then a.m_frame_counter else add32 a.m_frame_counter 1) ∧
    frames_begun (a.render r).2.2 =
      (if a.window.iconified = true ∨
          (a.config.fps_cap ≠ 0 ∧ r.timestamp_check < a.m_last_render_time + r.frame_time_us) ∨
          r.begin_frame = none
      then 0 else 1) := by
  have h0 : a.setup_run.1.m_frame_counter = 0 := rfl
  refine ⟨h0, ?_, render_frame_counter a r, render_frames_begun a r⟩
  have := render_steps_frame_counter rs a.setup_run.1 (by rw [h0]; decide)
  rw [h0, Nat.zero_add] at this
  exact this

/-- The calls of the run-end handler in non-headless mode with a target. -/
theorem run_end_trace (a : app) (r : step_results) (tg : render_target)
    (hh : a.headless = false) (ht : a.target = some tg) :
    (a.run_end r).map Prod.snd =
      some ([op.config_file_save, op.camera_destroy, op.imgui_destroy, op.imgui_fonts_destroy,
          op.block_destroy] ++ (if r.on_destroy_set then [op.on_destroy] else []) ++
        [op.renderer_destroy, op.shading_destroy, op.target_destroy, op.destroy_pipeline_cache,
          op.window_destroy, op.fs_terminate]) := by
  cases hd : r.on_destroy_set <;>
    simp [app.run_end, hh, app.update_window_state, app.destroy_imgui, app.destroy_target, ht,
      hd]

/-- C24: in non-headless mode with a target, the run-end handler of `setup_run` returns and,
among the destructions of overlay, command block, render target and window, makes exactly
these calls in this order: `imgui.destroy`, `block.destroy`, `target->destroy`,
`window.destroy`. -/
theorem shutdown_order (a : app) (r : step_results) (tg : render_target)
    (hh : a.headless = false) (ht : a.target = some tg) :
    ∃ a' t, a.run_end r = some (a', t) ∧
      t.filter op.shutdown_destroy =
        [op.imgui_destroy, op.block_destroy, op.target_destroy, op.window_destroy] := by
  obtain ⟨⟨a', t⟩, h1, h2⟩ := Option.map_eq_some'.1 (run_end_trace a r tg hh ht)
  refine ⟨a', t, h1, ?_⟩
  have h3 : t = _ := h2
  rw [h3]
  cases r.on_destroy_set <;> rfl

theorem shutdown_order_witness :
    ∃ a' t, app_toggle.run_end (all_ok 2) = some (a', t) ∧
      t.filter op.shutdown_destroy =
        [op.imgui_destroy, op.block_destroy, op.target_destroy, op.window_destroy] :=
  shutdown_order app_toggle (all_ok 2) _ rfl rfl

/-- The result of `setup` in headless mode: the state changes only in the configuration and
the frame counter, and the calls are those of the file system, configuration, device,
pipeline cache, update step, run-end handler and run-once registration. -/
theorem setup_headless_eq (a : app) (r : setup_results) (h : a.headless = true) :
    a.setup r =
      if r.frame_ready = false then some (false, a, [])
      else if r.fs_ready = false then some (false, a, [setup_call.setup_file_system false])
      else if r.on_setup = some false then
        some (false, { a with config := r.config },
          [setup_call.setup_file_system true, setup_call.load_config,
           setup_call.parse_cmd_line, setup_call.on_setup false])
      else if r.device_ready = false then
        some (false, { a with config := r.config },
          [setup_call.setup_file_system true, setup_call.load_config,
           setup_call.parse_cmd_line] ++
          (if r.on_setup = none then [] else [setup_call.on_setup true]) ++
          [setup_call.setup_device false])
      else
        some (true, { a with config := r.config, m_frame_counter := 0 },
          [setup_call.setup_file_system true, setup_call.load_config,
           setup_call.parse_cmd_line] ++
          (if r.on_setup = none then [] else [setup_call.on_setup true]) ++
          [setup_call.setup_device true,
           setup_call.create_pipeline_cache r.create_pipeline_cache,
           setup_call.add_run run_step.update,
           setup_call.add_run_end end_handler.shut_down, setup_call.add_run_once] ++
          (if r.parse_benchmark then [setup_call.benchmark] else [])) := by
  unfold app.setup app.setup_run
  cases h1 : r.frame_ready
  · simp
  cases h2 : r.fs_ready
  · simp
  rcases h3 : r.on_setup with _ | b
  · cases h4 : r.device_ready <;> simp [h]
  · cases b
    · simp
    · cases h4 : r.device_ready <;> simp [h]

/-- C23: with `headless` set, `setup` returns and none of its calls creates the window, the
render target, the camera, the overlay or the command block, or registers the input, window
or render step; window, target, overlay and block are left as they were; a successful setup
registers the run-end handler, which then makes no call other than saving the configuration,
destroying the pipeline cache and terminating the file system; and `screenshot()` returns the
empty string without touching the file system. -/
theorem headless_setup (a : app) (r : setup_results) (rs : step_results)
    (sr : screenshot_results) (h : a.headless = true) :
    ∃ b a' t, a.setup r = some (b, a', t) ∧
      (∀ c ∈ t, c.windowed = false) ∧
      (b = true → setup_call.add_run_end end_handler.shut_down ∈ t) ∧
      a'.headless = true ∧ a'.window = a.window ∧ a'.target = a.target ∧
      a'.imgui = a.imgui ∧ a'.block = a.block ∧
      a'.run_end rs =
        some (a', [op.config_file_save, op.destroy_pipeline_cache, op.fs_terminate]) ∧
      (∀ o ∈ [op.config_file_save, op.destroy_pipeline_cache, op.fs_terminate],
        o.destroys = false) ∧
      a'.screenshot sr = some ("", []) := by
  have hr : ∀ a' : app, a'.headless = true →
      a'.run_end rs =
        some (a', [op.config_file_save, op.destroy_pipeline_cache, op.fs_terminate]) ∧
      (∀ o ∈ [op.config_file_save, op.destroy_pipeline_cache, op.fs_terminate],
        o.destroys = false) ∧
      a'.screenshot sr = some ("", []) := fun a' h' =>
    ⟨by simp [app.run_end, h'], by decide, by simp [app.screenshot, h']⟩
  rw [setup_headless_eq a r h]
  by_cases h1 : r.frame_ready = false
  · rw [if_pos h1]
    exact ⟨_, _, _, rfl, by simp, by simp, h, rfl, rfl, rfl, rfl, hr _ h⟩
  rw [if_neg h1]
  by_cases h2 : r.fs_ready = false
  · rw [if_pos h2]
    exact ⟨_, _, _, rfl, by simp [setup_call.windowed], by simp, h, rfl, rfl, rfl, rfl,
      hr _ h⟩
  rw [if_neg h2]
  by_cases h3 : r.on_setup = some false
  · rw [if_pos h3]
    exact ⟨_, _, _, rfl, by simp [setup_call.windowed], by simp, h, rfl, rfl, rfl, rfl,
      hr _ h⟩
  rw [if_neg h3]
  by_cases h4 : r.device_ready = false
  · rw [if_pos h4]
    refine ⟨_, _, _, rfl, ?_, by simp, h, rfl, rfl, rfl, rfl, hr _ h⟩
    split_ifs <;> simp [setup_call.windowed]
  rw [if_neg h4]
  refine ⟨_, _, _, rfl, ?_, ?_, h, rfl, rfl, rfl, rfl, hr _ h⟩
  · split_ifs <;> simp [setup_call.windowed]
  · intro _
    split_ifs <;> simp

theorem headless_setup_witness :
    ∃ b a' t, app_headless.setup setup_ok = some (b, a', t) ∧
      (∀ c ∈ t, c.windowed = false) ∧
      (b = true → setup_call.add_run_end end_handler.shut_down ∈ t) ∧
      a'.headless = true ∧ a'.window = app_headless.window ∧
      a'.target = app_headless.target ∧
      a'.imgui = app_headless.imgui ∧ a'.block = app_headless.block ∧
      a'.run_end (all_ok 2) =
        some (a', [op.config_file_save, op.destroy_pipeline_cache, op.fs_terminate]) ∧
      (∀ o ∈ [op.config_file_save, op.destroy_pipeline_cache, op.fs_terminate],
        o.destroys = false) ∧
      a'.screenshot screenshot_ok = some ("", []) :=
  headless_setup app_headless setup_ok (all_ok 2) screenshot_ok rfl

set_option maxRecDepth 20000 in
/-- C28 (the code at the failing input): a key event with the unknown-key code -1. On
`GLFW_PRESS` and on `GLFW_RELEASE` the function `handle_key_event` writes `io.KeysDown[-1]`,
outside the array of 512 entries, while a key inside the array is handled; its sibling
`handle_mouse_button_event` drops the button -1 without an access. -/
theorem key_unknown_out_of_bounds :
    io_new.KeysDown.length = 512 ∧
    imgui.handle_key_event io_new GLFW_KEY_UNKNOWN 0 GLFW_PRESS 0 = none ∧
    imgui.handle_key_event io_new GLFW_KEY_UNKNOWN 0 GLFW_RELEASE 0 = none ∧
    (imgui.handle_key_event io_new 341 0 GLFW_PRESS 0).map (fun io => io.KeyCtrl) = some true ∧
    imgui.handle_mouse_button_event (List.replicate 5 false) (-1) GLFW_PRESS 0 =
      some (List.replicate 5 false) := by
  decide

/-- C29 (the code at the failing input): a window after `window::create`, with no input
assigned. The key callback dereferences the null `_input`; the scroll, mouse-button,
cursor-position and cursor-enter callbacks check the pointer and drop the event. -/
theorem key_callback_null_input :
    window_created.input_assigned = false ∧
    window.key_callback (some window_created) 65 0 GLFW_PRESS 0 = none ∧
    window.scroll_callback (some window_created) 0 1 = some [] ∧
    window.mouse_button_callback (some window_created) 0 GLFW_PRESS 0 = some [] ∧
    window.cursor_pos_callback (some window_created) 10 20 = some [] ∧
    window.cursor_enter_callback (some window_created) 1 = some [] := by
  decide

/-- C30 (the code at the failing input): both cache queries succeed and the cache folder is
created. `destroy_pipeline_cache` then writes nothing, because it opens the file only when
`create_folder` returned `false`, where it does write; `screenshot` writes its file only when
`create_folder` returned `true`. In both runs the cache is destroyed and the handle is null
afterwards. -/
theorem pipeline_cache_not_saved_when_folder_created :
    app.destroy_pipeline_cache (some 1) cache_folder_ok =
      (none, [fs_call.get_cache_size true, fs_call.get_cache_data true,
              fs_call.create_folder true, fs_call.destroy_cache]) ∧
    (app.destroy_pipeline_cache (some 1) cache_folder_ok).2.any fs_call.writes = false ∧
    app.destroy_pipeline_cache (some 1) cache_no_folder =
      (none, [fs_call.get_cache_size true, fs_call.get_cache_data true,
              fs_call.create_folder false, fs_call.file_open true, fs_call.file_write true,
              fs_call.destroy_cache]) ∧
    (app_toggle.screenshot screenshot_ok).map Prod.snd =
      some [fs_call.create_folder true, fs_call.write_image_png true] ∧
    (app_toggle.screenshot screenshot_no_folder).map Prod.snd =
      some [fs_call.create_folder false] := by
  decide

/-- With non-empty draw data, `render_draw_lists` records the calls of `prepare_draw_lists`,
then the binds, the viewport and the push constants, then the draw loop over the command
lists started at offsets 0. -/
theorem render_draw_lists_trace (g : imgui) (dev : device) (dd : ImDrawData)
    (g1 : imgui) (tp : List cmd) (h0 : dd.TotalVtxCount ≠ 0)
    (hv : g.m_frame < g.m_vertex_buffers.length) (hi : g.m_frame < g.m_index_buffers.length)
    (h : g.prepare_draw_lists dev dd = some (g1, tp)) :
    g.render_draw_lists dev dd =
      some (g1, tp ++ [cmd.bind_layout, cmd.bind_vertex_buffers g.m_frame,
          cmd.bind_index_buffer g.m_frame, cmd.set_viewport,
          cmd.push_constants 0, cmd.push_constants 2] ++
        imgui.draw_lists dd.CmdLists 0 0) := by
  have hs := prepare_draw_lists_state hv hi h
  have hfr : g1.m_frame = g.m_frame := by rw [hs]
  have hlv : g1.m_vertex_buffers.length = g.m_vertex_buffers.length := by rw [hs]; simp
  have hli : g1.m_index_buffers.length = g.m_index_buffers.length := by
    rw [hs]; dsimp only; split_ifs <;> simp
  have h1 : g.m_frame < g1.m_vertex_buffers.length := by rw [hlv]; exact hv
  have h2 : g.m_frame < g1.m_index_buffers.length := by rw [hli]; exact hi
  unfold imgui.render_draw_lists
  simp only [h0, if_false, h, hfr, List.getElem?_eq_getElem h1, List.getElem?_eq_getElem h2]

/-- C27: for draw data with a non-zero vertex total whose command lists are
`pre ++ l :: post`, the vertex counts and element counts summing to 32-bit values, on a slot
inside both buffer lists, when neither buffer block returns early, and for a draw command `c`
(not a user callback) of `l` that follows the commands `cpre`: `prepare_draw_lists` returns
and its calls are the buffer operations, then the copies of the earlier lists, then the copy
of the vertices of `l` to element offset `vtx_count pre` and of its indices to `idx_count pre`,
then the copies of the later lists and the flush; `render_draw_lists` returns and its calls
are those of `prepare_draw_lists`, the binds, and then, after the draws of the earlier lists
and of the earlier commands of `l`, the indexed draw of `c` with the vertex offset
`vtx_count pre` (the sum of the vertex counts of the earlier lists) and the first index
`elems pre + elem_count cpre` (the sum of `ElemCount` over all earlier commands, user
callbacks included); and `idx_count pre = elems pre` when every earlier list holds as many
indices as its commands draw. -/
theorem draw_offsets_match_upload (g : imgui) (dev : device) (dd : ImDrawData)
    (pre post : List ImDrawList) (l : ImDrawList)
    (cpre cpost : List ImDrawCmd) (c : ImDrawCmd)
    (hd : dd.CmdLists = pre ++ l :: post)
    (hl : l.CmdBuffer = cpre ++ c :: cpost) (hc : c.UserCallback = false)
    (h0 : dd.TotalVtxCount ≠ 0)
    (hv : g.m_frame < g.m_vertex_buffers.length) (hi : g.m_frame < g.m_index_buffers.length)
    (hcv : (g.vertex_check dev dd).2.2 = true) (hci : (g.index_check dev dd).2.2 = true)
    (hvb : vtx_count dd.CmdLists < ui32_range) (heb : elems dd.CmdLists < ui32_range) :
    ∃ g1 tp rest,
      g.prepare_draw_lists dev dd = some (g1, tp) ∧
      tp = (g.vertex_check dev dd).2.1.map (cmd.vertex_buffer g.m_frame)
        ++ (g.index_check dev dd).2.1.map (cmd.index_buffer g.m_frame)
        ++ (copy_lists g.m_frame pre 0 0 ++
            cmd.copy_vertices g.m_frame (vtx_count pre) l.VtxBuffer_Size ::
            cmd.copy_indices g.m_frame (idx_count pre) l.IdxBuffer_Size ::
            copy_lists g.m_frame post (vtx_count pre + l.VtxBuffer_Size)
              (idx_count pre + l.IdxBuffer_Size))
        ++ [cmd.flush_mapped_memory_ranges g.m_frame] ∧
      g.render_draw_lists dev dd =
        some (g1, tp ++ [cmd.bind_layout, cmd.bind_vertex_buffers g.m_frame,
            cmd.bind_index_buffer g.m_frame, cmd.set_viewport,
            cmd.push_constants 0, cmd.push_constants 2] ++
          (imgui.draw_lists pre 0 0 ++
            (imgui.draw_cmds (vtx_count pre) cpre (elems pre)).1 ++
            cmd.set_scissor ::
            cmd.draw_indexed c.ElemCount (elems pre + elem_count cpre) (vtx_count pre) ::
            rest)) ∧
      ((∀ x ∈ pre, x.IdxBuffer_Size = elem_count x.CmdBuffer) → idx_count pre = elems pre) := by
  rw [hd] at hvb heb
  obtain ⟨⟨rest, hdraw⟩, hcopy, hidx⟩ :=
    loops_at_command g.m_frame pre post l cpre cpost c hl hc hvb heb
  have heq : g.prepare_draw_lists dev dd = some
      ({ g with
          m_vertex_buffers := g.m_vertex_buffers.set g.m_frame (g.vertex_check dev dd).1
          m_index_buffers := g.m_index_buffers.set g.m_frame (g.index_check dev dd).1 },
        (g.vertex_check dev dd).2.1.map (cmd.vertex_buffer g.m_frame)
          ++ (g.index_check dev dd).2.1.map (cmd.index_buffer g.m_frame)
          ++ copy_lists g.m_frame dd.CmdLists 0 0
          ++ [cmd.flush_mapped_memory_ranges g.m_frame]) := by
    rw [prepare_draw_lists_eq g dev dd hv hi]
    simp [hcv, hci]
  have hr := render_draw_lists_trace g dev dd _ _ h0 hv hi heq
  rw [hd, hdraw, hcopy] at hr
  rw [hd, hcopy] at heq
  exact ⟨_, _, rest, heq, rfl, hr, hidx⟩

theorem draw_offsets_match_upload_witness :
    ∃ g1 tp rest,
      fresh_pool.prepare_draw_lists device_ok two_lists_data = some (g1, tp) ∧
      tp = (fresh_pool.vertex_check device_ok two_lists_data).2.1.map
            (cmd.vertex_buffer fresh_pool.m_frame)
        ++ (fresh_pool.index_check device_ok two_lists_data).2.1.map
            (cmd.index_buffer fresh_pool.m_frame)
        ++ (copy_lists fresh_pool.m_frame two_lists_head 0 0 ++
            cmd.copy_vertices fresh_pool.m_frame (vtx_count two_lists_head)
              two_lists_last.VtxBuffer_Size ::
            cmd.copy_indices fresh_pool.m_frame (idx_count two_lists_head)
              two_lists_last.IdxBuffer_Size ::
            copy_lists fresh_pool.m_frame []
              (vtx_count two_lists_head + two_lists_last.VtxBuffer_Size)
              (idx_count two_lists_head + two_lists_last.IdxBuffer_Size))
        ++ [cmd.flush_mapped_memory_ranges fresh_pool.m_frame] ∧
      fresh_pool.render_draw_lists device_ok two_lists_data =
        some (g1, tp ++ [cmd.bind_layout, cmd.bind_vertex_buffers fresh_pool.m_frame,
            cmd.bind_index_buffer fresh_pool.m_frame, cmd.set_viewport,
            cmd.push_constants 0, cmd.push_constants 2] ++
          (imgui.draw_lists two_lists_head 0 0 ++
            (imgui.draw_cmds (vtx_count two_lists_head)
              [{ ElemCount := 0, UserCallback := true },
               { ElemCount := 6, UserCallback := false }] (elems two_lists_head)).1 ++
            cmd.set_scissor ::
            cmd.draw_indexed 6
              (elems two_lists_head + elem_count [{ ElemCount := 0, UserCallback := true },
                { ElemCount := 6, UserCallback := false }])
              (vtx_count two_lists_head) ::
            rest)) ∧
      ((∀ x ∈ two_lists_head, x.IdxBuffer_Size = elem_count x.CmdBuffer) →
        idx_count two_lists_head = elems two_lists_head) :=
  draw_offsets_match_upload fresh_pool device_ok two_lists_data two_lists_head []
    two_lists_last
    [{ ElemCount := 0, UserCallback := true }, { ElemCount := 6, UserCallback := false }] []
    { ElemCount := 6, UserCallback := false } rfl rfl rfl (by decide) (by decide) (by decide)
    (by decide) (by decide) (by decide) (by decide)

/-- The calls of `prepare_draw_lists` and `render_draw_lists` on the draw data `two_lists_data`
with a fresh one-slot pool: the second list is copied to the offsets 4 and 6, and its last
command is drawn with the first index 12 and the vertex offset 4. -/
theorem two_lists_trace :
    (fresh_pool.prepare_draw_lists device_ok two_lists_data).map Prod.snd =
      some [cmd.vertex_buffer 0 (buffer_op.create 256 true),
            cmd.index_buffer 0 (buffer_op.create 256 true),
            cmd.copy_vertices 0 0 4, cmd.copy_indices 0 0 6,
            cmd.copy_vertices 0 4 8, cmd.copy_indices 0 6 12,
            cmd.flush_mapped_memory_ranges 0] ∧
    (fresh_pool.render_draw_lists device_ok two_lists_data).map
        (fun x => x.2.drop 7) =
      some [cmd.bind_layout, cmd.bind_vertex_buffers 0, cmd.bind_index_buffer 0,
            cmd.set_viewport, cmd.push_constants 0, cmd.push_constants 2,
            cmd.set_scissor, cmd.draw_indexed 6 0 0,
            cmd.user_callback,
            cmd.set_scissor, cmd.draw_indexed 6 6 4,
            cmd.set_scissor, cmd.draw_indexed 6 12 4] := by
  decide

end lava
